import Mathlib

/-!
# Firmware KMS (drivers/gpu/drm/vc4/vc4_firmware_kms.c)

A shallow embedding of the plane path of the firmware KMS driver: the pixel-format
table, the margin adjuster, the construction of the SET_PLANE record and the plane
check, followed by the properties proved about them.

C integers are mathematical integers (Int) reduced explicitly where the C code
converts or wraps: unsigned arithmetic is taken modulo 2^32, a store into a narrower
field truncates to the width of the field, and signed int arithmetic wraps (the
kernel is built with -fno-strict-overflow).
-/

namespace Fkms

/-! ## Machine integers -/

/-- Conversion to u8. -/
def u8 (x : Int) : Int := x % 256

/-- Conversion to s8 (two's complement). -/
def s8 (x : Int) : Int := if x % 256 < 128 then x % 256 else x % 256 - 256

/-- Conversion to u16. -/
def u16 (x : Int) : Int := x % 65536

/-- Conversion to s16 (two's complement). -/
def s16 (x : Int) : Int := if x % 65536 < 32768 then x % 65536 else x % 65536 - 65536

/-- Conversion to unsigned int / u32. -/
def u32 (x : Int) : Int := x % 4294967296

/-- Conversion to int (two's complement); also the result of int arithmetic that wraps. -/
def s32 (x : Int) : Int :=
  if x % 4294967296 < 2147483648 then x % 4294967296 else x % 4294967296 - 4294967296

/-- Range of a u8 value. -/
def is_u8 (x : Int) : Prop := 0 ≤ x ∧ x < 256

/-- Range of a u16 value. -/
def is_u16 (x : Int) : Prop := 0 ≤ x ∧ x < 65536

/-- Range of an s16 value. -/
def is_s16 (x : Int) : Prop := -32768 ≤ x ∧ x < 32768

/-- Range of an unsigned int / u32 value. -/
def is_u32 (x : Int) : Prop := 0 ≤ x ∧ x < 4294967296

/-- Range of an int / int32_t value. -/
def is_s32 (x : Int) : Prop := -2147483648 ≤ x ∧ x < 2147483648

instance (x : Int) : Decidable (is_u8 x) := by unfold is_u8; infer_instance
instance (x : Int) : Decidable (is_u16 x) := by unfold is_u16; infer_instance
instance (x : Int) : Decidable (is_s16 x) := by unfold is_s16; infer_instance
instance (x : Int) : Decidable (is_u32 x) := by unfold is_u32; infer_instance
instance (x : Int) : Decidable (is_s32 x) := by unfold is_s32; infer_instance

/-- The errno value EINVAL. -/
def EINVAL : Int := 22

/-- Modelled from the spec: DIV_ROUND_CLOSEST of include/linux/kernel.h (not among the
sources), the "round-to-nearest integer division" of the Margin Adjuster. The four
uses in the driver have a dividend of type int, so the arithmetic is int arithmetic
with C's truncating division; when the divisor has an unsigned type (divisor_unsigned)
the half divisor is always added, otherwise it is added when dividend and divisor are
both positive or both non-positive and subtracted when their signs differ. In the
driver the divisors are the int fields hdisplay and vdisplay of the mode, so all four
uses take the signed form. -/
def DIV_ROUND_CLOSEST (x d : Int) (divisor_unsigned : Bool) : Int :=
  if divisor_unsigned || (decide (0 < x) == decide (0 < d)) then
    Int.tdiv (s32 (x + Int.tdiv d 2)) d
  else
    Int.tdiv (s32 (x - Int.tdiv d 2)) d

/-! ## Pixel formats and image types -/

/-- Modelled from the spec: fourcc_code of include/uapi/drm/drm_fourcc.h (not among the
sources), which packs four characters into the 32-bit code of a pixel format of the
spec's closed set of pixel formats. -/
def fourcc_code (a b c d : Char) : Nat :=
  a.toNat + b.toNat * 256 + c.toNat * 65536 + d.toNat * 16777216

/-- Modelled from the spec: pixel format XRGB8888 (drm_fourcc.h, code XR24). -/
def DRM_FORMAT_XRGB8888 : Nat := fourcc_code 'X' 'R' '2' '4'
/-- Modelled from the spec: pixel format ARGB8888 (drm_fourcc.h, code AR24). -/
def DRM_FORMAT_ARGB8888 : Nat := fourcc_code 'A' 'R' '2' '4'
/-- Modelled from the spec: pixel format RGB565 (drm_fourcc.h, code RG16). -/
def DRM_FORMAT_RGB565 : Nat := fourcc_code 'R' 'G' '1' '6'
/-- Modelled from the spec: pixel format RGB888 (drm_fourcc.h, code RG24). -/
def DRM_FORMAT_RGB888 : Nat := fourcc_code 'R' 'G' '2' '4'
/-- Modelled from the spec: pixel format BGR888 (drm_fourcc.h, code BG24). -/
def DRM_FORMAT_BGR888 : Nat := fourcc_code 'B' 'G' '2' '4'
/-- Modelled from the spec: pixel format YUV422 (drm_fourcc.h, code YU16). -/
def DRM_FORMAT_YUV422 : Nat := fourcc_code 'Y' 'U' '1' '6'
/-- Modelled from the spec: pixel format YUV420 (drm_fourcc.h, code YU12). -/
def DRM_FORMAT_YUV420 : Nat := fourcc_code 'Y' 'U' '1' '2'
/-- Modelled from the spec: pixel format YVU420 (drm_fourcc.h, code YV12). -/
def DRM_FORMAT_YVU420 : Nat := fourcc_code 'Y' 'V' '1' '2'
/-- Modelled from the spec: pixel format NV12 (drm_fourcc.h, code NV12). -/
def DRM_FORMAT_NV12 : Nat := fourcc_code 'N' 'V' '1' '2'
/-- Modelled from the spec: pixel format NV21 (drm_fourcc.h, code NV21). -/
def DRM_FORMAT_NV21 : Nat := fourcc_code 'N' 'V' '2' '1'
/-- Modelled from the spec: pixel format P030 (drm_fourcc.h, code P030). -/
def DRM_FORMAT_P030 : Nat := fourcc_code 'P' '0' '3' '0'

/-- Modelled from the spec: the closed image-type set, the VC_IMAGE_* enumeration of
vc_image_types.h (not among the sources). The constants the driver names are kept
symbolic; VC_IMAGE_MIN is the zero value of a freshly allocated record. -/
inductive vc_image_type where
  | VC_IMAGE_MIN
  | VC_IMAGE_XRGB8888
  | VC_IMAGE_ARGB8888
  | VC_IMAGE_RGB565
  | VC_IMAGE_BGR888
  | VC_IMAGE_RGB888
  | VC_IMAGE_YUV422PLANAR
  | VC_IMAGE_YUV420
  | VC_IMAGE_YUV420SP
  | VC_IMAGE_YUV10COL
  | VC_IMAGE_YUV420_S
  | VC_IMAGE_TF_RGBX32
  | VC_IMAGE_TF_RGBA32
  | VC_IMAGE_TF_RGB565
  | VC_IMAGE_YUV_UV
deriving DecidableEq, Repr

open vc_image_type

/-- The struct vc_image_format: one row of the format table. -/
structure vc_image_format where
  drm : Nat
  vc_image : vc_image_type
  is_vu : Int
deriving DecidableEq, Repr

/-- The table vc_image_formats[]. -/
def vc_image_formats : List vc_image_format :=
  [ { drm := DRM_FORMAT_XRGB8888, vc_image := VC_IMAGE_XRGB8888, is_vu := 0 },
    { drm := DRM_FORMAT_ARGB8888, vc_image := VC_IMAGE_ARGB8888, is_vu := 0 },
    { drm := DRM_FORMAT_RGB565, vc_image := VC_IMAGE_RGB565, is_vu := 0 },
    { drm := DRM_FORMAT_RGB888, vc_image := VC_IMAGE_BGR888, is_vu := 0 },
    { drm := DRM_FORMAT_BGR888, vc_image := VC_IMAGE_RGB888, is_vu := 0 },
    { drm := DRM_FORMAT_YUV422, vc_image := VC_IMAGE_YUV422PLANAR, is_vu := 0 },
    { drm := DRM_FORMAT_YUV420, vc_image := VC_IMAGE_YUV420, is_vu := 0 },
    { drm := DRM_FORMAT_YVU420, vc_image := VC_IMAGE_YUV420, is_vu := 1 },
    { drm := DRM_FORMAT_NV12, vc_image := VC_IMAGE_YUV420SP, is_vu := 0 },
    { drm := DRM_FORMAT_NV21, vc_image := VC_IMAGE_YUV420SP, is_vu := 1 },
    { drm := DRM_FORMAT_P030, vc_image := VC_IMAGE_YUV10COL, is_vu := 0 } ]

/-- The function vc4_get_vc_image_fmt: the first row whose drm code is the format, or
none for the NULL result. -/
def vc4_get_vc_image_fmt (drm_format : Nat) : Option vc_image_format :=
  vc_image_formats.find? (fun e => e.drm == drm_format)

/-- Modelled from the spec: the chroma color-matrix codes, the VC_IMAGE_YUVINFO_CSC_*
constants of vc_image_types.h (not among the sources), kept symbolic;
VC_IMAGE_YUVINFO_UNSPECIFIED is the zero value of a freshly allocated record. -/
inductive vc_image_yuvinfo where
  | VC_IMAGE_YUVINFO_UNSPECIFIED
  | VC_IMAGE_YUVINFO_CSC_ITUR_BT601
  | VC_IMAGE_YUVINFO_CSC_ITUR_BT709
  | VC_IMAGE_YUVINFO_CSC_JPEG_JFIF
  | VC_IMAGE_YUVINFO_CSC_REC_2020
deriving DecidableEq, Repr

open vc_image_yuvinfo

/-- Modelled from the spec: the colour encodings {BT.601, BT.709, BT.2020} of enum
drm_color_encoding (drm_color_mgmt.h, not among the sources); DRM_COLOR_ENCODING_MAX
stands for a value that is none of the three. -/
inductive drm_color_encoding where
  | DRM_COLOR_YCBCR_BT601
  | DRM_COLOR_YCBCR_BT709
  | DRM_COLOR_YCBCR_BT2020
  | DRM_COLOR_ENCODING_MAX
deriving DecidableEq, Repr

/-- Modelled from the spec: the colour ranges {limited, full} of enum drm_color_range
(drm_color_mgmt.h, not among the sources); DRM_COLOR_RANGE_MAX stands for a value that
is neither. -/
inductive drm_color_range where
  | DRM_COLOR_YCBCR_LIMITED_RANGE
  | DRM_COLOR_YCBCR_FULL_RANGE
  | DRM_COLOR_RANGE_MAX
deriving DecidableEq, Repr

open drm_color_encoding drm_color_range

/-- Modelled from the spec: the linear (no tiling) modifier, DRM_FORMAT_MOD_LINEAR of
drm_fourcc.h (not among the sources). -/
def DRM_FORMAT_MOD_LINEAR : Nat := 0

/-- Modelled from the spec: the page-tiled modifier, DRM_FORMAT_MOD_BROADCOM_VC4_T_TILED
of drm_fourcc.h (not among the sources): vendor 0x07 in the top byte, value 1. -/
def DRM_FORMAT_MOD_BROADCOM_VC4_T_TILED : Nat := 0x0700000000000001

/-- Modelled from the spec: the column-tiled modifier with column height 0,
DRM_FORMAT_MOD_BROADCOM_SAND128 of drm_fourcc.h (not among the sources): vendor 0x07
in the top byte, value 4, the embedded parameter in bits 8..55. -/
def DRM_FORMAT_MOD_BROADCOM_SAND128 : Nat := 0x0700000000000004

/-- Modelled from the spec: fourcc_mod_broadcom_mod of drm_fourcc.h (not among the
sources): the modifier with its embedded parameter (bits 8..55) cleared. -/
def fourcc_mod_broadcom_mod (m : Nat) : Nat := m &&& 0xFF000000000000FF

/-- Modelled from the spec: fourcc_mod_broadcom_param of drm_fourcc.h (not among the
sources): the embedded parameter (bits 8..55) of the modifier, converted to int. -/
def fourcc_mod_broadcom_param (m : Nat) : Int := s32 (((m >>> 8) &&& 0xFFFFFFFFFFFF : Nat) : Int)

/-- Modelled from the spec: the reflection bit DRM_MODE_REFLECT_X of drm_mode.h (not
among the sources). -/
def DRM_MODE_REFLECT_X : Nat := 16

/-- Modelled from the spec: the reflection bit DRM_MODE_REFLECT_Y of drm_mode.h (not
among the sources). -/
def DRM_MODE_REFLECT_Y : Nat := 32

/-- Modelled from the spec: the rotation bit DRM_MODE_ROTATE_0 of drm_mode.h (not among
the sources). -/
def DRM_MODE_ROTATE_0 : Nat := 1

/-- Transform flag TRANSFORM_NO_ROTATE. -/
def TRANSFORM_NO_ROTATE : Nat := 0
/-- Transform flag TRANSFORM_FLIP_HRIZ, BIT(16). -/
def TRANSFORM_FLIP_HRIZ : Nat := 65536
/-- Transform flag TRANSFORM_FLIP_VERT, BIT(17). -/
def TRANSFORM_FLIP_VERT : Nat := 131072

/-! ## Data model -/

/-- The struct set_plane, the payload of the SET_PLANE request. The integer fields hold
values of their C type (u8, s8, u16, s16, u32). -/
structure set_plane where
  display : Int
  plane_id : Int
  vc_image_type : vc_image_type
  layer : Int
  width : Int
  height : Int
  pitch : Int
  vpitch : Int
  src_x : Int
  src_y : Int
  src_w : Int
  src_h : Int
  dst_x : Int
  dst_y : Int
  dst_w : Int
  dst_h : Int
  alpha : Int
  num_planes : Int
  is_vu : Int
  color_encoding : vc_image_yuvinfo
  planes0 : Int
  planes1 : Int
  planes2 : Int
  planes3 : Int
  transform : Nat

/-- The struct rpi_firmware_property_tag_header. -/
structure rpi_firmware_property_tag_header where
  tag : Nat
  buf_size : Nat
  req_resp_size : Nat

/-- The struct mailbox_set_plane. -/
structure mailbox_set_plane where
  tag : rpi_firmware_property_tag_header
  plane : set_plane

/-- The struct vc4_fkms_plane, reduced to the request record it stores. -/
structure vc4_fkms_plane where
  mb : mailbox_set_plane

/-- The margins of struct fkms_crtc_state and of the connector state's tv.margins
(unsigned int each). -/
structure margins where
  left : Int
  right : Int
  top : Int
  bottom : Int

/-- Modelled from the spec: the mode of a CrtcState (clock, h/v timing fields, flags),
struct drm_display_mode of drm_modes.h (not among the sources): clock and the timing
fields are ints and flags is an unsigned int. The driver assigns
drm_driver.get_scanout_position and get_vblank_timestamp in vc4_fkms_bind, so it
builds against the kernels whose drm_display_mode has int timing fields. -/
structure drm_display_mode where
  clock : Int
  hdisplay : Int
  hsync_start : Int
  hsync_end : Int
  htotal : Int
  hskew : Int
  vdisplay : Int
  vsync_start : Int
  vsync_end : Int
  vtotal : Int
  vscan : Int
  flags : Nat

/-- A new connector state of the commit: the CRTC it is bound to (none for a NULL
pointer) and its tv.margins. -/
structure drm_connector_state where
  crtc : Option Nat
  tv_margins : margins

/-- The struct fkms_crtc_state as the plane path reads it: the CRTC it belongs to
(state->crtc), its mode, its own margins, and the new connector states of the commit
it is part of (state->state), in iteration order. -/
structure fkms_crtc_state where
  crtc : Nat
  mode : drm_display_mode
  margins : margins
  connectors : List drm_connector_state

/-- The struct drm_framebuffer as vc4_plane_to_mb reads it: the format code and plane
count of fb->format, the size, the pitches and offsets, the modifier, and the bus
address paddr of the backing object drm_fb_cma_get_gem_obj(fb, 0). -/
structure drm_framebuffer where
  format : Nat
  num_planes : Int
  width : Int
  height : Int
  pitches0 : Int
  pitches1 : Int
  offsets0 : Int
  offsets1 : Int
  offsets2 : Int
  modifier : Nat
  paddr : Int

/-- The struct drm_plane_state as the plane path reads it. The field crtc holds the new
state of the bound CRTC in the same commit (drm_atomic_get_new_crtc_state), none when
no CRTC is bound. -/
structure drm_plane_state where
  fb : Option drm_framebuffer
  crtc : Option fkms_crtc_state
  crtc_x : Int
  crtc_y : Int
  crtc_w : Int
  crtc_h : Int
  src_x : Int
  src_y : Int
  src_w : Int
  src_h : Int
  alpha : Int
  normalized_zpos : Int
  rotation : Nat
  color_encoding : drm_color_encoding
  color_range : drm_color_range
  visible : Bool

/-- The margins hold unsigned int values. -/
def margins.typed (m : margins) : Prop :=
  is_u32 m.left ∧ is_u32 m.right ∧ is_u32 m.top ∧ is_u32 m.bottom

instance (m : margins) : Decidable m.typed := by unfold margins.typed; infer_instance

/-- The active size of the mode lies in the range 0..65535 of a u16. -/
def drm_display_mode.typed (m : drm_display_mode) : Prop :=
  is_u16 m.hdisplay ∧ is_u16 m.vdisplay

instance (m : drm_display_mode) : Decidable m.typed := by
  unfold drm_display_mode.typed; infer_instance

/-- The timing fields of the mode that the timing record carries back lie in the range
0..65535 of the u16 fields of struct set_timings. -/
def drm_display_mode.timings_typed (m : drm_display_mode) : Prop :=
  is_u16 m.hdisplay ∧ is_u16 m.hsync_start ∧ is_u16 m.hsync_end ∧ is_u16 m.htotal ∧
  is_u16 m.vdisplay ∧ is_u16 m.vsync_start ∧ is_u16 m.vsync_end ∧ is_u16 m.vtotal ∧
  is_u16 m.vscan

instance (m : drm_display_mode) : Decidable m.timings_typed := by
  unfold drm_display_mode.timings_typed; infer_instance

/-- The destination rectangle of the record holds values of its field types:
dst_x, dst_y are s16 and dst_w, dst_h are u16. -/
def set_plane.dst_typed (p : set_plane) : Prop :=
  is_s16 p.dst_x ∧ is_s16 p.dst_y ∧ is_u16 p.dst_w ∧ is_u16 p.dst_h

instance (p : set_plane) : Decidable p.dst_typed := by
  unfold set_plane.dst_typed; infer_instance

/-- The geometry and alpha of the plane state hold values of their C types: crtc_x,
crtc_y are int32_t, crtc_w, crtc_h and the source rectangle are uint32_t, alpha is a
u16. -/
def drm_plane_state.typed (s : drm_plane_state) : Prop :=
  is_s32 s.crtc_x ∧ is_s32 s.crtc_y ∧ is_u32 s.crtc_w ∧ is_u32 s.crtc_h ∧
  is_u32 s.src_x ∧ is_u32 s.src_y ∧ is_u32 s.src_w ∧ is_u32 s.src_h ∧ is_u16 s.alpha

instance (s : drm_plane_state) : Decidable s.typed := by
  unfold drm_plane_state.typed; infer_instance

/-- The size and first pitch of the framebuffer hold unsigned int values. -/
def drm_framebuffer.typed (fb : drm_framebuffer) : Prop :=
  is_u32 fb.width ∧ is_u32 fb.height ∧ is_u32 fb.pitches0

instance (fb : drm_framebuffer) : Decidable fb.typed := by
  unfold drm_framebuffer.typed; infer_instance

/-! ## Margin adjuster -/

/-- The function vc4_fkms_crtc_get_margins: the margins of the CRTC state, replaced by
the tv.margins of the first new connector state of the commit bound to this CRTC. -/
def vc4_fkms_crtc_get_margins (state : fkms_crtc_state) : margins :=
  match state.connectors.find? (fun c => c.crtc == some state.crtc) with
  | some conn_state => conn_state.tv_margins
  | none => state.margins

/-- The function vc4_fkms_margins_adj on the new state of the plane's CRTC and the
record being filled: the return value and the record afterwards. The margins are
unsigned ints and hdisplay, vdisplay ints: the test of the degenerate visible area
compares them as unsigned values, the adjusted sizes are computed as unsigned values
and stored in ints, and the four rounding divisions have int dividends and the int
divisors hdisplay and vdisplay. -/
def vc4_fkms_margins_adj (crtc_state : fkms_crtc_state) (plane : set_plane) :
    Int × set_plane :=
  let m := vc4_fkms_crtc_get_margins crtc_state
  let hdisplay := crtc_state.mode.hdisplay
  let vdisplay := crtc_state.mode.vdisplay
  if m.left = 0 ∧ m.right = 0 ∧ m.top = 0 ∧ m.bottom = 0 then
    (0, plane)
  else if u32 (m.left + m.right) ≥ u32 hdisplay ∨ u32 (m.top + m.bottom) ≥ u32 vdisplay then
    (-EINVAL, plane)
  else
    let adjhdisplay := s32 (u32 (hdisplay - u32 (m.left + m.right)))
    let x1 := s16 (DIV_ROUND_CLOSEST (s32 (plane.dst_x * adjhdisplay)) hdisplay false)
    let x2 := s16 (u32 (x1 + m.left))
    let x3 := if x2 > s32 (u32 (hdisplay - m.left)) then s16 (u32 (hdisplay - m.left)) else x2
    let adjvdisplay := s32 (u32 (vdisplay - u32 (m.top + m.bottom)))
    let y1 := s16 (DIV_ROUND_CLOSEST (s32 (plane.dst_y * adjvdisplay)) vdisplay false)
    let y2 := s16 (u32 (y1 + m.top))
    let y3 := if y2 > s32 (u32 (vdisplay - m.top)) then s16 (u32 (vdisplay - m.top)) else y2
    let w := u16 (DIV_ROUND_CLOSEST (s32 (plane.dst_w * adjhdisplay)) hdisplay false)
    let h := u16 (DIV_ROUND_CLOSEST (s32 (plane.dst_h * adjvdisplay)) vdisplay false)
    let plane1 := { plane with dst_x := x3, dst_y := y3, dst_w := w, dst_h := h }
    if w = 0 ∨ h = 0 then (-EINVAL, plane1) else (0, plane1)

/-! ## Plane check -/

/-- The function plane_enabled. -/
def plane_enabled (state : drm_plane_state) : Bool :=
  state.fb.isSome && state.crtc.isSome

/-- The colour-matrix switch of vc4_plane_to_mb on state->color_encoding and
state->color_range. -/
def color_encoding_code (enc : drm_color_encoding) (range : drm_color_range) :
    vc_image_yuvinfo :=
  match enc with
  | DRM_COLOR_YCBCR_BT709 => VC_IMAGE_YUVINFO_CSC_ITUR_BT709
  | DRM_COLOR_YCBCR_BT2020 => VC_IMAGE_YUVINFO_CSC_REC_2020
  | _ =>
    if range = DRM_COLOR_YCBCR_LIMITED_RANGE then VC_IMAGE_YUVINFO_CSC_ITUR_BT601
    else VC_IMAGE_YUVINFO_CSC_JPEG_JFIF

/-- The inner switch of vc4_plane_to_mb under the VC4_T_TILED modifier. -/
def t_tiled_image_type (t : vc_image_type) : vc_image_type :=
  match t with
  | VC_IMAGE_XRGB8888 => VC_IMAGE_TF_RGBX32
  | VC_IMAGE_ARGB8888 => VC_IMAGE_TF_RGBA32
  | VC_IMAGE_RGB565 => VC_IMAGE_TF_RGB565
  | other => other

/-- The inner switch of vc4_plane_to_mb under the SAND128 modifier. -/
def sand128_image_type (t : vc_image_type) : vc_image_type :=
  match t with
  | VC_IMAGE_YUV420SP => VC_IMAGE_YUV_UV
  | other => other

/-- The assignments of vc4_plane_to_mb that precede the call of vc4_fkms_margins_adj
(the fixed fields and the transform), applied to the record plane. The helper
drm_rotation_simplify is not among the sources and is the argument
rotation_simplify. -/
def to_mb_fields (rotation_simplify : Nat → Nat → Nat) (vc_fmt : vc_image_format)
    (plane : set_plane) (state : drm_plane_state) (fb : drm_framebuffer) : set_plane :=
  let rotation := rotation_simplify state.rotation
    (DRM_MODE_ROTATE_0 ||| DRM_MODE_REFLECT_X ||| DRM_MODE_REFLECT_Y)
  let t0 := TRANSFORM_NO_ROTATE
  let t1 := if rotation &&& DRM_MODE_REFLECT_X ≠ 0 then t0 ||| TRANSFORM_FLIP_HRIZ else t0
  let t2 := if rotation &&& DRM_MODE_REFLECT_Y ≠ 0 then t1 ||| TRANSFORM_FLIP_VERT else t1
  { plane with
    vc_image_type := vc_fmt.vc_image
    width := u16 fb.width
    height := u16 fb.height
    pitch := u16 fb.pitches0
    src_w := state.src_w
    src_h := state.src_h
    src_x := state.src_x
    src_y := state.src_y
    dst_w := u16 state.crtc_w
    dst_h := u16 state.crtc_h
    dst_x := s16 state.crtc_x
    dst_y := s16 state.crtc_y
    alpha := u8 (state.alpha / 256)
    layer := s8 (if state.normalized_zpos ≠ 0 then state.normalized_zpos else u32 (-127))
    num_planes := u8 fb.num_planes
    is_vu := u8 vc_fmt.is_vu
    planes0 := u32 (fb.paddr + fb.offsets0)
    transform := t2 }

/-- The part of vc4_plane_to_mb that follows the call of vc4_fkms_margins_adj and fills
the chroma planes, the interleaved-chroma image type and the colour-matrix code. -/
def to_mb_chroma (plane : set_plane) (state : drm_plane_state) (fb : drm_framebuffer) :
    set_plane :=
  let p2 : set_plane :=
    if fb.num_planes > 1 then
      { plane with
        planes1 := u32 (fb.paddr + fb.offsets1)
        planes2 := if fb.num_planes > 2 then u32 (fb.paddr + fb.offsets2) else 0
        vc_image_type :=
          if fb.num_planes = 3 ∧ u32 (fb.offsets2 - fb.offsets1) = fb.pitches1 then
            VC_IMAGE_YUV420_S
          else plane.vc_image_type
        color_encoding := color_encoding_code state.color_encoding state.color_range }
    else
      { plane with planes1 := 0, planes2 := 0 }
  { p2 with planes3 := 0 }

/-- The switch of vc4_plane_to_mb on fourcc_mod_broadcom_mod(fb->modifier). -/
def to_mb_modifier (plane : set_plane) (fb : drm_framebuffer) : set_plane :=
  if fourcc_mod_broadcom_mod fb.modifier = DRM_FORMAT_MOD_BROADCOM_VC4_T_TILED then
    { plane with vc_image_type := t_tiled_image_type plane.vc_image_type }
  else if fourcc_mod_broadcom_mod fb.modifier = DRM_FORMAT_MOD_BROADCOM_SAND128 then
    { plane with
      vc_image_type := sand128_image_type plane.vc_image_type
      pitch := u16 (fourcc_mod_broadcom_param fb.modifier) }
  else plane

/-- The function vc4_plane_to_mb for a plane state with framebuffer fb and the new CRTC
state crtc_state of its CRTC, filling the record mb in place. The result is none when
the format has no row in the table (vc_fmt is NULL and is dereferenced); otherwise it
is the return value, always 0, and the record afterwards. The return value of
vc4_fkms_margins_adj is dropped, as in the source; only its effect on the record is
kept. -/
def vc4_plane_to_mb (rotation_simplify : Nat → Nat → Nat) (mb : mailbox_set_plane)
    (state : drm_plane_state) (fb : drm_framebuffer) (crtc_state : fkms_crtc_state) :
    Option (Int × mailbox_set_plane) :=
  match vc4_get_vc_image_fmt fb.format with
  | none => none
  | some vc_fmt =>
    let p0 := to_mb_fields rotation_simplify vc_fmt mb.plane state fb
    let p1 := (vc4_fkms_margins_adj crtc_state p0).2
    let p3 := to_mb_chroma p1 state fb
    let p4 := to_mb_modifier p3 fb
    some (0, { mb with plane := p4 })

/-- The function vc4_plane_atomic_check on the plane (its stored record) and the new
plane state: 0 with the plane untouched when the plane is not enabled; otherwise the
result of vc4_plane_to_mb on the stored record, none when vc4_plane_to_mb dereferences
NULL. -/
def vc4_plane_atomic_check (rotation_simplify : Nat → Nat → Nat) (vc4_plane : vc4_fkms_plane)
    (state : drm_plane_state) : Option (Int × vc4_fkms_plane) :=
  if plane_enabled state = false then some (0, vc4_plane)
  else
    match state.fb, state.crtc with
    | some fb, some crtc_state =>
      match vc4_plane_to_mb rotation_simplify vc4_plane.mb state fb crtc_state with
      | none => none
      | some (ret, mb) => some (ret, { vc4_plane with mb := mb })
    | _, _ => none

/-- The function vc4_fkms_format_mod_supported. -/
def vc4_fkms_format_mod_supported (format : Nat) (modifier : Nat) : Bool :=
  if format = DRM_FORMAT_XRGB8888 ∨ format = DRM_FORMAT_ARGB8888 ∨
      format = DRM_FORMAT_RGB565 then
    decide (modifier = DRM_FORMAT_MOD_BROADCOM_VC4_T_TILED ∨ modifier = DRM_FORMAT_MOD_LINEAR)
  else if format = DRM_FORMAT_NV12 then
    decide (fourcc_mod_broadcom_mod modifier = DRM_FORMAT_MOD_LINEAR ∨
      fourcc_mod_broadcom_mod modifier = DRM_FORMAT_MOD_BROADCOM_SAND128)
  else if format = DRM_FORMAT_P030 then
    decide (fourcc_mod_broadcom_mod modifier = DRM_FORMAT_MOD_BROADCOM_SAND128)
  else
    decide (modifier = DRM_FORMAT_MOD_LINEAR)


/-! ## Reference rescale of the spec -/

/-- Reference of the spec: n / d rounded to the nearest integer, a tie rounded up
(round-half-up), for a dividend n ≥ 0 and a divisor d > 0. -/
def round_half_up (n d : Int) : Int := (2 * n + d) / (2 * d)

/-- Reference of the spec: n / d rounded to the nearest integer for a dividend of either
sign and a divisor d > 0: the magnitude is rounded half up and the sign restored. -/
def round_nearest (n d : Int) : Int :=
  if 0 < n then round_half_up n d else -(round_half_up (-n) d)

/-- Reference of the spec: a length len rescaled by (active - near - far) / active with
round-to-nearest integer division. -/
def rescale_len (len active near far : Int) : Int :=
  round_half_up (len * (active - near - far)) active

/-- Reference of the spec: a position pos rescaled by (active - near - far) / active
with round-to-nearest integer division, then offset by the near margin and clamped to
active - near. -/
def rescale_pos (pos active near far : Int) : Int :=
  min (round_nearest (pos * (active - near - far)) active + near) (active - near)

/-- The condition under which the spec calls the margins Invalid: a degenerate visible
area, or a rescaled width or height that rounds to zero. -/
def margins_invalid (m : margins) (active_width active_height dst_w dst_h : Int) : Prop :=
  m.left + m.right ≥ active_width ∨ m.top + m.bottom ≥ active_height ∨
  rescale_len dst_w active_width m.left m.right = 0 ∨
  rescale_len dst_h active_height m.top m.bottom = 0

instance (m : margins) (W H w h : Int) : Decidable (margins_invalid m W H w h) := by
  unfold margins_invalid; infer_instance

/-- The format list that vc4_fkms_plane_init hands to drm_universal_plane_init: the drm
codes of the table, in table order. A framebuffer bound to a plane has one of them. -/
def plane_formats : List Nat := vc_image_formats.map (fun e => e.drm)

/-! ## Sample inputs -/

/-- Modelled from the spec: the opcode of the SET_PLANE request,
RPI_FIRMWARE_SET_PLANE of raspberrypi-firmware.h (not among the sources). -/
def RPI_FIRMWARE_SET_PLANE : Nat := 0x00048015

/-- A stand-in for drm_rotation_simplify on rotations made of supported bits only, which
the helper returns unchanged. -/
def rotation_keep (rotation _supported : Nat) : Nat := rotation

/-- A mode with the given active size and every other field zero. -/
def sample_mode (hdisplay vdisplay : Int) : drm_display_mode :=
  { clock := 0, hdisplay := hdisplay, hsync_start := 0, hsync_end := 0, htotal := 0,
    hskew := 0, vdisplay := vdisplay, vsync_start := 0, vsync_end := 0, vtotal := 0,
    vscan := 0, flags := 0 }

/-- The new state of CRTC 0 with the given active size, in a commit whose connector
state bound to CRTC 0 carries the given margins; the margins stored in the CRTC state
itself are still zero. -/
def sample_crtc_state (left right top bottom hdisplay vdisplay : Int) : fkms_crtc_state :=
  { crtc := 0, mode := sample_mode hdisplay vdisplay, margins := ⟨0, 0, 0, 0⟩,
    connectors := [{ crtc := some 0, tv_margins := ⟨left, right, top, bottom⟩ }] }

/-- The stored record of plane 0 of display 2 as vc4_fkms_plane_init leaves it for a
primary plane: tag, display, plane_id and layer set, everything else zero. -/
def sample_record : mailbox_set_plane :=
  { tag := { tag := RPI_FIRMWARE_SET_PLANE, buf_size := 60, req_resp_size := 0 },
    plane :=
      { display := 2, plane_id := 0, vc_image_type := VC_IMAGE_MIN, layer := -127,
        width := 0, height := 0, pitch := 0, vpitch := 0, src_x := 0, src_y := 0,
        src_w := 0, src_h := 0, dst_x := 0, dst_y := 0, dst_w := 0, dst_h := 0, alpha := 0,
        num_planes := 0, is_vu := 0, color_encoding := VC_IMAGE_YUVINFO_UNSPECIFIED,
        planes0 := 0, planes1 := 0, planes2 := 0, planes3 := 0, transform := 0 } }

/-- The sample record with the given destination rectangle. -/
def sample_rect (dst_x dst_y dst_w dst_h : Int) : set_plane :=
  { sample_record.plane with dst_x := dst_x, dst_y := dst_y, dst_w := dst_w, dst_h := dst_h }

/-- A framebuffer of the given format, plane count, modifier and size, with a pitch of
four bytes per pixel, the chroma planes behind the first plane and bus address
0x10000000. -/
def sample_fb (format : Nat) (num_planes : Int) (modifier : Nat) (width height : Int) :
    drm_framebuffer :=
  { format := format, num_planes := num_planes, width := width, height := height,
    pitches0 := 4 * width, pitches1 := 2 * width, offsets0 := 0,
    offsets1 := 4 * width * height, offsets2 := 5 * width * height,
    modifier := modifier, paddr := 268435456 }

/-- An enabled plane state: the framebuffer shown in full at the given destination
rectangle on the given CRTC state, with the given 16-bit alpha, zpos 0, no rotation or
reflection, BT.709 limited range. -/
def sample_state (fb : drm_framebuffer) (crtc_state : fkms_crtc_state)
    (crtc_x crtc_y crtc_w crtc_h alpha : Int) : drm_plane_state :=
  { fb := some fb, crtc := some crtc_state, crtc_x := crtc_x, crtc_y := crtc_y,
    crtc_w := crtc_w, crtc_h := crtc_h, src_x := 0, src_y := 0,
    src_w := fb.width * 65536, src_h := fb.height * 65536, alpha := alpha,
    normalized_zpos := 0, rotation := DRM_MODE_ROTATE_0,
    color_encoding := DRM_COLOR_YCBCR_BT709, color_range := DRM_COLOR_YCBCR_LIMITED_RANGE,
    visible := true }

/-- The row of the table for XRGB8888. -/
def xrgb_row : vc_image_format :=
  { drm := DRM_FORMAT_XRGB8888, vc_image := VC_IMAGE_XRGB8888, is_vu := 0 }

/-- A linear 100x100 XRGB8888 framebuffer. -/
def xrgb_fb : drm_framebuffer := sample_fb DRM_FORMAT_XRGB8888 1 DRM_FORMAT_MOD_LINEAR 100 100

/-- A 100x100 mode whose connector state carries the margins left = right = 50, the
degenerate margins of the spec. -/
def degenerate_crtc_state : fkms_crtc_state := sample_crtc_state 50 50 0 0 100 100

/-- An enabled plane state showing xrgb_fb full screen, opaque, on the CRTC state with
the degenerate margins. -/
def degenerate_state : drm_plane_state :=
  sample_state xrgb_fb degenerate_crtc_state 0 0 100 100 65535

/-- A 100x100 mode without margins. -/
def plain_crtc_state : fkms_crtc_state := sample_crtc_state 0 0 0 0 100 100

/-- An enabled plane state showing xrgb_fb full screen, opaque, without margins. -/
def plain_state : drm_plane_state := sample_state xrgb_fb plain_crtc_state 0 0 100 100 65535

/-- A linear XRGB8888 framebuffer 70000 pixels wide, wider than a u16 holds. -/
def wide_fb : drm_framebuffer := sample_fb DRM_FORMAT_XRGB8888 1 DRM_FORMAT_MOD_LINEAR 70000 100

/-- An enabled plane state showing wide_fb at crtc_x = 40000 with crtc_w = 70000, values
that the 16-bit destination fields of the record do not hold. -/
def wide_state : drm_plane_state := sample_state wide_fb plain_crtc_state 40000 0 70000 100 65535

/-- A two-plane NV12 framebuffer with the given modifier. -/
def nv12_fb (modifier : Nat) : drm_framebuffer := sample_fb DRM_FORMAT_NV12 2 modifier 100 100

/-- An enabled plane state showing a linear NV12 framebuffer with the given colour
encoding and range. -/
def nv12_state (enc : drm_color_encoding) (range : drm_color_range) : drm_plane_state :=
  { sample_state (nv12_fb DRM_FORMAT_MOD_LINEAR) plain_crtc_state 0 0 100 100 65535 with
    color_encoding := enc, color_range := range }

/-- A page-tiled XRGB8888 framebuffer. -/
def tiled_xrgb_fb : drm_framebuffer :=
  sample_fb DRM_FORMAT_XRGB8888 1 DRM_FORMAT_MOD_BROADCOM_VC4_T_TILED 100 100

/-- Modelled from the spec: the result of mode validation, the values of enum
drm_mode_status (drm_modes.h, not among the sources) that vc4_crtc_mode_valid returns,
kept symbolic. -/
inductive drm_mode_status where
  | MODE_OK
  | MODE_NO_DBLESCAN
  | MODE_BAD_VVALUE
  | MODE_CLOCK_HIGH
  | MODE_H_ILLEGAL
deriving DecidableEq, Repr

open drm_mode_status

/-- Modelled from the spec: the display types (panel/DSI, composite, HDMI, none), the
DRM_MODE_ENCODER_* constants of drm_mode.h (not among the sources) that
vc4_get_display_type returns, kept symbolic. -/
inductive drm_mode_encoder where
  | DRM_MODE_ENCODER_NONE
  | DRM_MODE_ENCODER_TMDS
  | DRM_MODE_ENCODER_TVDAC
  | DRM_MODE_ENCODER_DSI
deriving DecidableEq, Repr

open drm_mode_encoder

/-- Modelled from the spec: the mode flag of a positive horizontal sync,
DRM_MODE_FLAG_PHSYNC of drm_mode.h (not among the sources), bit 0. -/
def DRM_MODE_FLAG_PHSYNC : Nat := 1
/-- Modelled from the spec: the mode flag of a negative horizontal sync,
DRM_MODE_FLAG_NHSYNC of drm_mode.h (not among the sources), bit 1. -/
def DRM_MODE_FLAG_NHSYNC : Nat := 2
/-- Modelled from the spec: the mode flag of a positive vertical sync,
DRM_MODE_FLAG_PVSYNC of drm_mode.h (not among the sources), bit 2. -/
def DRM_MODE_FLAG_PVSYNC : Nat := 4
/-- Modelled from the spec: the mode flag of a negative vertical sync,
DRM_MODE_FLAG_NVSYNC of drm_mode.h (not among the sources), bit 3. -/
def DRM_MODE_FLAG_NVSYNC : Nat := 8
/-- Modelled from the spec: the interlace mode flag, DRM_MODE_FLAG_INTERLACE of
drm_mode.h (not among the sources), bit 4. -/
def DRM_MODE_FLAG_INTERLACE : Nat := 16
/-- Modelled from the spec: the doublescan mode flag, DRM_MODE_FLAG_DBLSCAN of
drm_mode.h (not among the sources), bit 5. -/
def DRM_MODE_FLAG_DBLSCAN : Nat := 32
/-- Modelled from the spec: the double-clock mode flag, DRM_MODE_FLAG_DBLCLK of
drm_mode.h (not among the sources), bit 12. -/
def DRM_MODE_FLAG_DBLCLK : Nat := 4096

/-- The struct get_display_cfg: the two entries of max_pixel_clock (u32 each). -/
structure get_display_cfg where
  max_pixel_clock0 : Int
  max_pixel_clock1 : Int

/-- The struct vc4_fkms. -/
structure vc4_fkms where
  cfg : get_display_cfg
  bcm2711 : Bool

/-- The default of the module parameter fkms_max_refresh_rate. -/
def fkms_max_refresh_rate_default : Int := 85

/-- The table display_types of vc4_get_display_type, indexed by the firmware display
number. -/
def display_types : List drm_mode_encoder :=
  [ DRM_MODE_ENCODER_DSI, DRM_MODE_ENCODER_DSI, DRM_MODE_ENCODER_TMDS,
    DRM_MODE_ENCODER_TVDAC, DRM_MODE_ENCODER_NONE, DRM_MODE_ENCODER_NONE,
    DRM_MODE_ENCODER_NONE, DRM_MODE_ENCODER_TMDS, DRM_MODE_ENCODER_NONE ]

/-- The function vc4_get_display_type on a u32 display number. -/
def vc4_get_display_type (display_number : Int) : drm_mode_encoder :=
  if display_number > (display_types.length : Int) - 1 then DRM_MODE_ENCODER_NONE
  else display_types.getD display_number.toNat DRM_MODE_ENCODER_NONE

/-- The bits of a C int as a natural number (two's complement in 32 bits), the operand
of the bitwise operators. -/
def int_bits (x : Int) : Nat := (u32 x).toNat

/-- The odd-timing test of vc4_crtc_mode_valid: the bitwise or of the horizontal active
width, front porch, sync pulse and back porch, as ints, masked with 1. -/
def odd_horizontal_timing (mode : drm_display_mode) : Bool :=
  decide ((int_bits mode.hdisplay |||
    int_bits (mode.hsync_start - mode.hdisplay) |||
    int_bits (mode.hsync_end - mode.hsync_start) |||
    int_bits (mode.htotal - mode.hsync_end)) &&& 1 ≠ 0)

/-- The function vc4_crtc_mode_valid for the CRTC of the given display number. The
helper drm_mode_vrefresh (the refresh rate of a mode, an int) is not among the sources
and is an argument, as is the value of the module parameter fkms_max_refresh_rate.
The pixel clock, an int, is compared with the u32 ceiling as an unsigned value. -/
def vc4_crtc_mode_valid (drm_mode_vrefresh : drm_display_mode → Int)
    (fkms_max_refresh_rate : Int) (fkms : vc4_fkms) (display_number : Int)
    (mode : drm_display_mode) : drm_mode_status :=
  if mode.flags &&& DRM_MODE_FLAG_DBLSCAN ≠ 0 then MODE_NO_DBLESCAN
  else if drm_mode_vrefresh mode > fkms_max_refresh_rate then MODE_BAD_VVALUE
  else if display_number = 2 ∧ fkms.cfg.max_pixel_clock0 ≠ 0 ∧
      u32 mode.clock > fkms.cfg.max_pixel_clock0 then MODE_CLOCK_HIGH
  else if display_number = 7 ∧ fkms.cfg.max_pixel_clock1 ≠ 0 ∧
      u32 mode.clock > fkms.cfg.max_pixel_clock1 then MODE_CLOCK_HIGH
  else if fkms.bcm2711 = true ∧ (display_number = 2 ∨ display_number = 7) ∧
      ¬ (mode.flags &&& DRM_MODE_FLAG_DBLCLK ≠ 0) ∧
      odd_horizontal_timing mode = true then MODE_H_ILLEGAL
  else MODE_OK

/-- Modelled from the spec: the refresh rate of a mode, drm_mode_vrefresh of drm_modes.c
(not among the sources): the pixel clock in Hz over the total pixels of a frame,
rounded to nearest, doubled for an interlaced mode, halved for a doublescan mode and
divided by vscan when vscan exceeds 1; 0 when htotal or vtotal is 0. -/
def drm_mode_vrefresh (mode : drm_display_mode) : Int :=
  if mode.htotal = 0 ∨ mode.vtotal = 0 then 0
  else
    let num := u32 (mode.clock * 1000)
    let den := u32 (mode.htotal * mode.vtotal)
    let num := if mode.flags &&& DRM_MODE_FLAG_INTERLACE ≠ 0 then u32 (num * 2) else num
    let den := if mode.flags &&& DRM_MODE_FLAG_DBLSCAN ≠ 0 then u32 (den * 2) else den
    let den := if mode.vscan > 1 then u32 (den * mode.vscan) else den
    s32 ((num + den / 2) / den)

/-- A mode of 1280x720 with totals 1650x750 and the given pixel clock in kHz:
74250 gives 60 Hz, 111375 gives 90 Hz. -/
def mode_720p (clock : Int) : drm_display_mode :=
  { clock := clock, hdisplay := 1280, hsync_start := 1390, hsync_end := 1430,
    htotal := 1650, hskew := 0, vdisplay := 720, vsync_start := 725, vsync_end := 730,
    vtotal := 750, vscan := 0, flags := DRM_MODE_FLAG_PHSYNC ||| DRM_MODE_FLAG_PVSYNC }

/-- A device without a pixel-clock ceiling, bcm2711 or not. -/
def fkms_no_ceiling (bcm2711 : Bool) : vc4_fkms :=
  { cfg := { max_pixel_clock0 := 0, max_pixel_clock1 := 0 }, bcm2711 := bcm2711 }

/-- A device whose two HDMI ports have the given pixel-clock ceilings in kHz. -/
def fkms_ceiling (max0 max1 : Int) (bcm2711 : Bool) : vc4_fkms :=
  { cfg := { max_pixel_clock0 := max0, max_pixel_clock1 := max1 }, bcm2711 := bcm2711 }

/-- A mode with a pixel clock of -1 and htotal 0, for which drm_mode_vrefresh is 0. -/
def negative_clock_mode : drm_display_mode := { mode_720p (-1) with htotal := 0 }

/-! ## Mode setting -/

/-- The struct set_timings, the payload of the SET_TIMING request. -/
structure set_timings where
  display : Int
  padding : Int
  video_id_code : Int
  clock : Int
  hdisplay : Int
  hsync_start : Int
  hsync_end : Int
  htotal : Int
  hskew : Int
  vdisplay : Int
  vsync_start : Int
  vsync_end : Int
  vtotal : Int
  vscan : Int
  vrefresh : Int
  padding2 : Int
  flags : Nat

/-- Timing flag TIMINGS_FLAGS_H_SYNC_POS, BIT(0). -/
def TIMINGS_FLAGS_H_SYNC_POS : Nat := 1
/-- Timing flag TIMINGS_FLAGS_V_SYNC_POS, BIT(1). -/
def TIMINGS_FLAGS_V_SYNC_POS : Nat := 2
/-- Timing flag TIMINGS_FLAGS_INTERLACE, BIT(2). -/
def TIMINGS_FLAGS_INTERLACE : Nat := 4
/-- Timing flag field TIMINGS_FLAGS_ASPECT_MASK, GENMASK(7, 4). -/
def TIMINGS_FLAGS_ASPECT_MASK : Nat := 240
/-- Timing flag TIMINGS_FLAGS_ASPECT_NONE, 0 << 4. -/
def TIMINGS_FLAGS_ASPECT_NONE : Nat := 0
/-- Timing flag TIMINGS_FLAGS_ASPECT_4_3, 1 << 4. -/
def TIMINGS_FLAGS_ASPECT_4_3 : Nat := 16
/-- Timing flag TIMINGS_FLAGS_ASPECT_16_9, 2 << 4. -/
def TIMINGS_FLAGS_ASPECT_16_9 : Nat := 32
/-- Timing flag TIMINGS_FLAGS_ASPECT_64_27, 3 << 4. -/
def TIMINGS_FLAGS_ASPECT_64_27 : Nat := 48
/-- Timing flag TIMINGS_FLAGS_ASPECT_256_135, 4 << 4. -/
def TIMINGS_FLAGS_ASPECT_256_135 : Nat := 64
/-- Timing flag TIMINGS_FLAGS_RGB_LIMITED, BIT(8). -/
def TIMINGS_FLAGS_RGB_LIMITED : Nat := 256
/-- Timing flag TIMINGS_FLAGS_DVI, BIT(9). -/
def TIMINGS_FLAGS_DVI : Nat := 512
/-- Timing flag TIMINGS_FLAGS_DBL_CLK, BIT(10). -/
def TIMINGS_FLAGS_DBL_CLK : Nat := 1024

/-- The value VC4_BROADCAST_RGB_AUTO of the Broadcast RGB property. -/
def VC4_BROADCAST_RGB_AUTO : Int := 0
/-- The value VC4_BROADCAST_RGB_FULL of the Broadcast RGB property. -/
def VC4_BROADCAST_RGB_FULL : Int := 1
/-- The value VC4_BROADCAST_RGB_LIMITED of the Broadcast RGB property. -/
def VC4_BROADCAST_RGB_LIMITED : Int := 2

/-- Modelled from the spec: the picture aspect of the standard infoframe computation,
enum hdmi_picture_aspect of linux/hdmi.h (not among the sources), kept symbolic. -/
inductive hdmi_picture_aspect where
  | HDMI_PICTURE_ASPECT_NONE
  | HDMI_PICTURE_ASPECT_4_3
  | HDMI_PICTURE_ASPECT_16_9
  | HDMI_PICTURE_ASPECT_64_27
  | HDMI_PICTURE_ASPECT_256_135
  | HDMI_PICTURE_ASPECT_RESERVED
deriving DecidableEq, Repr

open hdmi_picture_aspect

/-- Modelled from the spec: the RGB quantization range (full/limited) of a mode, enum
hdmi_quantization_range of linux/hdmi.h (not among the sources), kept symbolic. -/
inductive hdmi_quantization_range where
  | HDMI_QUANTIZATION_RANGE_DEFAULT
  | HDMI_QUANTIZATION_RANGE_LIMITED
  | HDMI_QUANTIZATION_RANGE_FULL
  | HDMI_QUANTIZATION_RANGE_RESERVED
deriving DecidableEq, Repr

open hdmi_quantization_range

/-- The fields of the AVI infoframe that vc4_crtc_mode_set_nofb reads: the picture aspect
and the video code (a u8). -/
structure hdmi_avi_infoframe where
  picture_aspect : hdmi_picture_aspect
  video_code : Int
deriving DecidableEq, Repr

/-- The switch of vc4_crtc_mode_set_nofb on frame.avi.picture_aspect. -/
def aspect_flags (aspect : hdmi_picture_aspect) : Nat :=
  match aspect with
  | HDMI_PICTURE_ASPECT_4_3 => TIMINGS_FLAGS_ASPECT_4_3
  | HDMI_PICTURE_ASPECT_16_9 => TIMINGS_FLAGS_ASPECT_16_9
  | HDMI_PICTURE_ASPECT_64_27 => TIMINGS_FLAGS_ASPECT_64_27
  | HDMI_PICTURE_ASPECT_256_135 => TIMINGS_FLAGS_ASPECT_256_135
  | _ => TIMINGS_FLAGS_ASPECT_NONE

/-- The flags of the timing record as vc4_crtc_mode_set_nofb has set them before it
looks at the monitor: the sync polarities, the picture aspect, interlace and double
clock. -/
def timing_mode_flags (mode : drm_display_mode) (aspect : hdmi_picture_aspect) : Nat :=
  let f0 : Nat := 0
  let f1 := if mode.flags &&& DRM_MODE_FLAG_PHSYNC ≠ 0 then f0 ||| TIMINGS_FLAGS_H_SYNC_POS else f0
  let f2 := if mode.flags &&& DRM_MODE_FLAG_PVSYNC ≠ 0 then f1 ||| TIMINGS_FLAGS_V_SYNC_POS else f1
  let f3 := f2 ||| aspect_flags aspect
  let f4 := if mode.flags &&& DRM_MODE_FLAG_INTERLACE ≠ 0 then f3 ||| TIMINGS_FLAGS_INTERLACE else f3
  if mode.flags &&& DRM_MODE_FLAG_DBLCLK ≠ 0 then f4 ||| TIMINGS_FLAGS_DBL_CLK else f4

/-- The function vc4_crtc_mode_set_nofb: the timing record sent to the firmware, none
when the AVI infoframe cannot be filled and the function returns without a request.
Arguments: the display number of the CRTC, the adjusted mode, hdmi_monitor of the
encoder and broadcast_rgb of the connector state. The helpers
drm_hdmi_avi_infoframe_from_display_mode (its return value and the frame it fills),
drm_default_rgb_quant_range and drm_mode_vrefresh are not among the sources and are
arguments. -/
def vc4_crtc_mode_set_nofb
    (drm_hdmi_avi_infoframe_from_display_mode : drm_display_mode → Int × hdmi_avi_infoframe)
    (drm_default_rgb_quant_range : drm_display_mode → hdmi_quantization_range)
    (drm_mode_vrefresh : drm_display_mode → Int)
    (display_number : Int) (mode : drm_display_mode) (hdmi_monitor : Bool)
    (broadcast_rgb : Int) : Option set_timings :=
  let ret := (drm_hdmi_avi_infoframe_from_display_mode mode).1
  let avi := (drm_hdmi_avi_infoframe_from_display_mode mode).2
  if ret < 0 then none
  else
    let f5 := timing_mode_flags mode avi.picture_aspect
    let default_limited : Bool :=
      decide (drm_default_rgb_quant_range mode = HDMI_QUANTIZATION_RANGE_LIMITED)
    let f6 :=
      if hdmi_monitor = false then f5 ||| TIMINGS_FLAGS_DVI
      else if broadcast_rgb = VC4_BROADCAST_RGB_AUTO then
        (if default_limited = true then f5 ||| TIMINGS_FLAGS_RGB_LIMITED else f5)
      else
        (if broadcast_rgb = VC4_BROADCAST_RGB_LIMITED then f5 ||| TIMINGS_FLAGS_RGB_LIMITED
         else f5)
    let vic :=
      if hdmi_monitor = true ∧ broadcast_rgb ≠ VC4_BROADCAST_RGB_AUTO ∧
          (decide (f6 &&& TIMINGS_FLAGS_RGB_LIMITED ≠ 0) != default_limited) = true then 0
      else u16 avi.video_code
    some
      { display := u8 display_number, padding := 0, video_id_code := vic,
        clock := u32 mode.clock, hdisplay := u16 mode.hdisplay,
        hsync_start := u16 mode.hsync_start, hsync_end := u16 mode.hsync_end,
        htotal := u16 mode.htotal, hskew := u16 mode.hskew, vdisplay := u16 mode.vdisplay,
        vsync_start := u16 mode.vsync_start, vsync_end := u16 mode.vsync_end,
        vtotal := u16 mode.vtotal, vscan := u16 mode.vscan,
        vrefresh := u16 (drm_mode_vrefresh mode), padding2 := 0, flags := f6 }

/-- A stand-in for drm_hdmi_avi_infoframe_from_display_mode that succeeds with a 16:9
picture and the video code 4 (1280x720 at 60 Hz). -/
def avi_720p (_mode : drm_display_mode) : Int × hdmi_avi_infoframe :=
  (0, { picture_aspect := HDMI_PICTURE_ASPECT_16_9, video_code := 4 })

/-- A stand-in for drm_default_rgb_quant_range on a CEA mode, whose default range is
limited. -/
def default_range_limited (_mode : drm_display_mode) : hdmi_quantization_range :=
  HDMI_QUANTIZATION_RANGE_LIMITED

/-! ## CRTC check -/

/-- The function vc4_crtc_atomic_check for the CRTC crtc and its new state: the return
value and the state afterwards. The margins are taken from the first new connector
state of the commit bound to crtc. -/
def vc4_crtc_atomic_check (crtc : Nat) (state : fkms_crtc_state) : Int × fkms_crtc_state :=
  match state.connectors.find? (fun c => c.crtc == some crtc) with
  | some conn_state =>
    (0, { state with
          margins :=
            { left := conn_state.tv_margins.left, right := conn_state.tv_margins.right,
              top := conn_state.tv_margins.top, bottom := conn_state.tv_margins.bottom } })
  | none => (0, state)

/-- The new state of CRTC 0 with stored margins 1, 2, 3, 4 in a commit with two connector
states: one bound to CRTC 1 with margins 9, 9, 9, 9 and one bound to CRTC 0 with
margins 10, 20, 30, 40. -/
def two_connector_state : fkms_crtc_state :=
  { crtc := 0, mode := sample_mode 1920 1080, margins := ⟨1, 2, 3, 4⟩,
    connectors := [{ crtc := some 1, tv_margins := ⟨9, 9, 9, 9⟩ },
                   { crtc := some 0, tv_margins := ⟨10, 20, 30, 40⟩ }] }

/-! ## CRTC enable, disable and page flip -/

/-- The struct drm_pending_vblank_event as the driver uses it: an identity, and the pipe
field that vc4_crtc_consume_event writes. -/
structure drm_pending_vblank_event where
  id : Nat
  pipe : Int
deriving DecidableEq, Repr

/-- What a CRTC function does to the world outside the driver state, in the order it
does it: the calls of drm_crtc_vblank_on, drm_crtc_vblank_off, drm_crtc_vblank_get,
drm_crtc_vblank_put, drm_crtc_handle_vblank, drm_crtc_send_vblank_event with its
event, and rpi_firmware_property_list with a SET_PLANE request. -/
inductive fkms_effect where
  | vblank_on
  | vblank_off
  | vblank_get
  | vblank_put
  | handle_vblank
  | send_vblank_event (e : drm_pending_vblank_event)
  | firmware_set_plane (mb : mailbox_set_plane)

open fkms_effect

/-- A plane attached to a CRTC: the struct vc4_fkms_plane with its stored record, and
the current state plane->state. -/
structure drm_plane where
  vc4_plane : vc4_fkms_plane
  state : drm_plane_state

/-- The struct vc4_crtc with the parts of its drm_crtc that the driver reads and writes:
drm_crtc_index, the event and the active flag of crtc->state, the awaiting-flip slot
vc4_crtc->event, vblank_enabled, display_number, and the planes attached to the CRTC
in the order drm_atomic_crtc_for_each_plane visits them. -/
structure vc4_crtc where
  index : Int
  state_event : Option drm_pending_vblank_event
  state_active : Bool
  event : Option drm_pending_vblank_event
  vblank_enabled : Bool
  display_number : Int
  planes : List drm_plane

/-- A struct set_plane with every field zero. -/
def set_plane_zero : set_plane :=
  { display := 0, plane_id := 0, vc_image_type := VC_IMAGE_MIN, layer := 0, width := 0,
    height := 0, pitch := 0, vpitch := 0, src_x := 0, src_y := 0, src_w := 0, src_h := 0,
    dst_x := 0, dst_y := 0, dst_w := 0, dst_h := 0, alpha := 0, num_planes := 0, is_vu := 0,
    color_encoding := VC_IMAGE_YUVINFO_UNSPECIFIED, planes0 := 0, planes1 := 0,
    planes2 := 0, planes3 := 0, transform := 0 }

/-- The size of struct set_plane in bytes. -/
def sizeof_set_plane : Nat := 60

/-- The function vc4_plane_set_blank: the request it passes to
rpi_firmware_property_list, the local blank_mb when blank is true and the stored
record of the plane otherwise. The return value of the firmware call is only warned
about and no caller reads it. -/
def vc4_plane_set_blank (vc4_plane : vc4_fkms_plane) (blank : Bool) : mailbox_set_plane :=
  let blank_mb : mailbox_set_plane :=
    { tag := { tag := RPI_FIRMWARE_SET_PLANE, buf_size := sizeof_set_plane,
               req_resp_size := 0 },
      plane := { set_plane_zero with
                 display := vc4_plane.mb.plane.display,
                 plane_id := vc4_plane.mb.plane.plane_id } }
  if blank then blank_mb else vc4_plane.mb

/-- The function vc4_plane_atomic_disable: it blanks the plane. -/
def vc4_plane_atomic_disable (plane : drm_plane) : List fkms_effect :=
  [firmware_set_plane (vc4_plane_set_blank plane.vc4_plane true)]

/-- The function vc4_crtc_consume_event: the CRTC afterwards and the effects. -/
def vc4_crtc_consume_event (crtc : vc4_crtc) : vc4_crtc × List fkms_effect :=
  match crtc.state_event with
  | none => (crtc, [])
  | some e =>
    ({ crtc with event := some { e with pipe := crtc.index }, state_event := none },
     [vblank_get])

/-- The function vc4_crtc_enable: the CRTC afterwards and the effects in order. -/
def vc4_crtc_enable (crtc : vc4_crtc) : vc4_crtc × List fkms_effect :=
  let r := vc4_crtc_consume_event crtc
  (r.1,
   [vblank_on] ++ r.2 ++
     (r.1.planes.filter (fun plane => plane.state.fb.isSome)).map
       (fun plane => firmware_set_plane
         (vc4_plane_set_blank plane.vc4_plane plane.state.visible)))

/-- The function vc4_crtc_disable: the CRTC afterwards and the effects in order. -/
def vc4_crtc_disable (crtc : vc4_crtc) : vc4_crtc × List fkms_effect :=
  let planes_off := (crtc.planes.map vc4_plane_atomic_disable).flatten
  match crtc.state_event with
  | some e =>
    ({ crtc with state_event := none }, [vblank_off] ++ planes_off ++ [send_vblank_event e])
  | none => (crtc, [vblank_off] ++ planes_off)

/-- The function vc4_crtc_handle_page_flip: the CRTC afterwards and the effects in
order. -/
def vc4_crtc_handle_page_flip (crtc : vc4_crtc) : vc4_crtc × List fkms_effect :=
  match crtc.event with
  | some e => ({ crtc with event := none }, [send_vblank_event e, vblank_put])
  | none => (crtc, [])

/-- The events sent in a list of effects, in order. -/
def sent_events (log : List fkms_effect) : List drm_pending_vblank_event :=
  log.filterMap (fun eff => match eff with
    | send_vblank_event e => some e
    | _ => none)

/-- The SET_PLANE requests issued in a list of effects, in order. -/
def set_plane_requests (log : List fkms_effect) : List mailbox_set_plane :=
  log.filterMap (fun eff => match eff with
    | firmware_set_plane mb => some mb
    | _ => none)

/-- The number of vblank reservations released in a list of effects. -/
def vblank_puts (log : List fkms_effect) : Nat :=
  log.countP (fun eff => match eff with
    | vblank_put => true
    | _ => false)

/-- Whether a request is a blank request: every field of the payload other than
display and plane_id is zero. -/
def is_blank_request (mb : mailbox_set_plane) : Prop :=
  mb.plane.vc_image_type = VC_IMAGE_MIN ∧ mb.plane.layer = 0 ∧ mb.plane.width = 0 ∧
  mb.plane.height = 0 ∧ mb.plane.pitch = 0 ∧ mb.plane.vpitch = 0 ∧ mb.plane.src_x = 0 ∧
  mb.plane.src_y = 0 ∧ mb.plane.src_w = 0 ∧ mb.plane.src_h = 0 ∧ mb.plane.dst_x = 0 ∧
  mb.plane.dst_y = 0 ∧ mb.plane.dst_w = 0 ∧ mb.plane.dst_h = 0 ∧ mb.plane.alpha = 0 ∧
  mb.plane.num_planes = 0 ∧ mb.plane.is_vu = 0 ∧
  mb.plane.color_encoding = VC_IMAGE_YUVINFO_UNSPECIFIED ∧ mb.plane.planes0 = 0 ∧
  mb.plane.planes1 = 0 ∧ mb.plane.planes2 = 0 ∧ mb.plane.planes3 = 0 ∧
  mb.plane.transform = 0

instance (mb : mailbox_set_plane) : Decidable (is_blank_request mb) := by
  unfold is_blank_request; infer_instance

/-- The stored record of plane plane_id of display 2 after a check of plain_state. -/
def checked_plane (plane_id : Int) : vc4_fkms_plane :=
  match vc4_plane_atomic_check rotation_keep
      ⟨{ sample_record with plane := { sample_record.plane with plane_id := plane_id } }⟩
      plain_state with
  | some (_, p) => p
  | none => ⟨sample_record⟩

/-- A plane with a checked record and a framebuffer, visible or not. -/
def sample_plane (plane_id : Int) (visible : Bool) : drm_plane :=
  { vc4_plane := checked_plane plane_id, state := { plain_state with visible := visible } }

/-- A plane with a checked record whose state has no framebuffer. -/
def sample_plane_no_fb (plane_id : Int) : drm_plane :=
  { vc4_plane := checked_plane plane_id,
    state := { plain_state with fb := none, visible := false } }

/-- CRTC 0 of display 2 with the given commit event, awaiting-flip event and planes. -/
def sample_crtc (state_event event : Option drm_pending_vblank_event)
    (planes : List drm_plane) : vc4_crtc :=
  { index := 0, state_event := state_event, state_active := true, event := event,
    vblank_enabled := false, display_number := 2, planes := planes }

/-- The kind of each effect of a list, as a number: 0 vblank_on, 1 vblank_off,
2 vblank_get, 3 vblank_put, 4 handle_vblank, 5 send_vblank_event, 6 a SET_PLANE
request. -/
def effect_kinds (log : List fkms_effect) : List Nat :=
  log.map (fun eff => match eff with
    | vblank_on => 0
    | vblank_off => 1
    | vblank_get => 2
    | vblank_put => 3
    | handle_vblank => 4
    | send_vblank_event _ => 5
    | firmware_set_plane _ => 6)

/-! ## Event ownership -/

/-- The function vc4_crtc_atomic_flush: the CRTC afterwards and the effects. The
argument is old_state->active. -/
def vc4_crtc_atomic_flush (crtc : vc4_crtc) (old_state_active : Bool) :
    vc4_crtc × List fkms_effect :=
  if crtc.state_active = true ∧ old_state_active = true ∧ crtc.state_event.isSome = true then
    vc4_crtc_consume_event crtc
  else (crtc, [])

/-- The steps of the event-ownership relation: a commit that attaches an event to the
CRTC state, the hooks vc4_crtc_enable, vc4_crtc_atomic_flush (with old_state->active)
and vc4_crtc_disable, and the interrupt, vc4_crtc_handle_page_flip. -/
inductive crtc_action where
  | commit (e : drm_pending_vblank_event) (active : Bool)
  | enable
  | flush (old_state_active : Bool)
  | disable
  | interrupt
deriving DecidableEq, Repr

/-- Modelled from the spec: a commit attaches a completion event to the CRTC state. The
DRM core, not among the sources, installs the new state: afterwards crtc->state
carries the event and the active flag of the commit. -/
def crtc_commit (crtc : vc4_crtc) (e : drm_pending_vblank_event) (active : Bool) : vc4_crtc :=
  { crtc with state_event := some e, state_active := active }

/-- One step of the relation: the CRTC afterwards and the effects. -/
def crtc_step (crtc : vc4_crtc) (a : crtc_action) : vc4_crtc × List fkms_effect :=
  match a with
  | crtc_action.commit e active => (crtc_commit crtc e active, [])
  | crtc_action.enable => vc4_crtc_enable crtc
  | crtc_action.flush old_state_active => vc4_crtc_atomic_flush crtc old_state_active
  | crtc_action.disable => vc4_crtc_disable crtc
  | crtc_action.interrupt => vc4_crtc_handle_page_flip crtc

/-- A sequence of steps: the CRTC afterwards and all effects in order. -/
def crtc_run (crtc : vc4_crtc) : List crtc_action → vc4_crtc × List fkms_effect
  | [] => (crtc, [])
  | a :: rest =>
    ((crtc_run (crtc_step crtc a).1 rest).1,
     (crtc_step crtc a).2 ++ (crtc_run (crtc_step crtc a).1 rest).2)

/-- The ids of the events delivered in a list of effects, in order. -/
def delivered_ids (log : List fkms_effect) : List Nat :=
  (sent_events log).map (fun e => e.id)

/-- The ids of the events that the CRTC holds: the one of the commit state, then the one
of the awaiting-flip slot. -/
def held_ids (crtc : vc4_crtc) : List Nat :=
  (crtc.state_event.toList ++ crtc.event.toList).map (fun e => e.id)

/-- A modeset off and on with page flips in between, each commit after the interrupt of
the one before. -/
def paced_flips : List crtc_action :=
  [crtc_action.commit ⟨1, 0⟩ true, crtc_action.enable, crtc_action.interrupt,
   crtc_action.commit ⟨2, 0⟩ true, crtc_action.flush true, crtc_action.interrupt,
   crtc_action.commit ⟨3, 0⟩ false, crtc_action.flush true, crtc_action.disable,
   crtc_action.interrupt]

/-! ## Interrupt handler -/

/-- The offset SMICS of the status register. -/
def SMICS : Nat := 0x0
/-- The offset SMIDSW0 of the first doorbell register. -/
def SMIDSW0 : Nat := 0x14
/-- The offset SMIDSW1 of the second doorbell register. -/
def SMIDSW1 : Nat := 0x1C
/-- The interrupt bits SMICS_INTERRUPTS of the status word, BIT(9) | BIT(10) | BIT(11). -/
def SMICS_INTERRUPTS : Nat := 0xE00
/-- The sentinel SMI_NEW of the new interrupt protocol. -/
def SMI_NEW : Nat := 0xabcd0000

/-- The return values of an interrupt handler. -/
inductive irqreturn_t where
  | IRQ_NONE
  | IRQ_HANDLED
deriving DecidableEq, Repr

open irqreturn_t

/-- What the interrupt handler does, in order: a writel of a value to a register of
crtc_list[0], given by its offset, or an effect on the display crtc_list[i]. -/
inductive irq_effect where
  | writel (value : Nat) (reg : Nat)
  | on_crtc (i : Nat) (eff : fkms_effect)

/-- The two statements that serve display i in vc4_crtc_irq_handler:
drm_crtc_handle_vblank if vblank_enabled, then vc4_crtc_handle_page_flip. -/
def irq_serve (i : Nat) (crtc : vc4_crtc) : vc4_crtc × List irq_effect :=
  ((vc4_crtc_handle_page_flip crtc).1,
   (if crtc.vblank_enabled = true then [irq_effect.on_crtc i fkms_effect.handle_vblank]
    else []) ++
     (vc4_crtc_handle_page_flip crtc).2.map (irq_effect.on_crtc i))

/-- The loop of the older-firmware branch over crtc_list from index i on. -/
def irq_serve_all (i : Nat) : List vc4_crtc → List vc4_crtc × List irq_effect
  | [] => ([], [])
  | crtc :: rest =>
    ((irq_serve i crtc).1 :: (irq_serve_all (i + 1) rest).1,
     (irq_serve i crtc).2 ++ (irq_serve_all (i + 1) rest).2)

/-- The function vc4_crtc_irq_handler. Arguments: the entries of crtc_list before the
terminating NULL and the values that the reads of SMICS, SMIDSW0 and SMIDSW1 return.
Result: the return value, crtc_list afterwards and the effects in order; none when
crtc_list[0] is NULL, which the first statement dereferences. -/
def vc4_crtc_irq_handler (crtc_list : List vc4_crtc) (stat chan0 chan1 : Nat) :
    Option (irqreturn_t × List vc4_crtc × List irq_effect) :=
  match crtc_list with
  | [] => none
  | crtc0 :: rest =>
    if stat &&& SMICS_INTERRUPTS ≠ 0 then
      if chan0 &&& 0xFFFF0000 ≠ SMI_NEW then
        some (IRQ_HANDLED, (irq_serve_all 0 (crtc0 :: rest)).1,
          [irq_effect.writel 0 SMICS] ++ (irq_serve_all 0 (crtc0 :: rest)).2)
      else
        let first :=
          if chan0 &&& 1 ≠ 0 then
            ((irq_serve 0 crtc0).1, [irq_effect.writel SMI_NEW SMIDSW0] ++ (irq_serve 0 crtc0).2)
          else (crtc0, [])
        match rest with
        | [] => some (IRQ_HANDLED, [first.1], [irq_effect.writel 0 SMICS] ++ first.2)
        | crtc1 :: others =>
          let second :=
            if chan1 &&& 1 ≠ 0 then
              ((irq_serve 1 crtc1).1,
               [irq_effect.writel SMI_NEW SMIDSW1] ++ (irq_serve 1 crtc1).2)
            else (crtc1, [])
          some (IRQ_HANDLED, first.1 :: second.1 :: others,
            [irq_effect.writel 0 SMICS] ++ first.2 ++ second.2)
    else some (IRQ_NONE, crtc0 :: rest, [])

/-- The register writes of a list of effects, as pairs of value and offset, in order. -/
def register_writes (log : List irq_effect) : List (Nat × Nat) :=
  log.filterMap (fun eff => match eff with
    | irq_effect.writel value reg => some (value, reg)
    | _ => none)

/-- The displays that get a vblank signal in a list of effects, by index, in order. -/
def vblank_signals (log : List irq_effect) : List Nat :=
  log.filterMap (fun eff => match eff with
    | irq_effect.on_crtc i fkms_effect.handle_vblank => some i
    | _ => none)

/-- The page-flip events delivered in a list of effects, with the index of the display,
in order. -/
def flip_deliveries (log : List irq_effect) : List (Nat × drm_pending_vblank_event) :=
  log.filterMap (fun eff => match eff with
    | irq_effect.on_crtc i (fkms_effect.send_vblank_event e) => some (i, e)
    | _ => none)

/-- The vblank reservations released in a list of effects, by index of the display. -/
def reservations_released (log : List irq_effect) : List Nat :=
  log.filterMap (fun eff => match eff with
    | irq_effect.on_crtc i fkms_effect.vblank_put => some i
    | _ => none)

/-- The indices, from i on, of the displays of a list that have vblank signaling
enabled. -/
def vblank_enabled_from (i : Nat) : List vc4_crtc → List Nat
  | [] => []
  | crtc :: rest =>
    (if crtc.vblank_enabled = true then [i] else []) ++ vblank_enabled_from (i + 1) rest

/-- The events in the awaiting-flip slots of a list of displays, with the indices from i
on. -/
def awaiting_from (i : Nat) : List vc4_crtc → List (Nat × drm_pending_vblank_event)
  | [] => []
  | crtc :: rest =>
    (match crtc.event with
      | some e => [(i, e)]
      | none => []) ++ awaiting_from (i + 1) rest

/-- A display with the given vblank_enabled flag and awaiting-flip slot. -/
def irq_crtc (index : Int) (vblank_enabled : Bool) (event : Option drm_pending_vblank_event) :
    vc4_crtc :=
  { index := index, state_event := none, state_active := true, event := event,
    vblank_enabled := vblank_enabled, display_number := 2, planes := [] }

/-! ## Device setup -/

/-- The errno ENOMEM. -/
def ENOMEM : Int := 12
/-- The errno ENODEV. -/
def ENODEV : Int := 19
/-- The errno EPROBE_DEFER. -/
def EPROBE_DEFER : Int := 517

/-- The number PLANES_PER_CRTC of planes of a display. -/
def PLANES_PER_CRTC : Int := 3

/-- Modelled from the spec: the plane triple primary/overlay/cursor, enum
drm_plane_type of drm_plane.h (not among the sources), kept symbolic. -/
inductive drm_plane_type where
  | DRM_PLANE_TYPE_OVERLAY
  | DRM_PLANE_TYPE_PRIMARY
  | DRM_PLANE_TYPE_CURSOR
deriving DecidableEq, Repr

open drm_plane_type

/-- The function vc4_fkms_plane_init: the plane with the static elements of its record
set, in a zeroed allocation, or the error -ENOMEM when the allocation fails (the
first argument tells whether it succeeds). The parameters display_num and plane_id
are u8. The format list handed to drm_universal_plane_init is plane_formats. -/
def vc4_fkms_plane_init (alloc_ok : Bool) (type : drm_plane_type)
    (display_num plane_id : Int) : Except Int vc4_fkms_plane :=
  if alloc_ok = false then Except.error (-ENOMEM)
  else
    let default_zpos : Int :=
      match type with
      | DRM_PLANE_TYPE_PRIMARY => 0
      | DRM_PLANE_TYPE_OVERLAY => 1
      | DRM_PLANE_TYPE_CURSOR => 2
    Except.ok
      { mb :=
          { tag := { tag := RPI_FIRMWARE_SET_PLANE, buf_size := sizeof_set_plane,
                     req_resp_size := 0 },
            plane := { set_plane_zero with
                       display := u8 display_num,
                       plane_id := u8 plane_id,
                       layer := s8 (if default_zpos ≠ 0 then default_zpos else -127) } } }

/-- What vc4_fkms_create_screen builds for one display: display_number and display_type
of the CRTC, the three planes, display_num of the encoder and the display number
given to the connector. -/
structure fkms_screen where
  display_number : Int
  display_type : drm_mode_encoder
  primary_plane : vc4_fkms_plane
  overlay_plane : vc4_fkms_plane
  cursor_plane : vc4_fkms_plane
  encoder_display_num : Int
  connector_display_num : Int

/-- The outcome of the allocations and of the connector construction inside one call of
vc4_fkms_create_screen: whether devm_kzalloc succeeds for the CRTC, for each plane
and for the encoder, and the error of vc4_fkms_connector_init (0 for success). -/
structure screen_allocs where
  crtc_ok : Bool
  primary_ok : Bool
  overlay_ok : Bool
  cursor_ok : Bool
  encoder_ok : Bool
  connector_err : Int
deriving DecidableEq, Repr

/-- The function vc4_fkms_create_screen: its return value and the entry it stores
through ret_crtc, none when it stores nothing. display_idx and display_ref are ints.
The request that blanks the firmware framebuffer is sent and its result ignored. -/
def vc4_fkms_create_screen (allocs : screen_allocs) (display_idx display_ref : Int) :
    Int × Option fkms_screen :=
  if allocs.crtc_ok = false then (-ENOMEM, none)
  else
    match vc4_fkms_plane_init allocs.primary_ok DRM_PLANE_TYPE_PRIMARY display_ref
        (s32 (0 + s32 (display_idx * PLANES_PER_CRTC))) with
    | Except.error ret => (ret, none)
    | Except.ok primary_plane =>
      match vc4_fkms_plane_init allocs.overlay_ok DRM_PLANE_TYPE_OVERLAY display_ref
          (s32 (1 + s32 (display_idx * PLANES_PER_CRTC))) with
      | Except.error ret => (ret, none)
      | Except.ok overlay_plane =>
        match vc4_fkms_plane_init allocs.cursor_ok DRM_PLANE_TYPE_CURSOR display_ref
            (s32 (2 + s32 (display_idx * PLANES_PER_CRTC))) with
        | Except.error ret => (ret, none)
        | Except.ok cursor_plane =>
          if allocs.encoder_ok = false then (-ENOMEM, none)
          else if allocs.connector_err ≠ 0 then (allocs.connector_err, none)
          else
            (0, some
              { display_number := u32 display_ref,
                display_type := vc4_get_display_type (u32 display_ref),
                primary_plane := primary_plane, overlay_plane := overlay_plane,
                cursor_plane := cursor_plane, encoder_display_num := display_ref,
                connector_display_num := u32 display_ref })

/-- The world around vc4_fkms_bind: whether the allocation of the vc4_fkms succeeds, the
device-tree match (none for no match, otherwise whether its data is set), whether
the firmware reference is found, the return value and the value left in the buffer
for each firmware query (the display count, the two max_pixel_clock entries in Hz,
the display id per display index), whether the allocation of crtc_list succeeds, the
outcome of the allocations per display index, and whether the registers can be
mapped. -/
structure bind_env where
  fkms_alloc_ok : Bool
  match_data : Option Bool
  firmware_found : Bool
  num_displays_query : Int × Int
  display_cfg_query : Int × (Int × Int)
  crtc_list_alloc_ok : Bool
  display_id_query : Int → Int × Int
  allocs : Int → screen_allocs
  regs_ok : Bool

/-- What vc4_fkms_bind leaves behind on success: the vc4_fkms, the number of displays
and crtc_list, one entry per display index, none for a NULL entry. -/
structure fkms_device where
  fkms : vc4_fkms
  num_displays : Int
  crtc_list : List (Option fkms_screen)

/-- The loop of vc4_fkms_bind over the display indices display_num, display_num + 1, ...
for the given number of rounds: the entries of crtc_list it fills. A failed display
id query and a failed vc4_fkms_create_screen are logged and the loop goes on. -/
def bind_screens (env : bind_env) (display_num : Int) : Nat → List (Option fkms_screen)
  | 0 => []
  | n + 1 =>
    (vc4_fkms_create_screen (env.allocs display_num) (s32 display_num)
        (s32 (u32 (env.display_id_query display_num).2))).2 ::
      bind_screens env (display_num + 1) n

/-- The function vc4_fkms_bind: its return value and what it leaves behind; none when it
dereferences crtc_list[0] while that entry is NULL, or writes to registers that could
not be mapped. -/
def vc4_fkms_bind (env : bind_env) : Option (Int × Option fkms_device) :=
  if env.fkms_alloc_ok = false then some (-ENOMEM, none)
  else
    match env.match_data with
    | none => some (-ENODEV, none)
    | some data =>
      if env.firmware_found = false then some (-EPROBE_DEFER, none)
      else
        let num_displays : Int :=
          if env.num_displays_query.1 ≠ 0 then 1 else u32 env.num_displays_query.2
        if env.display_cfg_query.1 ≠ 0 then some (-EINVAL, none)
        else
          let cfg : get_display_cfg :=
            { max_pixel_clock0 := u32 env.display_cfg_query.2.1 / 1000,
              max_pixel_clock1 := u32 env.display_cfg_query.2.2 / 1000 }
          if env.crtc_list_alloc_ok = false then some (-ENOMEM, none)
          else
            let crtc_list := bind_screens env 0 num_displays.toNat
            let dev : fkms_device :=
              { fkms := { cfg := cfg, bcm2711 := data }, num_displays := num_displays,
                crtc_list := crtc_list }
            if num_displays > 0 then
              match crtc_list.head? with
              | some (some _) => if env.regs_ok = true then some (0, some dev) else none
              | _ => none
            else some (0, some dev)

/-- The plane_id fields of the request records of the planes of the constructed
displays of a crtc_list: primary, overlay, cursor of each display in order. -/
def device_plane_ids (crtc_list : List (Option fkms_screen)) : List Int :=
  match crtc_list with
  | [] => []
  | none :: rest => device_plane_ids rest
  | some screen :: rest =>
    [screen.primary_plane.mb.plane.plane_id, screen.overlay_plane.mb.plane.plane_id,
      screen.cursor_plane.mb.plane.plane_id] ++ device_plane_ids rest

/-- The outcome in which every allocation of vc4_fkms_create_screen succeeds. -/
def allocs_ok : screen_allocs :=
  { crtc_ok := true, primary_ok := true, overlay_ok := true, cursor_ok := true,
    encoder_ok := true, connector_err := 0 }

/-- A world in which every allocation succeeds, the device matches the bcm2711 entry and
the firmware answers the queries as given: the display count, the clock ceilings in
Hz and, for every display index, the display id. -/
def sample_env (num_displays_query : Int × Int) (display_cfg_query : Int × (Int × Int))
    (display_id_query : Int → Int × Int) : bind_env :=
  { fkms_alloc_ok := true, match_data := some true, firmware_found := true,
    num_displays_query := num_displays_query, display_cfg_query := display_cfg_query,
    crtc_list_alloc_ok := true, display_id_query := display_id_query,
    allocs := fun _ => allocs_ok, regs_ok := true }

/-- A firmware that answers the display id query of index 0 with 2 and of every other
index with 7. -/
def hdmi_display_ids (display_num : Int) : Int × Int :=
  (0, if display_num = 0 then 2 else 7)

/-- The flags of the mode as vc4_fkms_get_fw_mode sets them, starting from the zeroed
mode, from the flags of the timing record: the sync polarities and interlace. -/
def fw_mode_flags (timing_flags : Nat) : Nat :=
  let f0 : Nat := 0
  let f1 := if timing_flags &&& TIMINGS_FLAGS_H_SYNC_POS ≠ 0 then f0 ||| DRM_MODE_FLAG_PHSYNC
    else f0 ||| DRM_MODE_FLAG_NHSYNC
  let f2 := if timing_flags &&& TIMINGS_FLAGS_V_SYNC_POS ≠ 0 then f1 ||| DRM_MODE_FLAG_PVSYNC
    else f1 ||| DRM_MODE_FLAG_NVSYNC
  if timing_flags &&& TIMINGS_FLAGS_INTERLACE ≠ 0 then f2 ||| DRM_MODE_FLAG_INTERLACE else f2

/-- The function vc4_fkms_get_fw_mode. Arguments: the return value of the
GET_DISPLAY_TIMING query and the timings it leaves in the buffer. Result: the return
value and the mode it fills, none when it returns -1 and leaves the mode alone. Of
the mode only the fields of drm_display_mode are kept. -/
def vc4_fkms_get_fw_mode (ret : Int) (timings : set_timings) : Int × Option drm_display_mode :=
  if ret ≠ 0 ∨ timings.clock = 0 then (-1, none)
  else
    (0, some
      { clock := s32 timings.clock, hdisplay := timings.hdisplay,
        hsync_start := timings.hsync_start, hsync_end := timings.hsync_end,
        htotal := timings.htotal, hskew := 0, vdisplay := timings.vdisplay,
        vsync_start := timings.vsync_start, vsync_end := timings.vsync_end,
        vtotal := timings.vtotal, vscan := timings.vscan,
        flags := fw_mode_flags timings.flags })

/-- An interlaced 1920x1080 mode with positive hsync, negative vsync, a skew and the
double-clock flag. -/
def mode_1080i : drm_display_mode :=
  { clock := 74250, hdisplay := 1920, hsync_start := 2008, hsync_end := 2052,
    htotal := 2200, hskew := 3, vdisplay := 1080, vsync_start := 1084, vsync_end := 1094,
    vtotal := 1125, vscan := 0,
    flags := DRM_MODE_FLAG_PHSYNC ||| DRM_MODE_FLAG_NVSYNC ||| DRM_MODE_FLAG_INTERLACE |||
      DRM_MODE_FLAG_DBLCLK }

/-- A mode whose hdisplay and vscan lie outside the range of a u16: the 720p mode with
hdisplay 70000 and vscan -3. -/
def mode_beyond_u16 : drm_display_mode :=
  { mode_720p 74250 with hdisplay := 70000, vscan := -3 }

/-- Modelled from the spec: a format code outside the table, DRM_FORMAT_XBGR8888 of
drm_fourcc.h (not among the sources). -/
def DRM_FORMAT_XBGR8888 : Nat := fourcc_code 'X' 'B' '2' '4'

/-- A linear 100x100 framebuffer in XBGR8888 and a plane state showing it. -/
def xbgr_fb : drm_framebuffer := sample_fb DRM_FORMAT_XBGR8888 1 DRM_FORMAT_MOD_LINEAR 100 100

/-- A plane state showing xbgr_fb at full size. -/
def xbgr_state : drm_plane_state := sample_state xbgr_fb plain_crtc_state 0 0 100 100 65535

/-! ## Lemmas -/

/-- A value in the range of unsigned int is unchanged by the conversion. -/
theorem u32_id {x : Int} (h0 : 0 ≤ x) (h1 : x < 4294967296) : u32 x = x := by
  unfold u32; omega

/-- A value in the range of int is unchanged by the conversion. -/
theorem s32_id {x : Int} (h0 : -2147483648 ≤ x) (h1 : x < 2147483648) : s32 x = x := by
  unfold s32; split <;> omega

/-- A value in the range of u16 is unchanged by the conversion. -/
theorem u16_id {x : Int} (h0 : 0 ≤ x) (h1 : x < 65536) : u16 x = x := by
  unfold u16; omega

/-- A value in the range of s16 is unchanged by the conversion. -/
theorem s16_id {x : Int} (h0 : -32768 ≤ x) (h1 : x < 32768) : s16 x = x := by
  unfold s16; split <;> omega

/-- Halving a divisor that is not negative: truncating and floor division agree. -/
theorem tdiv_two {d : Int} (h : 0 ≤ d) : Int.tdiv d 2 = d / 2 :=
  Int.tdiv_eq_ediv h (by decide)

/-- The floor quotient q of n + d/2 by d, in bounds without division. -/
theorem half_div_bounds (n d : Int) (hd : 0 < d) :
    d * ((n + d / 2) / d) ≤ n + d / 2 ∧ n + d / 2 < d * ((n + d / 2) / d) + d := by
  have h1 := Int.ediv_add_emod (n + d / 2) d
  have h2 := Int.emod_nonneg (n + d / 2) (ne_of_gt hd)
  have h3 := Int.emod_lt_of_pos (n + d / 2) hd
  constructor <;> omega

/-- The rounding division with an unsigned divisor, for a dividend that is not negative
and a sum that does not wrap: the floor of (x + d/2) / d. -/
theorem div_round_unsigned {x d : Int} (hx : 0 ≤ x) (hd : 0 < d)
    (hr : x + d / 2 < 2147483648) :
    DIV_ROUND_CLOSEST x d true = (x + d / 2) / d := by
  have hd2 : 0 ≤ d / 2 := by omega
  simp only [DIV_ROUND_CLOSEST, Bool.true_or, if_true]
  rw [tdiv_two (le_of_lt hd), s32_id (by omega) hr, Int.tdiv_eq_ediv (by omega) (le_of_lt hd)]

/-- The rounding division with a signed divisor and a positive dividend. -/
theorem div_round_signed_pos {x d : Int} (hx : 0 < x) (hd : 0 < d)
    (hr : x + d / 2 < 2147483648) :
    DIV_ROUND_CLOSEST x d false = (x + d / 2) / d := by
  have hd2 : 0 ≤ d / 2 := by omega
  simp only [DIV_ROUND_CLOSEST, hx, hd, decide_True, Bool.false_or, beq_self_eq_true, if_true]
  rw [tdiv_two (le_of_lt hd), s32_id (by omega) hr, Int.tdiv_eq_ediv (by omega) (le_of_lt hd)]

/-- The rounding division with a signed divisor and a dividend that is not positive:
the half divisor is subtracted and the quotient truncated towards zero. -/
theorem div_round_signed_nonpos {x d : Int} (hx : x ≤ 0) (hd : 0 < d)
    (hr : -2147483648 ≤ x - d / 2) :
    DIV_ROUND_CLOSEST x d false = -((d / 2 - x) / d) := by
  have hd2 : 0 ≤ d / 2 := by omega
  have hx' : ¬ (0 < x) := by omega
  simp only [DIV_ROUND_CLOSEST, hx', hd, decide_True, decide_False, Bool.false_or]
  simp only [show ((false == true) = true) = False by simp, if_false]
  rw [tdiv_two (le_of_lt hd), s32_id hr (by omega)]
  have : x - d / 2 = -(d / 2 - x) := by omega
  rw [this, Int.neg_tdiv, Int.tdiv_eq_ediv (by omega) (le_of_lt hd)]

/-- Adding half the divisor before a floor division is rounding half up. -/
theorem half_div_eq (n d : Int) (hd : 0 < d) : (n + d / 2) / d = round_half_up n d := by
  unfold round_half_up
  obtain ⟨h1, h2⟩ := half_div_bounds n d hd
  generalize (n + d / 2) / d = q at h1 h2
  have hdq : d * q = q * d := Int.mul_comm d q
  symm
  apply le_antisymm
  · have : (2 * n + d) / (2 * d) < q + 1 := by
      apply Int.ediv_lt_of_lt_mul (by omega)
      have : (q + 1) * (2 * d) = 2 * (d * q) + 2 * d := by ring
      omega
    omega
  · apply Int.le_ediv_of_mul_le (by omega)
    have : q * (2 * d) = 2 * (d * q) := by ring
    omega

/-- The reference rounding q of n / d lies within one half of the exact quotient:
2dq <= 2n + d < 2dq + 2d. -/
theorem round_half_up_bounds (n d : Int) (hd : 0 < d) :
    2 * (d * round_half_up n d) ≤ 2 * n + d ∧
    2 * n + d < 2 * (d * round_half_up n d) + 2 * d := by
  unfold round_half_up
  have h1 := Int.ediv_add_emod (2 * n + d) (2 * d)
  have h2 := Int.emod_nonneg (2 * n + d) (show 2 * d ≠ 0 by omega)
  have h3 := Int.emod_lt_of_pos (2 * n + d) (show 0 < 2 * d by omega)
  have h4 : 2 * d * ((2 * n + d) / (2 * d)) = 2 * (d * ((2 * n + d) / (2 * d))) := by ring
  constructor <;> omega

/-- The reference rounding of a dividend that is not negative is not negative. -/
theorem round_half_up_nonneg {n d : Int} (hn : 0 ≤ n) (hd : 0 < d) : 0 ≤ round_half_up n d := by
  unfold round_half_up
  exact Int.ediv_nonneg (by omega) (by omega)

/-- The reference rounding is zero exactly when the quotient is below one half. -/
theorem round_half_up_eq_zero_iff {n d : Int} (hn : 0 ≤ n) (hd : 0 < d) :
    round_half_up n d = 0 ↔ 2 * n < d := by
  have hb := round_half_up_bounds n d hd
  have h0 := round_half_up_nonneg hn hd
  constructor
  · intro h
    rw [h] at hb
    omega
  · intro h
    unfold round_half_up
    exact Int.ediv_eq_zero_of_lt (by omega) (by omega)

/-- The rounding division with a signed divisor and a positive dividend, before any
range is known: the half divisor is added in int arithmetic. -/
theorem div_round_signed_pos_raw {y d : Int} (hy : 0 < y) (hd : 0 < d) :
    DIV_ROUND_CLOSEST y d false = Int.tdiv (s32 (y + d / 2)) d := by
  simp only [DIV_ROUND_CLOSEST, hy, hd, decide_True, Bool.false_or, beq_self_eq_true, if_true]
  rw [tdiv_two (le_of_lt hd)]

/-- The rounding division with a signed divisor and a dividend that is not positive,
before any range is known: the half divisor is subtracted in int arithmetic. -/
theorem div_round_signed_nonpos_raw {y d : Int} (hy : y ≤ 0) (hd : 0 < d) :
    DIV_ROUND_CLOSEST y d false = Int.tdiv (s32 (y - d / 2)) d := by
  have hy' : ¬ (0 < y) := by omega
  simp only [DIV_ROUND_CLOSEST, hy', hd, decide_True, decide_False, Bool.false_or]
  simp only [show ((false == true) = true) = False by simp, if_false]
  rw [tdiv_two (le_of_lt hd)]

/-- In the range where nothing wraps, the rescaled length is the reference value. -/
theorem len_code_eq {w adj W : Int} (hw : is_u16 w) (hadj0 : 0 < adj) (hadjW : adj ≤ W)
    (hW : W ≤ 32767) :
    u16 (DIV_ROUND_CLOSEST (s32 (w * adj)) W false) = round_half_up (w * adj) W := by
  unfold is_u16 at hw
  have hP0 : 0 ≤ w * adj := Int.mul_nonneg hw.1 (le_of_lt hadj0)
  have hP1 : w * adj ≤ 65535 * adj := Int.mul_le_mul_of_nonneg_right (by omega) (le_of_lt hadj0)
  have hW0 : 0 < W := by omega
  rw [s32_id (by omega) (by omega)]
  generalize w * adj = x at hP0 hP1 ⊢
  have hb := round_half_up_bounds x W hW0
  have h0 := round_half_up_nonneg hP0 hW0
  have hlt : round_half_up x W < 65536 := by
    by_contra hc
    have h65 : 65536 ≤ round_half_up x W := by omega
    have := Int.mul_le_mul_of_nonneg_left h65 (le_of_lt hW0)
    omega
  by_cases hx : 0 < x
  · rw [div_round_signed_pos hx hW0 (by omega), half_div_eq _ _ hW0]
    exact u16_id h0 hlt
  · have hx0 : x = 0 := by omega
    subst hx0
    rw [div_round_signed_nonpos (le_refl 0) hW0 (by omega)]
    have hq : (W / 2 - 0) / W = 0 := Int.ediv_eq_zero_of_lt (by omega) (by omega)
    have hr : round_half_up 0 W = 0 := (round_half_up_eq_zero_iff (le_refl 0) hW0).mpr (by omega)
    rw [hq, hr]
    rfl

/-- For an active size of at most 65535 and over the whole range of the other types, the
stored length is zero exactly when the reference value is zero, also where the int
product or the sum with the half divisor wraps. -/
theorem len_code_zero_iff {w adj W : Int} (hw : is_u16 w) (hadj0 : 0 < adj) (hadjW : adj ≤ W)
    (hW : W < 65536) :
    u16 (DIV_ROUND_CLOSEST (s32 (w * adj)) W false) = 0 ↔ round_half_up (w * adj) W = 0 := by
  unfold is_u16 at hw
  have hP0 : 0 ≤ w * adj := Int.mul_nonneg hw.1 (le_of_lt hadj0)
  have hP1 : w * adj ≤ 65535 * adj := Int.mul_le_mul_of_nonneg_right (by omega) (le_of_lt hadj0)
  generalize w * adj = x at hP0 hP1 ⊢
  have hW0 : 0 < W := by omega
  have hW2 : 0 ≤ W / 2 := by omega
  have hz := round_half_up_eq_zero_iff hP0 hW0
  by_cases hx0 : x = 0
  · subst hx0
    have hs : s32 0 = 0 := by decide
    rw [hs, div_round_signed_nonpos (le_refl 0) hW0 (by omega)]
    have hq : (W / 2 - 0) / W = 0 := Int.ediv_eq_zero_of_lt (by omega) (by omega)
    have hr : round_half_up 0 W = 0 := hz.mpr (by omega)
    rw [hq, hr]
    exact ⟨fun _ => rfl, fun _ => rfl⟩
  · by_cases hsmall : x < 2147483648
    · rw [s32_id (by omega) hsmall, div_round_signed_pos_raw (by omega) hW0]
      have hy : s32 (x + W / 2) =
          if x + W / 2 < 2147483648 then x + W / 2 else x + W / 2 - 4294967296 := by
        unfold s32
        split <;> split <;> omega
      rw [hy]
      split
      · rename_i hlt
        rw [Int.tdiv_eq_ediv (by omega) (le_of_lt hW0), half_div_eq _ _ hW0]
        have hb := round_half_up_bounds x W hW0
        have h0 := round_half_up_nonneg hP0 hW0
        have hlt : round_half_up x W < 65536 := by
          by_contra hc
          have h65 : 65536 ≤ round_half_up x W := by omega
          have := Int.mul_le_mul_of_nonneg_left h65 (le_of_lt hW0)
          omega
        rw [u16_id h0 hlt]
      · rename_i hge
        have hneg : x + W / 2 - 4294967296 = -(4294967296 - x - W / 2) := by omega
        rw [hneg, Int.neg_tdiv, Int.tdiv_eq_ediv (by omega) (le_of_lt hW0)]
        have hk1 : 1 ≤ (4294967296 - x - W / 2) / W :=
          Int.le_ediv_of_mul_le hW0 (by omega)
        have hk2 : (4294967296 - x - W / 2) / W < 65536 :=
          Int.ediv_lt_of_lt_mul hW0 (by omega)
        have hr : round_half_up x W ≠ 0 := by
          rw [Ne, hz]
          omega
        constructor
        · intro h
          unfold u16 at h
          omega
        · intro h
          exact absurd h hr
    · have hs : s32 x = x - 4294967296 := by
        unfold s32
        split <;> omega
      have hr : round_half_up x W ≠ 0 := by
        rw [Ne, hz]
        omega
      rw [hs, div_round_signed_nonpos_raw (by omega) hW0]
      have hy : s32 (x - 4294967296 - W / 2) =
          if -2147483648 ≤ x - 4294967296 - W / 2 then x - 4294967296 - W / 2
          else x - W / 2 := by
        unfold s32
        split <;> split <;> omega
      rw [hy]
      split
      · rename_i hnw
        have hneg : x - 4294967296 - W / 2 = -(4294967296 - x + W / 2) := by omega
        rw [hneg, Int.neg_tdiv, Int.tdiv_eq_ediv (by omega) (le_of_lt hW0)]
        have hk1 : 1 ≤ (4294967296 - x + W / 2) / W :=
          Int.le_ediv_of_mul_le hW0 (by omega)
        have hk2 : (4294967296 - x + W / 2) / W < 65536 :=
          Int.ediv_lt_of_lt_mul hW0 (by omega)
        constructor
        · intro h
          unfold u16 at h
          omega
        · intro h
          exact absurd h hr
      · rename_i hwrap
        rw [Int.tdiv_eq_ediv (by omega) (le_of_lt hW0)]
        have hk1 : 1 ≤ (x - W / 2) / W :=
          Int.le_ediv_of_mul_le hW0 (by omega)
        have hk2 : (x - W / 2) / W < 65536 :=
          Int.ediv_lt_of_lt_mul hW0 (by omega)
        constructor
        · intro h
          unfold u16 at h
          omega
        · intro h
          exact absurd h hr

/-- Passing through unsigned int and back to s16 keeps a value of the s16 range. -/
theorem s16_u32 {y : Int} (h0 : -32768 ≤ y) (h1 : y < 32768) : s16 (u32 y) = y := by
  unfold s16 u32
  split <;> omega

/-- Passing through unsigned int and back to int keeps a value of the int range. -/
theorem s32_u32 {y : Int} (h0 : -2147483648 ≤ y) (h1 : y < 2147483648) : s32 (u32 y) = y := by
  unfold s32 u32
  split <;> omega

/-- In the range where int arithmetic does not wrap, the signed macro is the reference
rounding. -/
theorem div_round_signed_eq {x d : Int} (hd : 0 < d) (h1 : -2147483648 ≤ x - d / 2)
    (h2 : x + d / 2 < 2147483648) : DIV_ROUND_CLOSEST x d false = round_nearest x d := by
  unfold round_nearest
  split
  · rename_i hx
    rw [div_round_signed_pos hx hd h2, half_div_eq _ _ hd]
  · rename_i hx
    rw [div_round_signed_nonpos (by omega) hd h1, ← half_div_eq _ _ hd]
    have : d / 2 - x = -x + d / 2 := by omega
    rw [this]

/-- In the range where nothing wraps, the adjusted position is the reference value. -/
theorem pos_code_eq {x l r W : Int} (hx : is_s16 x) (hl : 0 ≤ l) (hr : 0 ≤ r)
    (hlt : l + r < W) (hW : W ≤ 32767) :
    (if s16 (u32 (s16 (DIV_ROUND_CLOSEST (s32 (x * (W - l - r))) W false) + l)) >
        s32 (u32 (W - l))
      then s16 (u32 (W - l))
      else s16 (u32 (s16 (DIV_ROUND_CLOSEST (s32 (x * (W - l - r))) W false) + l))) =
    rescale_pos x W l r := by
  unfold is_s16 at hx
  have hW0 : 0 < W := by omega
  have hadj0 : 0 < W - l - r := by omega
  have hP1 : x * (W - l - r) ≤ 32767 * (W - l - r) :=
    Int.mul_le_mul_of_nonneg_right (by omega) (le_of_lt hadj0)
  have hP2 : -32768 * (W - l - r) ≤ x * (W - l - r) :=
    Int.mul_le_mul_of_nonneg_right (by omega) (le_of_lt hadj0)
  have hWl : W * l ≤ 32767 * l := Int.mul_le_mul_of_nonneg_right hW hl
  unfold rescale_pos
  generalize x * (W - l - r) = P at hP1 hP2 ⊢
  rw [s32_id (by omega) (by omega), div_round_signed_eq hW0 (by omega) (by omega)]
  have hq : -32768 ≤ round_nearest P W ∧ round_nearest P W + l ≤ 32767 := by
    unfold round_nearest
    split
    · rename_i hpos
      have hb := round_half_up_bounds P W hW0
      have h0 := round_half_up_nonneg (le_of_lt hpos) hW0
      refine ⟨by omega, ?_⟩
      by_contra hc
      have hge : 32768 - l ≤ round_half_up P W := by omega
      have h3 := Int.mul_le_mul_of_nonneg_left hge (le_of_lt hW0)
      have h4 : W * (32768 - l) = 32768 * W - W * l := by ring
      omega
    · rename_i hneg
      have hb := round_half_up_bounds (-P) W hW0
      have h0 := round_half_up_nonneg (show 0 ≤ -P by omega) hW0
      refine ⟨?_, by omega⟩
      by_contra hc
      have hge : 32769 ≤ round_half_up (-P) W := by omega
      have h3 := Int.mul_le_mul_of_nonneg_left hge (le_of_lt hW0)
      omega
  rw [s16_id hq.1 (by omega), s16_u32 (by omega) (by omega), s32_u32 (by omega) (by omega),
    s16_u32 (by omega) (by omega)]
  simp only [min_def]
  split <;> split <;> omega

/-- The adjuster in the range where nothing wraps: visible area not degenerate and an
active size of at most 32767 in each direction. -/
theorem margins_adj_in_range (cs : fkms_crtc_state) (plane : set_plane)
    (hm : (vc4_fkms_crtc_get_margins cs).typed) (hp : plane.dst_typed)
    (hnz : ¬ ((vc4_fkms_crtc_get_margins cs).left = 0 ∧ (vc4_fkms_crtc_get_margins cs).right = 0 ∧
      (vc4_fkms_crtc_get_margins cs).top = 0 ∧ (vc4_fkms_crtc_get_margins cs).bottom = 0))
    (hlr : (vc4_fkms_crtc_get_margins cs).left + (vc4_fkms_crtc_get_margins cs).right
      < cs.mode.hdisplay)
    (htb : (vc4_fkms_crtc_get_margins cs).top + (vc4_fkms_crtc_get_margins cs).bottom
      < cs.mode.vdisplay)
    (hW : cs.mode.hdisplay ≤ 32767) (hH : cs.mode.vdisplay ≤ 32767) :
    vc4_fkms_margins_adj cs plane =
      (if rescale_len plane.dst_w cs.mode.hdisplay (vc4_fkms_crtc_get_margins cs).left
            (vc4_fkms_crtc_get_margins cs).right = 0 ∨
          rescale_len plane.dst_h cs.mode.vdisplay (vc4_fkms_crtc_get_margins cs).top
            (vc4_fkms_crtc_get_margins cs).bottom = 0
        then -EINVAL else 0,
       { plane with
         dst_x := rescale_pos plane.dst_x cs.mode.hdisplay (vc4_fkms_crtc_get_margins cs).left
           (vc4_fkms_crtc_get_margins cs).right
         dst_y := rescale_pos plane.dst_y cs.mode.vdisplay (vc4_fkms_crtc_get_margins cs).top
           (vc4_fkms_crtc_get_margins cs).bottom
         dst_w := rescale_len plane.dst_w cs.mode.hdisplay (vc4_fkms_crtc_get_margins cs).left
           (vc4_fkms_crtc_get_margins cs).right
         dst_h := rescale_len plane.dst_h cs.mode.vdisplay (vc4_fkms_crtc_get_margins cs).top
           (vc4_fkms_crtc_get_margins cs).bottom }) := by
  obtain ⟨hl, hr, ht, hb⟩ := hm
  obtain ⟨hx, hy, hw, hh⟩ := hp
  generalize hmdef : vc4_fkms_crtc_get_margins cs = m at *
  have hl' := hl; have hr' := hr; have ht' := ht; have hb' := hb
  unfold is_u32 at hl' hr' ht' hb'
  have hulr : u32 (m.left + m.right) = m.left + m.right := u32_id (by omega) (by omega)
  have hutb : u32 (m.top + m.bottom) = m.top + m.bottom := u32_id (by omega) (by omega)
  have huW : u32 cs.mode.hdisplay = cs.mode.hdisplay := u32_id (by omega) (by omega)
  have huH : u32 cs.mode.vdisplay = cs.mode.vdisplay := u32_id (by omega) (by omega)
  have hdeg : ¬ (u32 (m.left + m.right) ≥ u32 cs.mode.hdisplay ∨
      u32 (m.top + m.bottom) ≥ u32 cs.mode.vdisplay) := by
    rw [hulr, hutb, huW, huH]; omega
  have hadjW : s32 (u32 (cs.mode.hdisplay - u32 (m.left + m.right))) =
      cs.mode.hdisplay - m.left - m.right := by
    rw [hulr, s32_u32 (by omega) (by omega)]; omega
  have hadjH : s32 (u32 (cs.mode.vdisplay - u32 (m.top + m.bottom))) =
      cs.mode.vdisplay - m.top - m.bottom := by
    rw [hutb, s32_u32 (by omega) (by omega)]; omega
  unfold vc4_fkms_margins_adj
  simp only [hmdef]
  rw [if_neg hnz, if_neg hdeg, hadjW, hadjH]
  rw [pos_code_eq hx hl'.1 hr'.1 hlr hW, pos_code_eq hy ht'.1 hb'.1 htb hH]
  rw [len_code_eq hw (by omega) (by omega) hW, len_code_eq hh (by omega) (by omega) hH]
  unfold rescale_len
  split <;> rfl

/-- Every row of the table: its drm code is one of the eleven formats, its image type
is one of the nine the table lists, and is_vu is 1 exactly for YVU420 and NV21. -/
theorem vc_image_formats_rows :
    ∀ e ∈ vc_image_formats,
      e.drm ∈ plane_formats ∧
      e.vc_image ∈ [VC_IMAGE_XRGB8888, VC_IMAGE_ARGB8888, VC_IMAGE_RGB565, VC_IMAGE_BGR888,
        VC_IMAGE_RGB888, VC_IMAGE_YUV422PLANAR, VC_IMAGE_YUV420, VC_IMAGE_YUV420SP,
        VC_IMAGE_YUV10COL] ∧
      (e.is_vu = 1 ↔ (e.drm = DRM_FORMAT_YVU420 ∨ e.drm = DRM_FORMAT_NV21)) ∧
      (e.is_vu = 0 ∨ e.is_vu = 1) := by
  decide

/-- The lookup finds a row for each format of the plane's format list. -/
theorem plane_formats_found :
    ∀ f ∈ plane_formats, (vc4_get_vc_image_fmt f).isSome = true := by
  decide

/-- A successful adjustment with margins that are not all zero and whose sums do not
wrap, on a mode whose active size is not negative, has a visible area that is not
degenerate. -/
theorem margins_adj_ok_visible (cs : fkms_crtc_state) (plane : set_plane)
    (hm : (vc4_fkms_crtc_get_margins cs).typed)
    (hnz : ¬ ((vc4_fkms_crtc_get_margins cs).left = 0 ∧ (vc4_fkms_crtc_get_margins cs).right = 0 ∧
      (vc4_fkms_crtc_get_margins cs).top = 0 ∧ (vc4_fkms_crtc_get_margins cs).bottom = 0))
    (hlr : (vc4_fkms_crtc_get_margins cs).left + (vc4_fkms_crtc_get_margins cs).right
      < 4294967296)
    (htb : (vc4_fkms_crtc_get_margins cs).top + (vc4_fkms_crtc_get_margins cs).bottom
      < 4294967296)
    (hW0 : 0 ≤ cs.mode.hdisplay) (hW1 : cs.mode.hdisplay < 4294967296)
    (hH0 : 0 ≤ cs.mode.vdisplay) (hH1 : cs.mode.vdisplay < 4294967296)
    (hok : (vc4_fkms_margins_adj cs plane).1 = 0) :
    (vc4_fkms_crtc_get_margins cs).left + (vc4_fkms_crtc_get_margins cs).right
        < cs.mode.hdisplay ∧
    (vc4_fkms_crtc_get_margins cs).top + (vc4_fkms_crtc_get_margins cs).bottom
        < cs.mode.vdisplay := by
  obtain ⟨hl, hr, ht, hb⟩ := hm
  generalize hmdef : vc4_fkms_crtc_get_margins cs = m at *
  unfold is_u32 at hl hr ht hb
  have hulr : u32 (m.left + m.right) = m.left + m.right := u32_id (by omega) (by omega)
  have hutb : u32 (m.top + m.bottom) = m.top + m.bottom := u32_id (by omega) (by omega)
  have huW : u32 cs.mode.hdisplay = cs.mode.hdisplay := u32_id hW0 hW1
  have huH : u32 cs.mode.vdisplay = cs.mode.vdisplay := u32_id hH0 hH1
  unfold vc4_fkms_margins_adj at hok
  simp only [hmdef] at hok
  rw [if_neg hnz, hulr, hutb, huW, huH] at hok
  by_cases hdeg : m.left + m.right ≥ cs.mode.hdisplay ∨ m.top + m.bottom ≥ cs.mode.vdisplay
  · rw [if_pos hdeg] at hok
    have h0 : -EINVAL = (0 : Int) := hok
    exact absurd h0 (by decide)
  · omega
/-- The reference rounding of a position is a nearest integer: it differs from the
exact quotient n / d by at most one half. -/
theorem round_nearest_is_nearest (n d : Int) (hd : 0 < d) :
    -d ≤ 2 * (d * round_nearest n d - n) ∧ 2 * (d * round_nearest n d - n) ≤ d := by
  unfold round_nearest
  split
  · have hb := round_half_up_bounds n d hd
    constructor <;> omega
  · have hb := round_half_up_bounds (-n) d hd
    have hc : d * -round_half_up (-n) d = -(d * round_half_up (-n) d) := by ring
    rw [hc]
    constructor <;> omega

/-- Where the reference rescale puts a rectangle that lies inside the active length W:
the position is at least min(near, W - near) and at most W - near, the length is at
most the visible length, and the far end overshoots W - far by at most one. -/
theorem rescale_inside {x w l r W : Int} (hx : 0 ≤ x) (hw : 0 ≤ w) (hxw : x + w ≤ W)
    (hl : 0 ≤ l) (hr : 0 ≤ r) (hlr : l + r < W) :
    min l (W - l) ≤ rescale_pos x W l r ∧ rescale_pos x W l r ≤ W - l ∧
    rescale_len w W l r ≤ W - l - r ∧
    rescale_pos x W l r + rescale_len w W l r ≤ W - r + 1 := by
  have hW0 : 0 < W := by omega
  unfold rescale_pos rescale_len
  generalize hA : W - l - r = A
  have hA0 : 0 < A := by omega
  have hP0 : 0 ≤ x * A := Int.mul_nonneg hx (le_of_lt hA0)
  have hQ0 : 0 ≤ w * A := Int.mul_nonneg hw (le_of_lt hA0)
  have hPQ : x * A + w * A ≤ W * A := by
    have := Int.mul_le_mul_of_nonneg_right hxw (le_of_lt hA0)
    have e : (x + w) * A = x * A + w * A := by ring
    omega
  generalize x * A = P at hP0 hPQ ⊢
  generalize w * A = Q at hQ0 hPQ ⊢
  have ha := round_half_up_bounds P W hW0
  have hb := round_half_up_bounds Q W hW0
  have ha0 := round_half_up_nonneg hP0 hW0
  have hb0 := round_half_up_nonneg hQ0 hW0
  have hrn : 0 ≤ round_nearest P W ∧ round_nearest P W ≤ round_half_up P W := by
    unfold round_nearest
    split
    · omega
    · rename_i hP
      have hPz : P = 0 := by omega
      subst hPz
      have : round_half_up 0 W = 0 := (round_half_up_eq_zero_iff (le_refl 0) hW0).2 (by omega)
      simp only [neg_zero, this]
      omega
  have hsum : round_half_up P W + round_half_up Q W ≤ A + 1 := by
    by_contra hc
    have hge : A + 2 ≤ round_half_up P W + round_half_up Q W := by omega
    have h3 := Int.mul_le_mul_of_nonneg_left hge (le_of_lt hW0)
    have e1 : W * (A + 2) = W * A + 2 * W := by ring
    have e2 : W * (round_half_up P W + round_half_up Q W) =
        W * round_half_up P W + W * round_half_up Q W := by ring
    omega
  have hlen : round_half_up Q W ≤ A := by
    by_contra hc
    have hge : A + 1 ≤ round_half_up Q W := by omega
    have h3 := Int.mul_le_mul_of_nonneg_left hge (le_of_lt hW0)
    have e1 : W * (A + 1) = W * A + W := by ring
    omega
  simp only [min_def]
  refine ⟨?_, ?_, hlen, ?_⟩ <;> split <;> (try split) <;> omega

/-- With all four margins zero the adjuster returns 0 and leaves the record as it is. -/
theorem margins_adj_of_zero (cs : fkms_crtc_state) (plane : set_plane)
    (hz : (vc4_fkms_crtc_get_margins cs).left = 0 ∧ (vc4_fkms_crtc_get_margins cs).right = 0 ∧
      (vc4_fkms_crtc_get_margins cs).top = 0 ∧ (vc4_fkms_crtc_get_margins cs).bottom = 0) :
    vc4_fkms_margins_adj cs plane = (0, plane) := by
  unfold vc4_fkms_margins_adj
  simp only []
  rw [if_pos hz]

/-- The adjuster writes nothing but the destination rectangle. -/
theorem margins_adj_rect (cs : fkms_crtc_state) (plane : set_plane) :
    ∃ x y w h, (vc4_fkms_margins_adj cs plane).2 =
      { plane with dst_x := x, dst_y := y, dst_w := w, dst_h := h } := by
  unfold vc4_fkms_margins_adj
  simp only []
  split
  · exact ⟨plane.dst_x, plane.dst_y, plane.dst_w, plane.dst_h, rfl⟩
  · split
    · exact ⟨plane.dst_x, plane.dst_y, plane.dst_w, plane.dst_h, rfl⟩
    · split <;> exact ⟨_, _, _, _, rfl⟩

/-- The record vc4_plane_to_mb builds, for a format that has a row in the table. -/
theorem plane_to_mb_eq (rot : Nat → Nat → Nat) (mb : mailbox_set_plane)
    (st : drm_plane_state) (fb : drm_framebuffer) (cs : fkms_crtc_state)
    (vc_fmt : vc_image_format) (hfmt : vc4_get_vc_image_fmt fb.format = some vc_fmt) :
    vc4_plane_to_mb rot mb st fb cs =
      some (0, ⟨mb.tag, to_mb_modifier (to_mb_chroma
        (vc4_fkms_margins_adj cs (to_mb_fields rot vc_fmt mb.plane st fb)).2 st fb) fb⟩) := by
  unfold vc4_plane_to_mb
  rw [hfmt]

/-- The modifier switch leaves every field but the image type and the pitch. -/
theorem to_mb_modifier_fields (p : set_plane) (fb : drm_framebuffer) :
    ∃ t pitch, to_mb_modifier p fb = { p with vc_image_type := t, pitch := pitch } := by
  unfold to_mb_modifier
  split
  · exact ⟨_, p.pitch, rfl⟩
  · split
    · exact ⟨_, _, rfl⟩
    · exact ⟨p.vc_image_type, p.pitch, rfl⟩

/-- The chroma part leaves every field but the image type, the colour-matrix code and
the last three plane addresses. -/
theorem to_mb_chroma_fields (p : set_plane) (st : drm_plane_state) (fb : drm_framebuffer) :
    ∃ t c p1 p2, to_mb_chroma p st fb =
      { p with vc_image_type := t, color_encoding := c, planes1 := p1, planes2 := p2,
               planes3 := 0 } := by
  unfold to_mb_chroma
  simp only []
  split
  · exact ⟨_, _, _, _, rfl⟩
  · exact ⟨p.vc_image_type, p.color_encoding, 0, 0, rfl⟩

/-- The image type of the record vc4_plane_to_mb builds for a single-plane
framebuffer: the table's image type passed through the modifier switch. -/
theorem plane_to_mb_single_plane_type (rot : Nat → Nat → Nat) (mb : mailbox_set_plane)
    (st : drm_plane_state) (fb : drm_framebuffer) (cs : fkms_crtc_state)
    (vc_fmt : vc_image_format) (hnp : fb.num_planes = 1) :
    (to_mb_chroma (vc4_fkms_margins_adj cs (to_mb_fields rot vc_fmt mb.plane st fb)).2 st
      fb).vc_image_type = vc_fmt.vc_image := by
  obtain ⟨x, y, w, h, hadj⟩ := margins_adj_rect cs (to_mb_fields rot vc_fmt mb.plane st fb)
  rw [hadj]
  unfold to_mb_chroma
  simp only []
  rw [if_neg (by omega)]
  rfl

/-- The image type the chroma part leaves is the one it was given or the
interleaved-chroma type. -/
theorem to_mb_chroma_type (p : set_plane) (st : drm_plane_state) (fb : drm_framebuffer) :
    (to_mb_chroma p st fb).vc_image_type = p.vc_image_type ∨
    (to_mb_chroma p st fb).vc_image_type = VC_IMAGE_YUV420_S := by
  unfold to_mb_chroma
  simp only []
  split
  · split
    · exact Or.inr rfl
    · exact Or.inl rfl
  · exact Or.inl rfl

/-- The VC4_T_TILED modifier carries no embedded parameter. -/
theorem t_tiled_mod : fourcc_mod_broadcom_mod DRM_FORMAT_MOD_BROADCOM_VC4_T_TILED =
    DRM_FORMAT_MOD_BROADCOM_VC4_T_TILED := by decide

/-- A value in the range of u8 is unchanged by the conversion. -/
theorem u8_id {x : Int} (h0 : 0 ≤ x) (h1 : x < 256) : u8 x = x := by
  unfold u8; omega

/-- The lowest bit of the bits of an int is its parity. -/
theorem int_bits_odd (x : Int) : int_bits x % 2 = 1 ↔ x % 2 = 1 := by
  unfold int_bits u32
  omega

/-- The odd-timing test holds exactly when one of the four horizontal widths is odd. -/
theorem odd_horizontal_timing_iff (mode : drm_display_mode) :
    odd_horizontal_timing mode = true ↔
      (mode.hdisplay % 2 = 1 ∨ (mode.hsync_start - mode.hdisplay) % 2 = 1 ∨
        (mode.hsync_end - mode.hsync_start) % 2 = 1 ∨
        (mode.htotal - mode.hsync_end) % 2 = 1) := by
  unfold odd_horizontal_timing
  rw [decide_eq_true_iff, Nat.and_one_is_mod]
  have h1 := @Nat.or_mod_two_eq_one
    (int_bits mode.hdisplay ||| int_bits (mode.hsync_start - mode.hdisplay) |||
      int_bits (mode.hsync_end - mode.hsync_start)) (int_bits (mode.htotal - mode.hsync_end))
  have h2 := @Nat.or_mod_two_eq_one
    (int_bits mode.hdisplay ||| int_bits (mode.hsync_start - mode.hdisplay))
    (int_bits (mode.hsync_end - mode.hsync_start))
  have h3 := @Nat.or_mod_two_eq_one (int_bits mode.hdisplay)
    (int_bits (mode.hsync_start - mode.hdisplay))
  have b1 := int_bits_odd mode.hdisplay
  have b2 := int_bits_odd (mode.hsync_start - mode.hdisplay)
  have b3 := int_bits_odd (mode.hsync_end - mode.hsync_start)
  have b4 := int_bits_odd (mode.htotal - mode.hsync_end)
  omega

/-- The flags set from the mode and the picture aspect leave the RGB_LIMITED and DVI
bits clear. -/
theorem timing_mode_flags_clear (mode : drm_display_mode) (aspect : hdmi_picture_aspect) :
    timing_mode_flags mode aspect &&& TIMINGS_FLAGS_RGB_LIMITED = 0 ∧
    timing_mode_flags mode aspect &&& TIMINGS_FLAGS_DVI = 0 := by
  unfold timing_mode_flags
  simp only []
  cases aspect <;> split <;> split <;> split <;> split <;> decide

/-- Setting one bit of a flag word and testing a bit: the RGB_LIMITED and DVI bits after
the driver sets one of them in a word where both were clear. -/
theorem flag_bits_after_set (f : Nat) (h1 : f &&& TIMINGS_FLAGS_RGB_LIMITED = 0)
    (h2 : f &&& TIMINGS_FLAGS_DVI = 0) :
    (f ||| TIMINGS_FLAGS_RGB_LIMITED) &&& TIMINGS_FLAGS_RGB_LIMITED ≠ 0 ∧
    (f ||| TIMINGS_FLAGS_RGB_LIMITED) &&& TIMINGS_FLAGS_DVI = 0 ∧
    (f ||| TIMINGS_FLAGS_DVI) &&& TIMINGS_FLAGS_DVI ≠ 0 ∧
    (f ||| TIMINGS_FLAGS_DVI) &&& TIMINGS_FLAGS_RGB_LIMITED = 0 := by
  rw [Nat.and_distrib_right, Nat.and_distrib_right, Nat.and_distrib_right,
    Nat.and_distrib_right, h1, h2]
  decide

/-- The blank request of vc4_plane_set_blank has every payload field zero except
display and plane_id. -/
theorem set_blank_true_is_blank (p : vc4_fkms_plane) :
    is_blank_request (vc4_plane_set_blank p true) := by
  simp [vc4_plane_set_blank, is_blank_request, set_plane_zero]

/-- The blank request of vc4_plane_set_blank names the plane of the stored record. -/
theorem set_blank_true_ids (p : vc4_fkms_plane) :
    (vc4_plane_set_blank p true).plane.display = p.mb.plane.display ∧
    (vc4_plane_set_blank p true).plane.plane_id = p.mb.plane.plane_id ∧
    (vc4_plane_set_blank p true).tag.tag = RPI_FIRMWARE_SET_PLANE ∧
    (vc4_plane_set_blank p true).tag.buf_size = sizeof_set_plane ∧
    (vc4_plane_set_blank p true).tag.req_resp_size = 0 := by
  simp [vc4_plane_set_blank]

/-- The unblank request of vc4_plane_set_blank is the stored record. -/
theorem set_blank_false_stored (p : vc4_fkms_plane) :
    vc4_plane_set_blank p false = p.mb := by
  simp [vc4_plane_set_blank]

theorem set_plane_requests_append (l1 l2 : List fkms_effect) :
    set_plane_requests (l1 ++ l2) = set_plane_requests l1 ++ set_plane_requests l2 := by
  simp [set_plane_requests, List.filterMap_append]

theorem sent_events_append (l1 l2 : List fkms_effect) :
    sent_events (l1 ++ l2) = sent_events l1 ++ sent_events l2 := by
  simp [sent_events, List.filterMap_append]

theorem set_plane_requests_map {α : Type} (f : α → mailbox_set_plane) (l : List α) :
    set_plane_requests (l.map (fun p => fkms_effect.firmware_set_plane (f p))) = l.map f := by
  induction l with
  | nil => rfl
  | cons a t ih =>
    have ih2 : List.filterMap _ _ = _ := ih
    simp [set_plane_requests, ih2]

theorem sent_events_map {α : Type} (f : α → mailbox_set_plane) (l : List α) :
    sent_events (l.map (fun p => fkms_effect.firmware_set_plane (f p))) = [] := by
  induction l with
  | nil => rfl
  | cons a t ih =>
    have ih2 : List.filterMap _ _ = _ := ih
    simp [sent_events, ih2]

/-- The plane loop of vc4_crtc_disable issues one blank request per plane. -/
theorem planes_off_eq (planes : List drm_plane) :
    (planes.map vc4_plane_atomic_disable).flatten =
      planes.map (fun p => fkms_effect.firmware_set_plane
        (vc4_plane_set_blank p.vc4_plane true)) := by
  induction planes with
  | nil => rfl
  | cons a t ih => simp [vc4_plane_atomic_disable, ih]

theorem consume_event_some (crtc : vc4_crtc) (e : drm_pending_vblank_event)
    (h : crtc.state_event = some e) :
    vc4_crtc_consume_event crtc =
      ({ crtc with event := some { e with pipe := crtc.index }, state_event := none },
       [fkms_effect.vblank_get]) := by
  simp only [vc4_crtc_consume_event, h]

/-- The log of vc4_crtc_enable: vblank on, the effects of vc4_crtc_consume_event, then
one request per plane that has a framebuffer, with the visible flag passed as the
blank argument. -/
theorem crtc_enable_log (crtc : vc4_crtc) :
    (vc4_crtc_enable crtc).2 =
      [fkms_effect.vblank_on] ++ (vc4_crtc_consume_event crtc).2 ++
        (crtc.planes.filter (fun plane => plane.state.fb.isSome)).map
          (fun plane => fkms_effect.firmware_set_plane
            (vc4_plane_set_blank plane.vc4_plane plane.state.visible)) := by
  have hp : (vc4_crtc_consume_event crtc).1.planes = crtc.planes := by
    unfold vc4_crtc_consume_event
    split <;> rfl
  unfold vc4_crtc_enable
  simp only [hp]

/-- The effects of serving one display in the interrupt handler: no register write, a
vblank signal if vblank signaling is enabled, the delivery of the awaiting event and
the release of its reservation if there is one; the slot is empty afterwards. -/
theorem irq_serve_log (i : Nat) (crtc : vc4_crtc) :
    register_writes (irq_serve i crtc).2 = [] ∧
    vblank_signals (irq_serve i crtc).2 = vblank_enabled_from i [crtc] ∧
    flip_deliveries (irq_serve i crtc).2 = awaiting_from i [crtc] ∧
    reservations_released (irq_serve i crtc).2 = (awaiting_from i [crtc]).map (fun p => p.1) ∧
    (irq_serve i crtc).1.event = none := by
  cases hev : crtc.event <;> cases hve : crtc.vblank_enabled <;>
    simp [irq_serve, vc4_crtc_handle_page_flip, hev, hve, register_writes, vblank_signals,
      flip_deliveries, reservations_released, vblank_enabled_from, awaiting_from]

theorem vblank_enabled_from_cons (i : Nat) (crtc : vc4_crtc) (rest : List vc4_crtc) :
    vblank_enabled_from i (crtc :: rest) =
      vblank_enabled_from i [crtc] ++ vblank_enabled_from (i + 1) rest := by
  simp [vblank_enabled_from]

theorem awaiting_from_cons (i : Nat) (crtc : vc4_crtc) (rest : List vc4_crtc) :
    awaiting_from i (crtc :: rest) = awaiting_from i [crtc] ++ awaiting_from (i + 1) rest := by
  simp [awaiting_from]

theorem register_writes_append (l1 l2 : List irq_effect) :
    register_writes (l1 ++ l2) = register_writes l1 ++ register_writes l2 := by
  simp [register_writes, List.filterMap_append]

theorem vblank_signals_append (l1 l2 : List irq_effect) :
    vblank_signals (l1 ++ l2) = vblank_signals l1 ++ vblank_signals l2 := by
  simp [vblank_signals, List.filterMap_append]

theorem flip_deliveries_append (l1 l2 : List irq_effect) :
    flip_deliveries (l1 ++ l2) = flip_deliveries l1 ++ flip_deliveries l2 := by
  simp [flip_deliveries, List.filterMap_append]

/-- The effects of the loop of the older-firmware branch: no register write, a vblank
signal for each display with vblank signaling enabled, and the delivery of every
awaiting event. -/
theorem irq_serve_all_log (crtcs : List vc4_crtc) :
    ∀ i : Nat, register_writes (irq_serve_all i crtcs).2 = [] ∧
      vblank_signals (irq_serve_all i crtcs).2 = vblank_enabled_from i crtcs ∧
      flip_deliveries (irq_serve_all i crtcs).2 = awaiting_from i crtcs ∧
      (irq_serve_all i crtcs).1.length = crtcs.length := by
  induction crtcs with
  | nil =>
    intro i
    exact ⟨rfl, rfl, rfl, rfl⟩
  | cons crtc rest ih =>
    intro i
    have h1 := irq_serve_log i crtc
    have h2 := ih (i + 1)
    show register_writes ((irq_serve i crtc).2 ++ (irq_serve_all (i + 1) rest).2) = [] ∧
      vblank_signals ((irq_serve i crtc).2 ++ (irq_serve_all (i + 1) rest).2) =
        vblank_enabled_from i (crtc :: rest) ∧
      flip_deliveries ((irq_serve i crtc).2 ++ (irq_serve_all (i + 1) rest).2) =
        awaiting_from i (crtc :: rest) ∧
      ((irq_serve i crtc).1 :: (irq_serve_all (i + 1) rest).1).length = (crtc :: rest).length
    rw [register_writes_append, vblank_signals_append, flip_deliveries_append, h1.1, h1.2.1,
      h1.2.2.1, h2.1, h2.2.1, h2.2.2.1]
    refine ⟨rfl, (vblank_enabled_from_cons i crtc rest).symm,
      (awaiting_from_cons i crtc rest).symm, ?_⟩
    simp [h2.2.2.2]

/-- The older-firmware branch of the interrupt handler as a whole. -/
theorem irq_legacy_eq (crtc0 : vc4_crtc) (rest : List vc4_crtc) (stat chan0 chan1 : Nat)
    (hstat : stat &&& SMICS_INTERRUPTS ≠ 0) (hchan : chan0 &&& 0xFFFF0000 ≠ SMI_NEW) :
    vc4_crtc_irq_handler (crtc0 :: rest) stat chan0 chan1 =
      some (irqreturn_t.IRQ_HANDLED, (irq_serve_all 0 (crtc0 :: rest)).1,
        [irq_effect.writel 0 SMICS] ++ (irq_serve_all 0 (crtc0 :: rest)).2) := by
  unfold vc4_crtc_irq_handler
  simp only []
  rw [if_pos hstat, if_pos hchan]

/-- The new-protocol branch of the interrupt handler as a whole. -/
theorem irq_new_eq (crtc0 : vc4_crtc) (rest : List vc4_crtc) (stat chan0 chan1 : Nat)
    (hstat : stat &&& SMICS_INTERRUPTS ≠ 0) (hchan : chan0 &&& 0xFFFF0000 = SMI_NEW) :
    vc4_crtc_irq_handler (crtc0 :: rest) stat chan0 chan1 =
      some (irqreturn_t.IRQ_HANDLED,
        (if chan0 &&& 1 ≠ 0 then (irq_serve 0 crtc0).1 else crtc0) ::
          (match rest with
            | [] => []
            | crtc1 :: others =>
              (if chan1 &&& 1 ≠ 0 then (irq_serve 1 crtc1).1 else crtc1) :: others),
        [irq_effect.writel 0 SMICS] ++
          (if chan0 &&& 1 ≠ 0 then
            [irq_effect.writel SMI_NEW SMIDSW0] ++ (irq_serve 0 crtc0).2 else []) ++
          (match rest with
            | [] => []
            | crtc1 :: _ =>
              if chan1 &&& 1 ≠ 0 then
                [irq_effect.writel SMI_NEW SMIDSW1] ++ (irq_serve 1 crtc1).2 else [])) := by
  unfold vc4_crtc_irq_handler
  simp only []
  rw [if_pos hstat, if_neg (not_not.mpr hchan)]
  cases rest with
  | nil =>
    by_cases hb0 : chan0 &&& 1 ≠ 0
    · simp only [if_pos hb0, List.append_nil]
    · simp only [if_neg hb0, List.append_nil]
  | cons crtc1 others =>
    by_cases hb0 : chan0 &&& 1 ≠ 0 <;> by_cases hb1 : chan1 &&& 1 ≠ 0
    · simp only [if_pos hb0, if_pos hb1, List.append_assoc]
    · simp only [if_pos hb0, if_neg hb1, List.append_assoc]
    · simp only [if_neg hb0, if_pos hb1, List.append_assoc]
    · simp only [if_neg hb0, if_neg hb1, List.append_assoc]

/-- A plane id of vc4_fkms_create_screen: the int slot + display_idx * PLANES_PER_CRTC
cut to the u8 parameter of vc4_fkms_plane_init is slot + 3 * display_idx modulo 256. -/
theorem plane_id_u8 (slot display_idx : Int) :
    u8 (s32 (slot + s32 (display_idx * PLANES_PER_CRTC))) = (slot + 3 * display_idx) % 256 := by
  unfold u8 s32 PLANES_PER_CRTC
  split <;> split <;> omega

/-- The plane ids of a display that vc4_fkms_create_screen constructs. -/
theorem create_screen_plane_ids (allocs : screen_allocs) (display_idx display_ref : Int)
    (screen : fkms_screen)
    (h : (vc4_fkms_create_screen allocs display_idx display_ref).2 = some screen) :
    screen.primary_plane.mb.plane.plane_id = (0 + 3 * display_idx) % 256 ∧
    screen.overlay_plane.mb.plane.plane_id = (1 + 3 * display_idx) % 256 ∧
    screen.cursor_plane.mb.plane.plane_id = (2 + 3 * display_idx) % 256 := by
  obtain ⟨c, p, o, cu, e, ce⟩ := allocs
  by_cases hce : ce = 0
  · subst hce
    cases c <;> cases p <;> cases o <;> cases cu <;> cases e <;>
      first
        | exact Option.noConfusion h
        | (have h2 := Option.some.inj h
           subst h2
           exact ⟨plane_id_u8 0 display_idx, plane_id_u8 1 display_idx,
             plane_id_u8 2 display_idx⟩)
  · cases c <;> cases p <;> cases o <;> cases cu <;> cases e <;>
      simp [vc4_fkms_create_screen, vc4_fkms_plane_init, hce] at h

/-- The plane ids of the displays that the loop of vc4_fkms_bind constructs, for display
indices display_num up to display_num + n - 1 with at most 85 displays in all: they
lie between 3 * display_num and 3 * (display_num + n) - 1 and no two are equal. -/
theorem bind_screens_plane_ids (env : bind_env) (n : Nat) :
    ∀ display_num : Int, 0 ≤ display_num → display_num + n ≤ 85 →
      (∀ x ∈ device_plane_ids (bind_screens env display_num n),
        3 * display_num ≤ x ∧ x < 3 * (display_num + n)) ∧
      (device_plane_ids (bind_screens env display_num n)).Nodup := by
  induction n with
  | zero =>
    intro d _ _
    simp [bind_screens, device_plane_ids]
  | succ n ih =>
    intro d hd hn
    have hn2 : d + 1 + (n : Int) ≤ 85 := by push_cast at hn; omega
    have h := ih (d + 1) (by omega) hn2
    have hd2 : s32 d = d := by
      unfold s32
      split <;> omega
    cases hs : (vc4_fkms_create_screen (env.allocs d) (s32 d)
        (s32 (u32 (env.display_id_query d).2))).2 with
    | none =>
      have he : device_plane_ids (bind_screens env d (n + 1)) =
          device_plane_ids (bind_screens env (d + 1) n) := by
        simp [bind_screens, hs, device_plane_ids]
      rw [he]
      refine ⟨?_, h.2⟩
      intro x hx
      have := h.1 x hx
      push_cast
      omega
    | some screen =>
      have he : device_plane_ids (bind_screens env d (n + 1)) =
          [screen.primary_plane.mb.plane.plane_id, screen.overlay_plane.mb.plane.plane_id,
            screen.cursor_plane.mb.plane.plane_id] ++
            device_plane_ids (bind_screens env (d + 1) n) := by
        simp [bind_screens, hs, device_plane_ids]
      have hid := create_screen_plane_ids _ _ _ screen hs
      rw [hd2] at hid
      have h0 : screen.primary_plane.mb.plane.plane_id = 3 * d := by
        rw [hid.1]; push_cast at hn; omega
      have h1 : screen.overlay_plane.mb.plane.plane_id = 3 * d + 1 := by
        rw [hid.2.1]; push_cast at hn; omega
      have h2 : screen.cursor_plane.mb.plane.plane_id = 3 * d + 2 := by
        rw [hid.2.2]; push_cast at hn; omega
      rw [he, h0, h1, h2]
      constructor
      · intro x hx
        simp only [List.mem_append, List.mem_cons, List.mem_singleton, List.not_mem_nil,
          or_false] at hx
        push_cast
        rcases hx with (hx | hx | hx) | hx
        · omega
        · omega
        · omega
        · have := h.1 x hx
          omega
      · rw [List.nodup_append]
        refine ⟨?_, h.2, ?_⟩
        · simp only [List.nodup_cons, List.mem_cons, List.mem_singleton, List.not_mem_nil,
            not_false_eq_true, List.nodup_nil, and_true, not_or]
          omega
        · intro x hx1 hx2
          simp only [List.mem_cons, List.mem_singleton, List.not_mem_nil, or_false] at hx1
          have := h.1 x hx2
          omega

/-- A successful vc4_fkms_bind leaves the entries of its loop in crtc_list, one per
display. -/
theorem bind_ok_crtc_list (env : bind_env) (ret : Int) (dev : fkms_device)
    (h : vc4_fkms_bind env = some (ret, some dev)) :
    ret = 0 ∧
    dev.num_displays = (if env.num_displays_query.1 ≠ 0 then 1 else u32 env.num_displays_query.2) ∧
    dev.crtc_list = bind_screens env 0 dev.num_displays.toNat ∧
    dev.fkms.cfg.max_pixel_clock0 = u32 env.display_cfg_query.2.1 / 1000 ∧
    dev.fkms.cfg.max_pixel_clock1 = u32 env.display_cfg_query.2.2 / 1000 := by
  unfold vc4_fkms_bind at h
  split at h
  · simp at h
  · split at h
    · simp at h
    · split at h
      · simp at h
      · simp only [] at h
        split at h
        · simp at h
        · split at h
          · simp at h
          · generalize hnum : (if env.num_displays_query.1 ≠ 0 then (1 : Int)
              else u32 env.num_displays_query.2) = num at h ⊢
            split at h
            · split at h
              · split at h
                · simp only [Option.some.injEq, Prod.mk.injEq] at h
                  obtain ⟨h1, h2⟩ := h
                  subst h2
                  exact ⟨h1.symm, rfl, rfl, rfl, rfl⟩
                · simp at h
              · simp at h
            · simp only [Option.some.injEq, Prod.mk.injEq] at h
              obtain ⟨h1, h2⟩ := h
              subst h2
              exact ⟨h1.symm, rfl, rfl, rfl, rfl⟩

/-- Setting bits outside a mask leaves the masked bits as they were. -/
theorem flag_or_keeps (f g b : Nat) (h : g &&& b = 0) : (f ||| g) &&& b = f &&& b := by
  rw [Nat.and_distrib_right, h, Nat.or_zero]

/-- The sync and interlace bits of the flags that vc4_crtc_mode_set_nofb sets from the
mode are those of the mode. -/
theorem timing_mode_flags_sync (mode : drm_display_mode) (aspect : hdmi_picture_aspect) :
    (timing_mode_flags mode aspect &&& TIMINGS_FLAGS_H_SYNC_POS ≠ 0 ↔
      mode.flags &&& DRM_MODE_FLAG_PHSYNC ≠ 0) ∧
    (timing_mode_flags mode aspect &&& TIMINGS_FLAGS_V_SYNC_POS ≠ 0 ↔
      mode.flags &&& DRM_MODE_FLAG_PVSYNC ≠ 0) ∧
    (timing_mode_flags mode aspect &&& TIMINGS_FLAGS_INTERLACE ≠ 0 ↔
      mode.flags &&& DRM_MODE_FLAG_INTERLACE ≠ 0) := by
  unfold timing_mode_flags
  simp only []
  cases aspect <;> split <;> split <;> split <;> split <;>
    (refine ⟨?_, ?_, ?_⟩ <;>
      first
        | exact iff_of_true (by decide) (by assumption)
        | exact iff_of_false (by decide) (by assumption))

/-- The sync and interlace bits of the timing record that vc4_crtc_mode_set_nofb builds,
and the fields it copies from the mode, cut to the u16 fields of the record. -/
theorem mode_set_nofb_record
    (drm_hdmi_avi_infoframe_from_display_mode : drm_display_mode → Int × hdmi_avi_infoframe)
    (drm_default_rgb_quant_range : drm_display_mode → hdmi_quantization_range)
    (drm_mode_vrefresh : drm_display_mode → Int)
    (display_number : Int) (mode : drm_display_mode) (hdmi_monitor : Bool)
    (broadcast_rgb : Int)
    (havi : 0 ≤ (drm_hdmi_avi_infoframe_from_display_mode mode).1) :
    ∃ t, vc4_crtc_mode_set_nofb drm_hdmi_avi_infoframe_from_display_mode
        drm_default_rgb_quant_range drm_mode_vrefresh display_number mode hdmi_monitor
        broadcast_rgb = some t ∧
      t.clock = u32 mode.clock ∧ t.hdisplay = u16 mode.hdisplay ∧
      t.hsync_start = u16 mode.hsync_start ∧ t.hsync_end = u16 mode.hsync_end ∧
      t.htotal = u16 mode.htotal ∧ t.hskew = u16 mode.hskew ∧
      t.vdisplay = u16 mode.vdisplay ∧ t.vsync_start = u16 mode.vsync_start ∧
      t.vsync_end = u16 mode.vsync_end ∧ t.vtotal = u16 mode.vtotal ∧
      t.vscan = u16 mode.vscan ∧
      (t.flags &&& TIMINGS_FLAGS_H_SYNC_POS ≠ 0 ↔ mode.flags &&& DRM_MODE_FLAG_PHSYNC ≠ 0) ∧
      (t.flags &&& TIMINGS_FLAGS_V_SYNC_POS ≠ 0 ↔ mode.flags &&& DRM_MODE_FLAG_PVSYNC ≠ 0) ∧
      (t.flags &&& TIMINGS_FLAGS_INTERLACE ≠ 0 ↔
        mode.flags &&& DRM_MODE_FLAG_INTERLACE ≠ 0) := by
  obtain ⟨s1, s2, s3⟩ := timing_mode_flags_sync mode
    (drm_hdmi_avi_infoframe_from_display_mode mode).2.picture_aspect
  unfold vc4_crtc_mode_set_nofb
  simp only []
  rw [if_neg (by omega)]
  refine ⟨_, rfl, rfl, rfl, rfl, rfl, rfl, rfl, rfl, rfl, rfl, rfl, rfl, ?_, ?_, ?_⟩
  · show (ite _ _ _) &&& TIMINGS_FLAGS_H_SYNC_POS ≠ 0 ↔ _
    split
    · rw [flag_or_keeps _ _ _ (by decide)]; exact s1
    · split
      · split
        · rw [flag_or_keeps _ _ _ (by decide)]; exact s1
        · exact s1
      · split
        · rw [flag_or_keeps _ _ _ (by decide)]; exact s1
        · exact s1
  · show (ite _ _ _) &&& TIMINGS_FLAGS_V_SYNC_POS ≠ 0 ↔ _
    split
    · rw [flag_or_keeps _ _ _ (by decide)]; exact s2
    · split
      · split
        · rw [flag_or_keeps _ _ _ (by decide)]; exact s2
        · exact s2
      · split
        · rw [flag_or_keeps _ _ _ (by decide)]; exact s2
        · exact s2
  · show (ite _ _ _) &&& TIMINGS_FLAGS_INTERLACE ≠ 0 ↔ _
    split
    · rw [flag_or_keeps _ _ _ (by decide)]; exact s3
    · split
      · split
        · rw [flag_or_keeps _ _ _ (by decide)]; exact s3
        · exact s3
      · split
        · rw [flag_or_keeps _ _ _ (by decide)]; exact s3
        · exact s3

/-- The bits of the mode flags that vc4_fkms_get_fw_mode sets. -/
theorem fw_mode_flags_bits (f : Nat) :
    (fw_mode_flags f &&& DRM_MODE_FLAG_PHSYNC ≠ 0 ↔ f &&& TIMINGS_FLAGS_H_SYNC_POS ≠ 0) ∧
    (fw_mode_flags f &&& DRM_MODE_FLAG_NHSYNC ≠ 0 ↔ ¬ f &&& TIMINGS_FLAGS_H_SYNC_POS ≠ 0) ∧
    (fw_mode_flags f &&& DRM_MODE_FLAG_PVSYNC ≠ 0 ↔ f &&& TIMINGS_FLAGS_V_SYNC_POS ≠ 0) ∧
    (fw_mode_flags f &&& DRM_MODE_FLAG_NVSYNC ≠ 0 ↔ ¬ f &&& TIMINGS_FLAGS_V_SYNC_POS ≠ 0) ∧
    (fw_mode_flags f &&& DRM_MODE_FLAG_INTERLACE ≠ 0 ↔ f &&& TIMINGS_FLAGS_INTERLACE ≠ 0) ∧
    fw_mode_flags f &&& DRM_MODE_FLAG_DBLCLK = 0 ∧
    fw_mode_flags f &&& DRM_MODE_FLAG_DBLSCAN = 0 := by
  unfold fw_mode_flags
  simp only []
  split <;> split <;> split <;>
    (refine ⟨?_, ?_, ?_, ?_, ?_, by decide, by decide⟩ <;>
      first
        | exact iff_of_true (by decide) (by assumption)
        | exact iff_of_false (by decide) (by assumption)
        | exact iff_of_false (by decide) (not_not.mpr (by assumption)))

/-- The mode that vc4_fkms_get_fw_mode fills from a timing record with a non-zero clock
that a successful query returned. -/
theorem get_fw_mode_record (timings : set_timings) (hclock : timings.clock ≠ 0) :
    ∃ m, vc4_fkms_get_fw_mode 0 timings = (0, some m) ∧
      m.clock = s32 timings.clock ∧ m.hdisplay = timings.hdisplay ∧
      m.hsync_start = timings.hsync_start ∧ m.hsync_end = timings.hsync_end ∧
      m.htotal = timings.htotal ∧ m.hskew = 0 ∧ m.vdisplay = timings.vdisplay ∧
      m.vsync_start = timings.vsync_start ∧ m.vsync_end = timings.vsync_end ∧
      m.vtotal = timings.vtotal ∧ m.vscan = timings.vscan ∧
      m.flags = fw_mode_flags timings.flags := by
  unfold vc4_fkms_get_fw_mode
  rw [if_neg (by simp [hclock])]
  exact ⟨_, rfl, rfl, rfl, rfl, rfl, rfl, rfl, rfl, rfl, rfl, rfl, rfl, rfl⟩

/-- The formats that vc4_fkms_format_mod_supported treats by name are in the table. -/
theorem named_formats_in_table :
    DRM_FORMAT_XRGB8888 ∈ plane_formats ∧ DRM_FORMAT_ARGB8888 ∈ plane_formats ∧
    DRM_FORMAT_RGB565 ∈ plane_formats ∧ DRM_FORMAT_NV12 ∈ plane_formats ∧
    DRM_FORMAT_P030 ∈ plane_formats := by
  decide

/-! ## Claims -/

/-- C1 (code defect). The claim: whenever the margin adjuster returns Invalid (-EINVAL)
for an enabled plane state, the plane check returns a failure. The code at the state
degenerate_state (margins left = right = 50 on a mode 100 wide, XRGB8888 framebuffer):
the format has its row in the table, vc4_fkms_margins_adj returns -EINVAL on the
record being filled, and vc4_plane_atomic_check still returns 0, because
vc4_plane_to_mb calls the adjuster and drops its return value. -/
theorem vc4_plane_atomic_check_drops_invalid (rotation_simplify : Nat → Nat → Nat) :
    vc4_get_vc_image_fmt xrgb_fb.format = some xrgb_row ∧
    (vc4_fkms_margins_adj degenerate_crtc_state
      (to_mb_fields rotation_simplify xrgb_row sample_record.plane degenerate_state
        xrgb_fb)).1 = -EINVAL ∧
    plane_enabled degenerate_state = true ∧
    (vc4_plane_atomic_check rotation_simplify ⟨sample_record⟩ degenerate_state).map
      Prod.fst = some 0 :=
  ⟨rfl, rfl, rfl, rfl⟩

/-- C2, the claim as stated fails: with left = 4294967295 and right = 1 the sum
left + right is 4294967296, not below the active width 100, so the claim calls the
margins Invalid; the code adds the two unsigned int values modulo 2^32, gets 0, and
returns 0 (success). -/
theorem margins_adj_invalid_wraps :
    (vc4_fkms_margins_adj (sample_crtc_state 4294967295 1 0 0 100 100)
      (sample_rect 0 0 100 100)).1 = 0 ∧
    (4294967295 : Int) + 1 ≥ 100 ∧
    ¬ ((vc4_fkms_margins_adj (sample_crtc_state 4294967295 1 0 0 100 100)
          (sample_rect 0 0 100 100)).1 = -EINVAL ↔
        margins_invalid ⟨4294967295, 1, 0, 0⟩ 100 100 100 100) := by
  decide

/-- C2, a mode wider than 65535: with hdisplay = 131073, left = 1 and dst_w = 32768 the
int product dst_w * (hdisplay - left) is 2^32 and wraps to 0, so the stored width is
0 and vc4_fkms_margins_adj returns -EINVAL, although the visible area is not
degenerate and the rescaled width rounds to 32768. -/
theorem margins_adj_invalid_wide_mode :
    (vc4_fkms_margins_adj (sample_crtc_state 1 0 0 0 131073 100)
      (sample_rect 0 0 32768 100)).1 = -EINVAL ∧
    rescale_len 32768 131073 1 0 = 32768 ∧
    ¬ margins_invalid ⟨1, 0, 0, 0⟩ 131073 100 32768 100 := by
  decide

/-- C2, amended: for every destination rectangle and margins of their C types and every
mode whose hdisplay and vdisplay lie in 0..65535, the margins not all zero and the
sums left + right and top + bottom below 2^32 (no wrap of the unsigned int addition),
vc4_fkms_margins_adj returns -EINVAL if and only if left + right >= hdisplay, or
top + bottom >= vdisplay, or the rescaled dst_w or dst_h rounds to zero. In this range
the zero test agrees with the reference also where the int product dst_w * adjW, or
its sum with half the divisor, wraps. -/
theorem margins_adj_invalid_iff (cs : fkms_crtc_state) (plane : set_plane)
    (hm : (vc4_fkms_crtc_get_margins cs).typed) (hmode : cs.mode.typed)
    (hp : plane.dst_typed)
    (hnz : ¬ ((vc4_fkms_crtc_get_margins cs).left = 0 ∧ (vc4_fkms_crtc_get_margins cs).right = 0 ∧
      (vc4_fkms_crtc_get_margins cs).top = 0 ∧ (vc4_fkms_crtc_get_margins cs).bottom = 0))
    (hlr : (vc4_fkms_crtc_get_margins cs).left + (vc4_fkms_crtc_get_margins cs).right
      < 4294967296)
    (htb : (vc4_fkms_crtc_get_margins cs).top + (vc4_fkms_crtc_get_margins cs).bottom
      < 4294967296) :
    (vc4_fkms_margins_adj cs plane).1 = -EINVAL ↔
      margins_invalid (vc4_fkms_crtc_get_margins cs) cs.mode.hdisplay cs.mode.vdisplay
        plane.dst_w plane.dst_h := by
  obtain ⟨hl, hr, ht, hb⟩ := hm
  obtain ⟨hx, hy, hw, hh⟩ := hp
  obtain ⟨hW, hH⟩ := hmode
  generalize hmdef : vc4_fkms_crtc_get_margins cs = m at *
  have hl' := hl; have hr' := hr; have ht' := ht; have hb' := hb
  have hW' := hW; have hH' := hH
  unfold is_u32 at hl' hr' ht' hb'
  unfold is_u16 at hW' hH'
  have hulr : u32 (m.left + m.right) = m.left + m.right := u32_id (by omega) (by omega)
  have hutb : u32 (m.top + m.bottom) = m.top + m.bottom := u32_id (by omega) (by omega)
  have huW : u32 cs.mode.hdisplay = cs.mode.hdisplay := u32_id (by omega) (by omega)
  have huH : u32 cs.mode.vdisplay = cs.mode.vdisplay := u32_id (by omega) (by omega)
  unfold vc4_fkms_margins_adj margins_invalid
  simp only [hmdef]
  rw [if_neg hnz, hulr, hutb, huW, huH]
  by_cases hdeg : m.left + m.right ≥ cs.mode.hdisplay ∨ m.top + m.bottom ≥ cs.mode.vdisplay
  · rw [if_pos hdeg]
    constructor
    · intro _
      rcases hdeg with h | h
      · exact Or.inl h
      · exact Or.inr (Or.inl h)
    · intro _
      rfl
  · rw [if_neg hdeg]
    have hadjW : s32 (u32 (cs.mode.hdisplay - (m.left + m.right))) =
        cs.mode.hdisplay - m.left - m.right := by
      rw [s32_u32 (by omega) (by omega)]; omega
    have hadjH : s32 (u32 (cs.mode.vdisplay - (m.top + m.bottom))) =
        cs.mode.vdisplay - m.top - m.bottom := by
      rw [s32_u32 (by omega) (by omega)]; omega
    rw [hadjW, hadjH]
    have hwz := @len_code_zero_iff plane.dst_w (cs.mode.hdisplay - m.left - m.right)
      cs.mode.hdisplay hw (by omega) (by omega) (by omega)
    have hhz := @len_code_zero_iff plane.dst_h (cs.mode.vdisplay - m.top - m.bottom)
      cs.mode.vdisplay hh (by omega) (by omega) (by omega)
    unfold rescale_len
    rw [← hwz, ← hhz]
    split
    · rename_i hz
      constructor
      · intro _
        exact Or.inr (Or.inr hz)
      · intro _
        rfl
    · rename_i hz
      constructor
      · intro h
        have h0 : (0 : Int) = -EINVAL := h
        exact absurd h0 (by decide)
      · intro h
        rcases h with h | h | h
        · exact absurd (Or.inl h) hdeg
        · exact absurd (Or.inr h) hdeg
        · exact absurd h hz

/-- C2, witness: the example of the spec, left = 50, right = 50 on an active width of
100, is Invalid. -/
theorem margins_adj_invalid_iff_witness :
    (vc4_fkms_margins_adj degenerate_crtc_state (sample_rect 0 0 100 100)).1 = -EINVAL ↔
      margins_invalid (vc4_fkms_crtc_get_margins degenerate_crtc_state)
        degenerate_crtc_state.mode.hdisplay degenerate_crtc_state.mode.vdisplay
        (sample_rect 0 0 100 100).dst_w (sample_rect 0 0 100 100).dst_h :=
  margins_adj_invalid_iff degenerate_crtc_state (sample_rect 0 0 100 100)
    (by decide) (by decide) (by decide) (by decide) (by decide) (by decide)

/-- C3, the claim as stated fails at two inputs on which the adjuster succeeds with
non-zero margins. On a mode 40000 wide with left = 35000, dst_x = 0 becomes 35000,
which the s16 field stores as -30536, while the reference gives 5000. With
left = 4294967295 and right = 1 the sum wraps to 0 and dst_w stays 100, while the
reference width is negative. -/
theorem margins_adj_reference_wraps :
    ((vc4_fkms_margins_adj (sample_crtc_state 35000 0 0 0 40000 100)
        (sample_rect 0 0 100 100)).1 = 0 ∧
      (vc4_fkms_margins_adj (sample_crtc_state 35000 0 0 0 40000 100)
        (sample_rect 0 0 100 100)).2.dst_x = -30536 ∧
      rescale_pos 0 40000 35000 0 = 5000) ∧
    ((vc4_fkms_margins_adj (sample_crtc_state 4294967295 1 0 0 100 100)
        (sample_rect 0 0 100 100)).1 = 0 ∧
      (vc4_fkms_margins_adj (sample_crtc_state 4294967295 1 0 0 100 100)
        (sample_rect 0 0 100 100)).2.dst_w = 100 ∧
      rescale_len 100 100 4294967295 1 = -4294967196) := by
  decide

/-- C3, a mode with a negative active width. hdisplay is an int and the test of the
degenerate visible area compares it with left + right as an unsigned value, so with
hdisplay = -1 and left = 1 the test passes although left + right >= hdisplay; the
adjuster goes on, divides by -1 and returns 0 with dst_w = 200, where the reference
rescale, which rounds for a positive width, gives 201. The margins and the rectangle
hold values of their types and hdisplay is below 32767: an upper bound on hdisplay
alone does not make a successful adjustment equal to the reference. -/
theorem margins_adj_negative_mode :
    (vc4_fkms_crtc_get_margins (sample_crtc_state 1 0 0 0 (-1) 100)).typed ∧
    (sample_rect 0 0 100 100).dst_typed ∧
    (sample_crtc_state 1 0 0 0 (-1) 100).mode.hdisplay ≤ 32767 ∧
    (1 : Int) + 0 ≥ -1 ∧
    (vc4_fkms_margins_adj (sample_crtc_state 1 0 0 0 (-1) 100)
      (sample_rect 0 0 100 100)).1 = 0 ∧
    (vc4_fkms_margins_adj (sample_crtc_state 1 0 0 0 (-1) 100)
      (sample_rect 0 0 100 100)).2.dst_w = 200 ∧
    rescale_len 100 (-1) 1 0 = 201 := by
  decide

/-- C3, amended: for every input of the C types on which vc4_fkms_margins_adj succeeds
with margins that are not all zero, whose sums left + right and top + bottom are below
2^32, on a mode with hdisplay and vdisplay from 0 to 32767 (the range of the s16 fields
dst_x and dst_y), the result is the reference rescale: dst_w is dst_w * adjW / hdisplay
rounded to nearest with ties up, dst_x is min(round-to-nearest(dst_x * adjW / hdisplay)
+ left, hdisplay - left), with adjW = hdisplay - left - right, and dst_h, dst_y
likewise with top, bottom and vdisplay. -/
theorem margins_adj_matches_reference (cs : fkms_crtc_state) (plane : set_plane)
    (hm : (vc4_fkms_crtc_get_margins cs).typed) (hp : plane.dst_typed)
    (hnz : ¬ ((vc4_fkms_crtc_get_margins cs).left = 0 ∧ (vc4_fkms_crtc_get_margins cs).right = 0 ∧
      (vc4_fkms_crtc_get_margins cs).top = 0 ∧ (vc4_fkms_crtc_get_margins cs).bottom = 0))
    (hlr : (vc4_fkms_crtc_get_margins cs).left + (vc4_fkms_crtc_get_margins cs).right
      < 4294967296)
    (htb : (vc4_fkms_crtc_get_margins cs).top + (vc4_fkms_crtc_get_margins cs).bottom
      < 4294967296)
    (hW0 : 0 ≤ cs.mode.hdisplay) (hW : cs.mode.hdisplay ≤ 32767)
    (hH0 : 0 ≤ cs.mode.vdisplay) (hH : cs.mode.vdisplay ≤ 32767)
    (hok : (vc4_fkms_margins_adj cs plane).1 = 0) :
    (vc4_fkms_margins_adj cs plane).2.dst_w =
      rescale_len plane.dst_w cs.mode.hdisplay (vc4_fkms_crtc_get_margins cs).left
        (vc4_fkms_crtc_get_margins cs).right ∧
    (vc4_fkms_margins_adj cs plane).2.dst_x =
      rescale_pos plane.dst_x cs.mode.hdisplay (vc4_fkms_crtc_get_margins cs).left
        (vc4_fkms_crtc_get_margins cs).right ∧
    (vc4_fkms_margins_adj cs plane).2.dst_h =
      rescale_len plane.dst_h cs.mode.vdisplay (vc4_fkms_crtc_get_margins cs).top
        (vc4_fkms_crtc_get_margins cs).bottom ∧
    (vc4_fkms_margins_adj cs plane).2.dst_y =
      rescale_pos plane.dst_y cs.mode.vdisplay (vc4_fkms_crtc_get_margins cs).top
        (vc4_fkms_crtc_get_margins cs).bottom := by
  obtain ⟨h1, h2⟩ := margins_adj_ok_visible cs plane hm hnz hlr htb hW0 (by omega) hH0
    (by omega) hok
  rw [margins_adj_in_range cs plane hm hp hnz h1 h2 hW hH]
  exact ⟨rfl, rfl, rfl, rfl⟩

/-- C3, witness: the examples of the spec. With left = right = 10 on a 100-wide area,
dst_x = 0 and dst_w = 100 become dst_x = 10 and dst_w = 80, and dst_w = 101 becomes
dst_w = 81. -/
theorem margins_adj_matches_reference_witness :
    ((vc4_fkms_margins_adj (sample_crtc_state 10 10 0 0 100 100)
        (sample_rect 0 0 100 100)).2.dst_w = rescale_len 100 100 10 10 ∧
      rescale_len 100 100 10 10 = 80 ∧
      (vc4_fkms_margins_adj (sample_crtc_state 10 10 0 0 100 100)
        (sample_rect 0 0 100 100)).2.dst_x = rescale_pos 0 100 10 10 ∧
      rescale_pos 0 100 10 10 = 10) ∧
    ((vc4_fkms_margins_adj (sample_crtc_state 10 10 0 0 100 100)
        (sample_rect 0 0 101 100)).2.dst_w = rescale_len 101 100 10 10 ∧
      rescale_len 101 100 10 10 = 81) :=
  ⟨⟨(margins_adj_matches_reference (sample_crtc_state 10 10 0 0 100 100)
        (sample_rect 0 0 100 100) (by decide) (by decide) (by decide) (by decide)
        (by decide) (by decide) (by decide) (by decide) (by decide) (by decide)).1,
      by decide,
      (margins_adj_matches_reference (sample_crtc_state 10 10 0 0 100 100)
        (sample_rect 0 0 100 100) (by decide) (by decide) (by decide) (by decide)
        (by decide) (by decide) (by decide) (by decide) (by decide) (by decide)).2.1,
      by decide⟩,
    ⟨(margins_adj_matches_reference (sample_crtc_state 10 10 0 0 100 100)
        (sample_rect 0 0 101 100) (by decide) (by decide) (by decide) (by decide)
        (by decide) (by decide) (by decide) (by decide) (by decide) (by decide)).1,
      by decide⟩⟩

/-- C4: for every destination rectangle and every mode, a mode with zero active width
or height included, when all four margins are zero vc4_fkms_margins_adj returns 0 and
leaves the whole record, dst_x, dst_y, dst_w and dst_h included, unchanged. -/
theorem margins_adj_zero_margins_noop (crtc_state : fkms_crtc_state) (plane : set_plane)
    (hzero : (vc4_fkms_crtc_get_margins crtc_state).left = 0 ∧
      (vc4_fkms_crtc_get_margins crtc_state).right = 0 ∧
      (vc4_fkms_crtc_get_margins crtc_state).top = 0 ∧
      (vc4_fkms_crtc_get_margins crtc_state).bottom = 0) :
    vc4_fkms_margins_adj crtc_state plane = (0, plane) := by
  unfold vc4_fkms_margins_adj
  simp only []
  rw [if_pos hzero]

/-- C4, witness: a mode with zero active width and height and zero margins leaves the
rectangle (-5, 7, 300, 200) as it is. -/
theorem margins_adj_zero_margins_noop_witness :
    vc4_fkms_margins_adj (sample_crtc_state 0 0 0 0 0 0) (sample_rect (-5) 7 300 200) =
      (0, sample_rect (-5) 7 300 200) :=
  margins_adj_zero_margins_noop (sample_crtc_state 0 0 0 0 0 0) (sample_rect (-5) 7 300 200)
    (by decide)

/-- C5, the claim as stated fails at three inputs that meet its hypotheses and on which
the adjuster succeeds. On 1920x1080 with left = right = 60 the rectangle x = 8,
w = 1912 becomes x = 68, w = 1793, ending at 1861, past hdisplay - right = 1860 (both
halves round up). On a mode 100 wide with left = 60 the rectangle x = 50, w = 50 is
clamped to x = 40, below left. On a mode 65535 wide with left = 40000 the rectangle
x = 30000, w = 100 gets x = -13847, the wrap of 51689 in the s16 field. -/
theorem margins_adj_leaves_visible_area :
    ((vc4_fkms_margins_adj (sample_crtc_state 60 60 0 0 1920 1080)
        (sample_rect 8 0 1912 1080)).1 = 0 ∧
      (vc4_fkms_margins_adj (sample_crtc_state 60 60 0 0 1920 1080)
        (sample_rect 8 0 1912 1080)).2.dst_x = 68 ∧
      (vc4_fkms_margins_adj (sample_crtc_state 60 60 0 0 1920 1080)
        (sample_rect 8 0 1912 1080)).2.dst_w = 1793 ∧
      ¬ ((68 : Int) + 1793 ≤ 1920 - 60)) ∧
    ((vc4_fkms_margins_adj (sample_crtc_state 60 0 0 0 100 100)
        (sample_rect 50 0 50 100)).1 = 0 ∧
      (vc4_fkms_margins_adj (sample_crtc_state 60 0 0 0 100 100)
        (sample_rect 50 0 50 100)).2.dst_x = 40 ∧
      ¬ ((60 : Int) ≤ 40)) ∧
    ((vc4_fkms_margins_adj (sample_crtc_state 40000 0 0 0 65535 100)
        (sample_rect 30000 0 100 100)).1 = 0 ∧
      (vc4_fkms_margins_adj (sample_crtc_state 40000 0 0 0 65535 100)
        (sample_rect 30000 0 100 100)).2.dst_x = -13847 ∧
      ¬ ((40000 : Int) ≤ -13847)) := by
  decide

/-- C5, amended: for every mode with hdisplay and vdisplay at most 32767, every margins
with left + right < hdisplay and top + bottom < vdisplay, and every destination
rectangle inside the active area, the rectangle left by vc4_fkms_margins_adj (in
particular whenever it succeeds) satisfies min(left, hdisplay - left) <= dst_x <=
hdisplay - left, dst_w <= hdisplay - left - right and dst_x + dst_w <= hdisplay -
right + 1, and the same vertically with top, bottom and vdisplay: the far edge may
pass the visible area by one pixel of rounding, and the position is clamped to
hdisplay - left, which is below left when left exceeds half the width. -/
theorem margins_adj_near_visible_area (cs : fkms_crtc_state) (plane : set_plane)
    (hm : (vc4_fkms_crtc_get_margins cs).typed) (hp : plane.dst_typed)
    (hlr : (vc4_fkms_crtc_get_margins cs).left + (vc4_fkms_crtc_get_margins cs).right
      < cs.mode.hdisplay)
    (htb : (vc4_fkms_crtc_get_margins cs).top + (vc4_fkms_crtc_get_margins cs).bottom
      < cs.mode.vdisplay)
    (hW : cs.mode.hdisplay ≤ 32767) (hH : cs.mode.vdisplay ≤ 32767)
    (hx : 0 ≤ plane.dst_x) (hxw : plane.dst_x + plane.dst_w ≤ cs.mode.hdisplay)
    (hy : 0 ≤ plane.dst_y) (hyh : plane.dst_y + plane.dst_h ≤ cs.mode.vdisplay) :
    min (vc4_fkms_crtc_get_margins cs).left
        (cs.mode.hdisplay - (vc4_fkms_crtc_get_margins cs).left)
      ≤ (vc4_fkms_margins_adj cs plane).2.dst_x ∧
    (vc4_fkms_margins_adj cs plane).2.dst_x
      ≤ cs.mode.hdisplay - (vc4_fkms_crtc_get_margins cs).left ∧
    (vc4_fkms_margins_adj cs plane).2.dst_w
      ≤ cs.mode.hdisplay - (vc4_fkms_crtc_get_margins cs).left
          - (vc4_fkms_crtc_get_margins cs).right ∧
    (vc4_fkms_margins_adj cs plane).2.dst_x + (vc4_fkms_margins_adj cs plane).2.dst_w
      ≤ cs.mode.hdisplay - (vc4_fkms_crtc_get_margins cs).right + 1 ∧
    min (vc4_fkms_crtc_get_margins cs).top
        (cs.mode.vdisplay - (vc4_fkms_crtc_get_margins cs).top)
      ≤ (vc4_fkms_margins_adj cs plane).2.dst_y ∧
    (vc4_fkms_margins_adj cs plane).2.dst_y
      ≤ cs.mode.vdisplay - (vc4_fkms_crtc_get_margins cs).top ∧
    (vc4_fkms_margins_adj cs plane).2.dst_h
      ≤ cs.mode.vdisplay - (vc4_fkms_crtc_get_margins cs).top
          - (vc4_fkms_crtc_get_margins cs).bottom ∧
    (vc4_fkms_margins_adj cs plane).2.dst_y + (vc4_fkms_margins_adj cs plane).2.dst_h
      ≤ cs.mode.vdisplay - (vc4_fkms_crtc_get_margins cs).bottom + 1 := by
  have hm' := hm
  have hp' := hp
  obtain ⟨hl, hr, ht, hb⟩ := hm'
  obtain ⟨_, _, hw, hh⟩ := hp'
  unfold is_u32 at hl hr ht hb
  unfold is_u16 at hw hh
  by_cases hnz : (vc4_fkms_crtc_get_margins cs).left = 0 ∧
      (vc4_fkms_crtc_get_margins cs).right = 0 ∧
      (vc4_fkms_crtc_get_margins cs).top = 0 ∧ (vc4_fkms_crtc_get_margins cs).bottom = 0
  · have hz : vc4_fkms_margins_adj cs plane = (0, plane) := by
      unfold vc4_fkms_margins_adj
      simp only []
      rw [if_pos hnz]
    obtain ⟨z1, z2, z3, z4⟩ := hnz
    rw [hz, z1, z2, z3, z4]
    simp only [min_def]
    refine ⟨?_, ?_, ?_, ?_, ?_, ?_, ?_, ?_⟩ <;> (try split) <;> omega
  · rw [margins_adj_in_range cs plane hm hp hnz hlr htb hW hH]
    obtain ⟨a1, a2, a3, a4⟩ := rescale_inside hx hw.1 hxw hl.1 hr.1 hlr
    obtain ⟨b1, b2, b3, b4⟩ := rescale_inside hy hh.1 hyh ht.1 hb.1 htb
    exact ⟨a1, a2, a3, a4, b1, b2, b3, b4⟩

/-- C5, witness: on 1920x1080 with left = right = 60 the rectangle x = 8, w = 1912 ends
within one pixel of the visible area. -/
theorem margins_adj_near_visible_area_witness :
    (vc4_fkms_margins_adj (sample_crtc_state 60 60 0 0 1920 1080)
        (sample_rect 8 0 1912 1080)).2.dst_x +
      (vc4_fkms_margins_adj (sample_crtc_state 60 60 0 0 1920 1080)
        (sample_rect 8 0 1912 1080)).2.dst_w
      ≤ (sample_crtc_state 60 60 0 0 1920 1080).mode.hdisplay -
        (vc4_fkms_crtc_get_margins (sample_crtc_state 60 60 0 0 1920 1080)).right + 1 :=
  (margins_adj_near_visible_area (sample_crtc_state 60 60 0 0 1920 1080)
    (sample_rect 8 0 1912 1080) (by decide) (by decide) (by decide) (by decide)
    (by decide) (by decide) (by decide) (by decide) (by decide) (by decide)).2.2.2.1

/-- C6, the claim as stated fails: at degenerate_state the margin adjustment is Invalid
and the check leaves a stored record whose width, height and alpha are 100, 100 and
255, where the record before the check had 0, 0 and 0. -/
theorem plane_check_overwrites_record :
    (vc4_fkms_margins_adj degenerate_crtc_state
      (to_mb_fields rotation_keep xrgb_row sample_record.plane degenerate_state
        xrgb_fb)).1 = -EINVAL ∧
    (vc4_plane_atomic_check rotation_keep ⟨sample_record⟩ degenerate_state).map
      (fun r => (r.2.mb.plane.width, r.2.mb.plane.height, r.2.mb.plane.alpha)) =
      some (100, 100, 255) ∧
    (sample_record.plane.width, sample_record.plane.height, sample_record.plane.alpha) =
      (0, 0, 0) := by
  decide

/-- C6, amended: the check fills the stored record in place. For every enabled plane
state (framebuffer fb, CRTC state crtc_state, format with the table row vc_fmt) whose
margin adjustment is Invalid, vc4_plane_atomic_check returns with the stored record
keeping its tag, display, plane_id and vpitch, and with the fields assigned before the
adjustment overwritten from the new state: width, height, the source rectangle, alpha,
num_planes, is_vu and planes[0]. -/
theorem plane_check_fills_record_in_place (rotation_simplify : Nat → Nat → Nat)
    (vc4_plane : vc4_fkms_plane) (state : drm_plane_state) (fb : drm_framebuffer)
    (crtc_state : fkms_crtc_state) (vc_fmt : vc_image_format)
    (hfb : state.fb = some fb) (hcrtc : state.crtc = some crtc_state)
    (hfmt : vc4_get_vc_image_fmt fb.format = some vc_fmt)
    (_hinvalid : (vc4_fkms_margins_adj crtc_state
      (to_mb_fields rotation_simplify vc_fmt vc4_plane.mb.plane state fb)).1 = -EINVAL) :
    ∃ ret p, vc4_plane_atomic_check rotation_simplify vc4_plane state = some (ret, p) ∧
      p.mb.tag = vc4_plane.mb.tag ∧
      p.mb.plane.display = vc4_plane.mb.plane.display ∧
      p.mb.plane.plane_id = vc4_plane.mb.plane.plane_id ∧
      p.mb.plane.vpitch = vc4_plane.mb.plane.vpitch ∧
      p.mb.plane.width = u16 fb.width ∧
      p.mb.plane.height = u16 fb.height ∧
      p.mb.plane.src_x = state.src_x ∧ p.mb.plane.src_y = state.src_y ∧
      p.mb.plane.src_w = state.src_w ∧ p.mb.plane.src_h = state.src_h ∧
      p.mb.plane.alpha = u8 (state.alpha / 256) ∧
      p.mb.plane.num_planes = u8 fb.num_planes ∧
      p.mb.plane.is_vu = u8 vc_fmt.is_vu ∧
      p.mb.plane.planes0 = u32 (fb.paddr + fb.offsets0) := by
  have hen : ¬ (plane_enabled state = false) := by
    unfold plane_enabled
    rw [hfb, hcrtc]
    simp only [Option.isSome_some, Bool.and_self, Bool.true_eq_false, not_false_eq_true]
  unfold vc4_plane_atomic_check
  rw [if_neg hen]
  simp only [hfb, hcrtc]
  rw [plane_to_mb_eq rotation_simplify _ state fb crtc_state vc_fmt hfmt]
  simp only []
  obtain ⟨x, y, w, h, hadj⟩ := margins_adj_rect crtc_state
    (to_mb_fields rotation_simplify vc_fmt vc4_plane.mb.plane state fb)
  obtain ⟨t, c, p1, p2, hch⟩ := to_mb_chroma_fields
    (vc4_fkms_margins_adj crtc_state
      (to_mb_fields rotation_simplify vc_fmt vc4_plane.mb.plane state fb)).2 state fb
  obtain ⟨t2, pitch, hmod⟩ := to_mb_modifier_fields
    (to_mb_chroma (vc4_fkms_margins_adj crtc_state
      (to_mb_fields rotation_simplify vc_fmt vc4_plane.mb.plane state fb)).2 state fb) fb
  refine ⟨_, _, rfl, ?_⟩
  rw [hmod, hch, hadj]
  exact ⟨rfl, rfl, rfl, rfl, rfl, rfl, rfl, rfl, rfl, rfl, rfl, rfl, rfl, rfl⟩

/-- C6, witness: the check at degenerate_state, whose margin adjustment is Invalid. -/
theorem plane_check_fills_record_in_place_witness :
    ∃ ret p, vc4_plane_atomic_check rotation_keep ⟨sample_record⟩ degenerate_state =
        some (ret, p) ∧
      p.mb.tag = sample_record.tag ∧
      p.mb.plane.display = sample_record.plane.display ∧
      p.mb.plane.plane_id = sample_record.plane.plane_id ∧
      p.mb.plane.vpitch = sample_record.plane.vpitch ∧
      p.mb.plane.width = u16 xrgb_fb.width ∧
      p.mb.plane.height = u16 xrgb_fb.height ∧
      p.mb.plane.src_x = degenerate_state.src_x ∧ p.mb.plane.src_y = degenerate_state.src_y ∧
      p.mb.plane.src_w = degenerate_state.src_w ∧ p.mb.plane.src_h = degenerate_state.src_h ∧
      p.mb.plane.alpha = u8 (degenerate_state.alpha / 256) ∧
      p.mb.plane.num_planes = u8 xrgb_fb.num_planes ∧
      p.mb.plane.is_vu = u8 xrgb_row.is_vu ∧
      p.mb.plane.planes0 = u32 (xrgb_fb.paddr + xrgb_fb.offsets0) :=
  plane_check_fills_record_in_place rotation_keep ⟨sample_record⟩ degenerate_state xrgb_fb
    degenerate_crtc_state xrgb_row rfl rfl rfl (by decide)

/-- C7: for every pixel format code f, vc4_get_vc_image_fmt f returns a row exactly
when f is one of the eleven formats of vc_image_formats; the row returned is a row of
the table with drm = f, an image type among the nine the table lists, and is_vu = 1
exactly for YVU420 and NV21 (0 otherwise); every other code yields no row. -/
theorem vc4_get_vc_image_fmt_table (f : Nat) :
    match vc4_get_vc_image_fmt f with
    | some e =>
      f ∈ [DRM_FORMAT_XRGB8888, DRM_FORMAT_ARGB8888, DRM_FORMAT_RGB565, DRM_FORMAT_RGB888,
        DRM_FORMAT_BGR888, DRM_FORMAT_YUV422, DRM_FORMAT_YUV420, DRM_FORMAT_YVU420,
        DRM_FORMAT_NV12, DRM_FORMAT_NV21, DRM_FORMAT_P030] ∧
      e ∈ vc_image_formats ∧ e.drm = f ∧
      e.vc_image ∈ [VC_IMAGE_XRGB8888, VC_IMAGE_ARGB8888, VC_IMAGE_RGB565, VC_IMAGE_BGR888,
        VC_IMAGE_RGB888, VC_IMAGE_YUV422PLANAR, VC_IMAGE_YUV420, VC_IMAGE_YUV420SP,
        VC_IMAGE_YUV10COL] ∧
      (e.is_vu = 1 ↔ (f = DRM_FORMAT_YVU420 ∨ f = DRM_FORMAT_NV21)) ∧
      (e.is_vu = 0 ∨ e.is_vu = 1)
    | none =>
      f ∉ [DRM_FORMAT_XRGB8888, DRM_FORMAT_ARGB8888, DRM_FORMAT_RGB565, DRM_FORMAT_RGB888,
        DRM_FORMAT_BGR888, DRM_FORMAT_YUV422, DRM_FORMAT_YUV420, DRM_FORMAT_YVU420,
        DRM_FORMAT_NV12, DRM_FORMAT_NV21, DRM_FORMAT_P030] := by
  cases hget : vc4_get_vc_image_fmt f with
  | some e =>
    have hmem : e ∈ vc_image_formats := List.mem_of_find?_eq_some hget
    have hp : e.drm = f := by
      have := List.find?_some hget
      simpa using this
    obtain ⟨h1, h2, h3, h4⟩ := vc_image_formats_rows e hmem
    subst hp
    exact ⟨h1, hmem, rfl, h2, h3, h4⟩
  | none =>
    intro hmem
    have := plane_formats_found f hmem
    rw [hget] at this
    exact absurd this (by decide)

/-- C8, the claim as stated fails: for an NV12 framebuffer under the VC4_T_TILED
modifier vc4_plane_to_mb returns 0 and produces a record, its image type the untiled
VC_IMAGE_YUV420SP; the pair is refused by vc4_fkms_format_mod_supported instead. -/
theorem t_tiled_other_format_accepted :
    (vc4_plane_to_mb rotation_keep sample_record
        (sample_state (nv12_fb DRM_FORMAT_MOD_BROADCOM_VC4_T_TILED) plain_crtc_state
          0 0 100 100 65535)
        (nv12_fb DRM_FORMAT_MOD_BROADCOM_VC4_T_TILED) plain_crtc_state).map
      (fun r => (r.1, r.2.plane.vc_image_type)) = some (0, VC_IMAGE_YUV420SP) ∧
    vc4_fkms_format_mod_supported DRM_FORMAT_NV12 DRM_FORMAT_MOD_BROADCOM_VC4_T_TILED =
      false := by
  decide

/-- C8, amended: under the VC4_T_TILED modifier vc4_plane_to_mb maps a single-plane
XRGB8888, ARGB8888 or RGB565 framebuffer to VC_IMAGE_TF_RGBX32, VC_IMAGE_TF_RGBA32 or
VC_IMAGE_TF_RGB565; every other format under this modifier is refused by
vc4_fkms_format_mod_supported (it returns false), while vc4_plane_to_mb itself does
not report Unsupported: for every other format of the table it returns 0 with a
record whose image type is none of the three tiled codes. -/
theorem t_tiled_translation (rot : Nat → Nat → Nat) (mb : mailbox_set_plane)
    (st : drm_plane_state) (fb : drm_framebuffer) (cs : fkms_crtc_state)
    (hmod : fb.modifier = DRM_FORMAT_MOD_BROADCOM_VC4_T_TILED) :
    (fb.num_planes = 1 →
      (fb.format = DRM_FORMAT_XRGB8888 → ∃ r, vc4_plane_to_mb rot mb st fb cs = some (0, r) ∧
        r.plane.vc_image_type = VC_IMAGE_TF_RGBX32) ∧
      (fb.format = DRM_FORMAT_ARGB8888 → ∃ r, vc4_plane_to_mb rot mb st fb cs = some (0, r) ∧
        r.plane.vc_image_type = VC_IMAGE_TF_RGBA32) ∧
      (fb.format = DRM_FORMAT_RGB565 → ∃ r, vc4_plane_to_mb rot mb st fb cs = some (0, r) ∧
        r.plane.vc_image_type = VC_IMAGE_TF_RGB565)) ∧
    (∀ format, format ∉ [DRM_FORMAT_XRGB8888, DRM_FORMAT_ARGB8888, DRM_FORMAT_RGB565] →
      vc4_fkms_format_mod_supported format DRM_FORMAT_MOD_BROADCOM_VC4_T_TILED = false) ∧
    (fb.format ∈ plane_formats →
      fb.format ∉ [DRM_FORMAT_XRGB8888, DRM_FORMAT_ARGB8888, DRM_FORMAT_RGB565] →
      ∃ r, vc4_plane_to_mb rot mb st fb cs = some (0, r) ∧
        r.plane.vc_image_type ∉ [VC_IMAGE_TF_RGBX32, VC_IMAGE_TF_RGBA32, VC_IMAGE_TF_RGB565]) := by
  have hm : fourcc_mod_broadcom_mod fb.modifier = DRM_FORMAT_MOD_BROADCOM_VC4_T_TILED := by
    rw [hmod]; exact t_tiled_mod
  have htype : ∀ p : set_plane, (to_mb_modifier p fb).vc_image_type =
      t_tiled_image_type p.vc_image_type := by
    intro p
    unfold to_mb_modifier
    rw [if_pos hm]
  refine ⟨?_, ?_, ?_⟩
  · intro hnp
    refine ⟨?_, ?_, ?_⟩
    · intro hf
      have hv : vc4_get_vc_image_fmt fb.format =
          some ⟨DRM_FORMAT_XRGB8888, VC_IMAGE_XRGB8888, 0⟩ := by rw [hf]; rfl
      rw [plane_to_mb_eq rot mb st fb cs _ hv]
      refine ⟨_, rfl, ?_⟩
      show (to_mb_modifier _ fb).vc_image_type = _
      rw [htype, plane_to_mb_single_plane_type rot mb st fb cs _ hnp]
      rfl
    · intro hf
      have hv : vc4_get_vc_image_fmt fb.format =
          some ⟨DRM_FORMAT_ARGB8888, VC_IMAGE_ARGB8888, 0⟩ := by rw [hf]; rfl
      rw [plane_to_mb_eq rot mb st fb cs _ hv]
      refine ⟨_, rfl, ?_⟩
      show (to_mb_modifier _ fb).vc_image_type = _
      rw [htype, plane_to_mb_single_plane_type rot mb st fb cs _ hnp]
      rfl
    · intro hf
      have hv : vc4_get_vc_image_fmt fb.format =
          some ⟨DRM_FORMAT_RGB565, VC_IMAGE_RGB565, 0⟩ := by rw [hf]; rfl
      rw [plane_to_mb_eq rot mb st fb cs _ hv]
      refine ⟨_, rfl, ?_⟩
      show (to_mb_modifier _ fb).vc_image_type = _
      rw [htype, plane_to_mb_single_plane_type rot mb st fb cs _ hnp]
      rfl
  · intro format hf
    simp only [List.mem_cons, List.mem_singleton, List.not_mem_nil, or_false, not_or] at hf
    obtain ⟨h1, h2, h3⟩ := hf
    unfold vc4_fkms_format_mod_supported
    rw [if_neg (by simp only [h1, h2, h3, or_self, not_false_eq_true])]
    split
    · decide
    · split <;> decide
  · intro hfmt hother
    obtain ⟨vc_fmt, hv⟩ := Option.isSome_iff_exists.1 (plane_formats_found fb.format hfmt)
    rw [plane_to_mb_eq rot mb st fb cs vc_fmt hv]
    refine ⟨_, rfl, ?_⟩
    show (to_mb_modifier _ fb).vc_image_type ∉ _
    rw [htype]
    have hmem : vc_fmt ∈ vc_image_formats := List.mem_of_find?_eq_some hv
    have hdrm : vc_fmt.drm = fb.format := by
      have := List.find?_some hv
      simpa using this
    have hrow : ∀ e ∈ vc_image_formats,
        e.drm ∉ [DRM_FORMAT_XRGB8888, DRM_FORMAT_ARGB8888, DRM_FORMAT_RGB565] →
        t_tiled_image_type e.vc_image ∉
          [VC_IMAGE_TF_RGBX32, VC_IMAGE_TF_RGBA32, VC_IMAGE_TF_RGB565] := by decide
    have h1 := hrow vc_fmt hmem (by rw [hdrm]; exact hother)
    obtain ⟨x, y, w, h, hadj⟩ := margins_adj_rect cs (to_mb_fields rot vc_fmt mb.plane st fb)
    rcases to_mb_chroma_type
      (vc4_fkms_margins_adj cs (to_mb_fields rot vc_fmt mb.plane st fb)).2 st fb with h2 | h2
    · rw [h2, hadj]
      exact h1
    · rw [h2]
      decide

/-- C8, witness: a page-tiled XRGB8888 framebuffer gets VC_IMAGE_TF_RGBX32. -/
theorem t_tiled_translation_witness :
    ∃ r, vc4_plane_to_mb rotation_keep sample_record
        (sample_state tiled_xrgb_fb plain_crtc_state 0 0 100 100 65535) tiled_xrgb_fb
        plain_crtc_state = some (0, r) ∧
      r.plane.vc_image_type = VC_IMAGE_TF_RGBX32 :=
  (t_tiled_translation rotation_keep sample_record
    (sample_state tiled_xrgb_fb plain_crtc_state 0 0 100 100 65535) tiled_xrgb_fb
    plain_crtc_state rfl).1 rfl |>.1 rfl

/-- C9, the claim as stated fails: for an NV12 framebuffer, BT.709 gives the same code
VC_IMAGE_YUVINFO_CSC_ITUR_BT709 for limited and for full range, BT.2020 gives
VC_IMAGE_YUVINFO_CSC_REC_2020 for both, and an encoding that is none of the three gives
VC_IMAGE_YUVINFO_CSC_ITUR_BT601 with limited range, not the JPEG full-range code. -/
theorem colour_matrix_ignores_range :
    (vc4_plane_to_mb rotation_keep sample_record
        (nv12_state DRM_COLOR_YCBCR_BT709 DRM_COLOR_YCBCR_LIMITED_RANGE)
        (nv12_fb DRM_FORMAT_MOD_LINEAR) plain_crtc_state).map
      (fun r => r.2.plane.color_encoding) = some VC_IMAGE_YUVINFO_CSC_ITUR_BT709 ∧
    (vc4_plane_to_mb rotation_keep sample_record
        (nv12_state DRM_COLOR_YCBCR_BT709 DRM_COLOR_YCBCR_FULL_RANGE)
        (nv12_fb DRM_FORMAT_MOD_LINEAR) plain_crtc_state).map
      (fun r => r.2.plane.color_encoding) = some VC_IMAGE_YUVINFO_CSC_ITUR_BT709 ∧
    (vc4_plane_to_mb rotation_keep sample_record
        (nv12_state DRM_COLOR_YCBCR_BT2020 DRM_COLOR_YCBCR_LIMITED_RANGE)
        (nv12_fb DRM_FORMAT_MOD_LINEAR) plain_crtc_state).map
      (fun r => r.2.plane.color_encoding) = some VC_IMAGE_YUVINFO_CSC_REC_2020 ∧
    (vc4_plane_to_mb rotation_keep sample_record
        (nv12_state DRM_COLOR_YCBCR_BT2020 DRM_COLOR_YCBCR_FULL_RANGE)
        (nv12_fb DRM_FORMAT_MOD_LINEAR) plain_crtc_state).map
      (fun r => r.2.plane.color_encoding) = some VC_IMAGE_YUVINFO_CSC_REC_2020 ∧
    (vc4_plane_to_mb rotation_keep sample_record
        (nv12_state DRM_COLOR_ENCODING_MAX DRM_COLOR_YCBCR_LIMITED_RANGE)
        (nv12_fb DRM_FORMAT_MOD_LINEAR) plain_crtc_state).map
      (fun r => r.2.plane.color_encoding) = some VC_IMAGE_YUVINFO_CSC_ITUR_BT601 := by
  decide

/-- C9, amended: for every multi-plane framebuffer with a format of the table,
vc4_plane_to_mb selects the colour-matrix code from (colour encoding, colour range):
BT.709 gives VC_IMAGE_YUVINFO_CSC_ITUR_BT709 and BT.2020 gives
VC_IMAGE_YUVINFO_CSC_REC_2020 whatever the range (there is no full-range code for
them); BT.601, and any encoding that is none of the three, gives
VC_IMAGE_YUVINFO_CSC_ITUR_BT601 for limited range and VC_IMAGE_YUVINFO_CSC_JPEG_JFIF
otherwise. -/
theorem colour_matrix_code (rot : Nat → Nat → Nat) (mb : mailbox_set_plane)
    (st : drm_plane_state) (fb : drm_framebuffer) (cs : fkms_crtc_state)
    (hnp : 1 < fb.num_planes) (hfmt : fb.format ∈ plane_formats) :
    ∃ r, vc4_plane_to_mb rot mb st fb cs = some (0, r) ∧
      (st.color_encoding = DRM_COLOR_YCBCR_BT709 →
        r.plane.color_encoding = VC_IMAGE_YUVINFO_CSC_ITUR_BT709) ∧
      (st.color_encoding = DRM_COLOR_YCBCR_BT2020 →
        r.plane.color_encoding = VC_IMAGE_YUVINFO_CSC_REC_2020) ∧
      (st.color_encoding ≠ DRM_COLOR_YCBCR_BT709 →
        st.color_encoding ≠ DRM_COLOR_YCBCR_BT2020 →
        (st.color_range = DRM_COLOR_YCBCR_LIMITED_RANGE →
          r.plane.color_encoding = VC_IMAGE_YUVINFO_CSC_ITUR_BT601) ∧
        (st.color_range ≠ DRM_COLOR_YCBCR_LIMITED_RANGE →
          r.plane.color_encoding = VC_IMAGE_YUVINFO_CSC_JPEG_JFIF)) := by
  obtain ⟨vc_fmt, hv⟩ := Option.isSome_iff_exists.1 (plane_formats_found fb.format hfmt)
  rw [plane_to_mb_eq rot mb st fb cs vc_fmt hv]
  refine ⟨_, rfl, ?_⟩
  obtain ⟨t2, pitch, hmod⟩ := to_mb_modifier_fields
    (to_mb_chroma (vc4_fkms_margins_adj cs (to_mb_fields rot vc_fmt mb.plane st fb)).2 st fb) fb
  rw [hmod]
  have hc : (to_mb_chroma (vc4_fkms_margins_adj cs (to_mb_fields rot vc_fmt mb.plane st fb)).2
      st fb).color_encoding = color_encoding_code st.color_encoding st.color_range := by
    unfold to_mb_chroma
    simp only []
    rw [if_pos hnp]
  show (_ → (to_mb_chroma _ st fb).color_encoding = _) ∧ (_ → (to_mb_chroma _ st fb).color_encoding = _) ∧
    (_ → _ → (_ → (to_mb_chroma _ st fb).color_encoding = _) ∧ (_ → (to_mb_chroma _ st fb).color_encoding = _))
  rw [hc]
  unfold color_encoding_code
  refine ⟨?_, ?_, ?_⟩
  · intro h; rw [h]
  · intro h; rw [h]
  · intro h1 h2
    cases henc : st.color_encoding with
    | DRM_COLOR_YCBCR_BT709 => exact absurd henc h1
    | DRM_COLOR_YCBCR_BT2020 => exact absurd henc h2
    | DRM_COLOR_YCBCR_BT601 =>
      simp only []
      constructor
      · intro h; rw [if_pos h]
      · intro h; rw [if_neg h]
    | DRM_COLOR_ENCODING_MAX =>
      simp only []
      constructor
      · intro h; rw [if_pos h]
      · intro h; rw [if_neg h]

/-- C9, witness: a linear NV12 framebuffer with BT.601 and full range gets the JPEG
code. -/
theorem colour_matrix_code_witness :
    ∃ r, vc4_plane_to_mb rotation_keep sample_record
        (nv12_state DRM_COLOR_YCBCR_BT601 DRM_COLOR_YCBCR_FULL_RANGE)
        (nv12_fb DRM_FORMAT_MOD_LINEAR) plain_crtc_state = some (0, r) ∧
      r.plane.color_encoding = VC_IMAGE_YUVINFO_CSC_JPEG_JFIF :=
  match colour_matrix_code rotation_keep sample_record
      (nv12_state DRM_COLOR_YCBCR_BT601 DRM_COLOR_YCBCR_FULL_RANGE)
      (nv12_fb DRM_FORMAT_MOD_LINEAR) plain_crtc_state (by decide) (by decide) with
  | ⟨r, hr, _, _, h3⟩ => ⟨r, hr, (h3 (by decide) (by decide)).2 (by decide)⟩

/-- C10, the claim as stated fails. At plain_state (zero margins, linear modifier) the
16-bit alpha of the state is 65535 and the alpha of the record is 255, its top eight
bits. At wide_state the framebuffer width 70000, crtc_w 70000 and crtc_x 40000 come
back as 4464, 4464 and -25536, cut to the 16-bit fields of the record. -/
theorem set_plane_alpha_truncated :
    ((vc4_plane_to_mb rotation_keep sample_record plain_state xrgb_fb
        plain_crtc_state).map (fun r => r.2.plane.alpha) = some 255 ∧
      plain_state.alpha = 65535) ∧
    ((vc4_plane_to_mb rotation_keep sample_record wide_state wide_fb
        plain_crtc_state).map
        (fun r => (r.2.plane.width, r.2.plane.dst_w, r.2.plane.dst_x)) =
        some (4464, 4464, -25536) ∧
      (wide_fb.width, wide_state.crtc_w, wide_state.crtc_x) = (70000, 70000, 40000)) := by
  decide

/-- C10, amended: for every enabled plane state of the C types with zero margins, a
linear modifier and a format of the table, whose framebuffer width, height and first
pitch and whose crtc_w and crtc_h are below 65536 and whose crtc_x and crtc_y are in
-32768..32767 (the values the 16-bit fields of the record hold), the record built by
vc4_plane_to_mb has width, height and pitch equal to those of the framebuffer, the
source rectangle equal to the 16.16 source rectangle of the state, dst_x, dst_y,
dst_w, dst_h equal to crtc_x, crtc_y, crtc_w, crtc_h, and alpha equal to the top eight
bits of the 16-bit alpha of the state (alpha >> 8). -/
theorem set_plane_round_trip (rot : Nat → Nat → Nat) (mb : mailbox_set_plane)
    (st : drm_plane_state) (fb : drm_framebuffer) (cs : fkms_crtc_state)
    (hfmt : fb.format ∈ plane_formats) (hst : st.typed) (hfb : fb.typed)
    (hz : (vc4_fkms_crtc_get_margins cs).left = 0 ∧ (vc4_fkms_crtc_get_margins cs).right = 0 ∧
      (vc4_fkms_crtc_get_margins cs).top = 0 ∧ (vc4_fkms_crtc_get_margins cs).bottom = 0)
    (hlin : fb.modifier = DRM_FORMAT_MOD_LINEAR)
    (hwidth : fb.width < 65536) (hheight : fb.height < 65536) (hpitch : fb.pitches0 < 65536)
    (hx : is_s16 st.crtc_x) (hy : is_s16 st.crtc_y)
    (hw : st.crtc_w < 65536) (hh : st.crtc_h < 65536) :
    ∃ r, vc4_plane_to_mb rot mb st fb cs = some (0, r) ∧
      r.plane.width = fb.width ∧ r.plane.height = fb.height ∧ r.plane.pitch = fb.pitches0 ∧
      r.plane.src_x = st.src_x ∧ r.plane.src_y = st.src_y ∧
      r.plane.src_w = st.src_w ∧ r.plane.src_h = st.src_h ∧
      r.plane.dst_x = st.crtc_x ∧ r.plane.dst_y = st.crtc_y ∧
      r.plane.dst_w = st.crtc_w ∧ r.plane.dst_h = st.crtc_h ∧
      r.plane.alpha = st.alpha / 256 := by
  obtain ⟨vc_fmt, hv⟩ := Option.isSome_iff_exists.1 (plane_formats_found fb.format hfmt)
  rw [plane_to_mb_eq rot mb st fb cs vc_fmt hv]
  refine ⟨_, rfl, ?_⟩
  have hmodif : ∀ p : set_plane, to_mb_modifier p fb = p := by
    intro p
    unfold to_mb_modifier
    rw [hlin, if_neg (by decide), if_neg (by decide)]
  obtain ⟨t, c, p1, p2, hch⟩ := to_mb_chroma_fields (to_mb_fields rot vc_fmt mb.plane st fb) st fb
  obtain ⟨ha, hb, hc, hd, _, _, _, _, he⟩ := hst
  obtain ⟨hf1, hf2, hf3⟩ := hfb
  unfold is_s32 at ha hb
  unfold is_u32 at hc hd hf1 hf2 hf3
  unfold is_u16 at he
  unfold is_s16 at hx hy
  show (to_mb_modifier _ fb).width = _ ∧ (to_mb_modifier _ fb).height = _ ∧
    (to_mb_modifier _ fb).pitch = _ ∧ (to_mb_modifier _ fb).src_x = _ ∧
    (to_mb_modifier _ fb).src_y = _ ∧ (to_mb_modifier _ fb).src_w = _ ∧
    (to_mb_modifier _ fb).src_h = _ ∧ (to_mb_modifier _ fb).dst_x = _ ∧
    (to_mb_modifier _ fb).dst_y = _ ∧ (to_mb_modifier _ fb).dst_w = _ ∧
    (to_mb_modifier _ fb).dst_h = _ ∧ (to_mb_modifier _ fb).alpha = _
  rw [hmodif, margins_adj_of_zero cs _ hz, hch]
  have e1 : u16 fb.width = fb.width := u16_id hf1.1 hwidth
  have e2 : u16 fb.height = fb.height := u16_id hf2.1 hheight
  have e3 : u16 fb.pitches0 = fb.pitches0 := u16_id hf3.1 hpitch
  have e4 : s16 st.crtc_x = st.crtc_x := s16_id hx.1 hx.2
  have e5 : s16 st.crtc_y = st.crtc_y := s16_id hy.1 hy.2
  have e6 : u16 st.crtc_w = st.crtc_w := u16_id hc.1 hw
  have e7 : u16 st.crtc_h = st.crtc_h := u16_id hd.1 hh
  have e8 : u8 (st.alpha / 256) = st.alpha / 256 := u8_id (by omega) (by omega)
  exact ⟨e1, e2, e3, rfl, rfl, rfl, rfl, e4, e5, e6, e7, e8⟩

/-- C10, witness: the record built at plain_state. -/
theorem set_plane_round_trip_witness :
    ∃ r, vc4_plane_to_mb rotation_keep sample_record plain_state xrgb_fb plain_crtc_state =
        some (0, r) ∧
      r.plane.width = xrgb_fb.width ∧ r.plane.height = xrgb_fb.height ∧
      r.plane.pitch = xrgb_fb.pitches0 ∧
      r.plane.src_x = plain_state.src_x ∧ r.plane.src_y = plain_state.src_y ∧
      r.plane.src_w = plain_state.src_w ∧ r.plane.src_h = plain_state.src_h ∧
      r.plane.dst_x = plain_state.crtc_x ∧ r.plane.dst_y = plain_state.crtc_y ∧
      r.plane.dst_w = plain_state.crtc_w ∧ r.plane.dst_h = plain_state.crtc_h ∧
      r.plane.alpha = plain_state.alpha / 256 :=
  set_plane_round_trip rotation_keep sample_record plain_state xrgb_fb plain_crtc_state
    (by decide) (by decide) (by decide) (by decide) rfl (by decide) (by decide) (by decide)
    (by decide) (by decide) (by decide) (by decide)

/-- C12: for every mode that is not doublescan, vc4_crtc_mode_valid returns
MODE_BAD_VVALUE if and only if the refresh rate of the mode is strictly above the
ceiling fkms_max_refresh_rate; the ceiling matters only through this comparison (two
ceilings that both admit the refresh rate give the same result), so a mode accepted at
one ceiling is accepted at every higher one. -/
theorem mode_valid_refresh_ceiling (drm_mode_vrefresh : drm_display_mode → Int)
    (fkms_max_refresh_rate : Int) (fkms : vc4_fkms) (display_number : Int)
    (mode : drm_display_mode) (hscan : mode.flags &&& DRM_MODE_FLAG_DBLSCAN = 0) :
    (vc4_crtc_mode_valid drm_mode_vrefresh fkms_max_refresh_rate fkms display_number mode =
        MODE_BAD_VVALUE ↔ drm_mode_vrefresh mode > fkms_max_refresh_rate) ∧
    (∀ ceiling, drm_mode_vrefresh mode ≤ fkms_max_refresh_rate →
      drm_mode_vrefresh mode ≤ ceiling →
      vc4_crtc_mode_valid drm_mode_vrefresh ceiling fkms display_number mode =
        vc4_crtc_mode_valid drm_mode_vrefresh fkms_max_refresh_rate fkms display_number
          mode) ∧
    (∀ ceiling, fkms_max_refresh_rate ≤ ceiling →
      vc4_crtc_mode_valid drm_mode_vrefresh fkms_max_refresh_rate fkms display_number mode =
        MODE_OK →
      vc4_crtc_mode_valid drm_mode_vrefresh ceiling fkms display_number mode = MODE_OK) := by
  have hs : ¬ (mode.flags &&& DRM_MODE_FLAG_DBLSCAN ≠ 0) := fun h => h hscan
  have key : ∀ c, drm_mode_vrefresh mode ≤ c →
      vc4_crtc_mode_valid drm_mode_vrefresh c fkms display_number mode =
        (if display_number = 2 ∧ fkms.cfg.max_pixel_clock0 ≠ 0 ∧
            u32 mode.clock > fkms.cfg.max_pixel_clock0 then MODE_CLOCK_HIGH
         else if display_number = 7 ∧ fkms.cfg.max_pixel_clock1 ≠ 0 ∧
            u32 mode.clock > fkms.cfg.max_pixel_clock1 then MODE_CLOCK_HIGH
         else if fkms.bcm2711 = true ∧ (display_number = 2 ∨ display_number = 7) ∧
            ¬ (mode.flags &&& DRM_MODE_FLAG_DBLCLK ≠ 0) ∧
            odd_horizontal_timing mode = true then MODE_H_ILLEGAL
         else MODE_OK) := by
    intro c hc
    unfold vc4_crtc_mode_valid
    rw [if_neg hs, if_neg (by omega)]
  refine ⟨?_, ?_, ?_⟩
  · constructor
    · intro h
      by_contra hle
      rw [key _ (by omega)] at h
      split at h
      · exact absurd h (by decide)
      · split at h
        · exact absurd h (by decide)
        · split at h <;> exact absurd h (by decide)
    · intro h
      unfold vc4_crtc_mode_valid
      rw [if_neg hs, if_pos h]
  · intro c h1 h2
    rw [key _ h1, key _ h2]
  · intro c hle hok
    have hv : drm_mode_vrefresh mode ≤ fkms_max_refresh_rate := by
      by_contra hgt
      have : vc4_crtc_mode_valid drm_mode_vrefresh fkms_max_refresh_rate fkms display_number
          mode = MODE_BAD_VVALUE := by
        unfold vc4_crtc_mode_valid
        rw [if_neg hs, if_pos (by omega)]
      rw [this] at hok
      exact absurd hok (by decide)
    rw [key _ (by omega), ← key _ hv]
    exact hok

/-- C12, witness: the 1280x720 mode at 90 Hz is rejected with MODE_BAD_VVALUE at the
default ceiling 85 and accepted at the ceiling 100. -/
theorem mode_valid_refresh_ceiling_witness :
    drm_mode_vrefresh (mode_720p 111375) = 90 ∧
    vc4_crtc_mode_valid drm_mode_vrefresh fkms_max_refresh_rate_default
      (fkms_no_ceiling false) 2 (mode_720p 111375) = MODE_BAD_VVALUE ∧
    vc4_crtc_mode_valid drm_mode_vrefresh 100 (fkms_no_ceiling false) 2
      (mode_720p 111375) = MODE_OK :=
  ⟨by decide,
    (mode_valid_refresh_ceiling drm_mode_vrefresh fkms_max_refresh_rate_default
      (fkms_no_ceiling false) 2 (mode_720p 111375) (by decide)).1.2 (by decide),
    by decide⟩

/-- C13, the claim as stated fails: the pixel clock is an int and the ceiling a u32, so
the comparison converts the clock to unsigned. A mode with clock -1 on display 2 with
the ceiling 100000 is rejected with MODE_CLOCK_HIGH, though -1 is not above 100000. -/
theorem mode_valid_clock_unsigned :
    drm_mode_vrefresh negative_clock_mode = 0 ∧
    vc4_crtc_mode_valid drm_mode_vrefresh fkms_max_refresh_rate_default
      (fkms_ceiling 100000 0 false) 2 negative_clock_mode = MODE_CLOCK_HIGH ∧
    negative_clock_mode.clock = -1 ∧ ¬ ((-1 : Int) > 100000) := by
  decide

/-- C13, amended: for every mode whose pixel clock is not negative (an int in
0..2^31-1), vc4_crtc_mode_valid returns MODE_CLOCK_HIGH if and only if the mode passes
the doublescan and refresh-rate checks and either the display number is 2, the ceiling
max_pixel_clock[0] is not zero and mode.clock is strictly greater than it, or the
display number is 7, max_pixel_clock[1] is not zero and mode.clock is strictly greater
than it; and 2 and 7 are exactly the display numbers for which vc4_get_display_type
returns DRM_MODE_ENCODER_TMDS. -/
theorem mode_valid_clock_ceiling (drm_mode_vrefresh : drm_display_mode → Int)
    (fkms_max_refresh_rate : Int) (fkms : vc4_fkms) (display_number : Int)
    (mode : drm_display_mode) (hclock : 0 ≤ mode.clock ∧ mode.clock < 2147483648) :
    (vc4_crtc_mode_valid drm_mode_vrefresh fkms_max_refresh_rate fkms display_number mode =
        MODE_CLOCK_HIGH ↔
      (mode.flags &&& DRM_MODE_FLAG_DBLSCAN = 0 ∧
        drm_mode_vrefresh mode ≤ fkms_max_refresh_rate ∧
        ((display_number = 2 ∧ fkms.cfg.max_pixel_clock0 ≠ 0 ∧
            mode.clock > fkms.cfg.max_pixel_clock0) ∨
          (display_number = 7 ∧ fkms.cfg.max_pixel_clock1 ≠ 0 ∧
            mode.clock > fkms.cfg.max_pixel_clock1)))) ∧
    (vc4_get_display_type display_number = DRM_MODE_ENCODER_TMDS ↔
      (display_number = 2 ∨ display_number = 7)) := by
  have hu : u32 mode.clock = mode.clock := u32_id hclock.1 (by omega)
  constructor
  · unfold vc4_crtc_mode_valid
    rw [hu]
    split
    · rename_i h
      constructor
      · intro h'
        exact absurd h' (by decide)
      · intro h'
        exact absurd h'.1 h
    · rename_i h
      have h0 : mode.flags &&& DRM_MODE_FLAG_DBLSCAN = 0 := not_not.1 h
      split
      · rename_i hv
        constructor
        · intro h'
          exact absurd h' (by decide)
        · intro h'
          omega
      · rename_i hv
        split
        · rename_i h2
          exact ⟨fun _ => ⟨h0, by omega, Or.inl h2⟩, fun _ => rfl⟩
        · rename_i h2
          split
          · rename_i h7
            exact ⟨fun _ => ⟨h0, by omega, Or.inr h7⟩, fun _ => rfl⟩
          · rename_i h7
            have hno : ¬ ((display_number = 2 ∧ fkms.cfg.max_pixel_clock0 ≠ 0 ∧
                  mode.clock > fkms.cfg.max_pixel_clock0) ∨
                (display_number = 7 ∧ fkms.cfg.max_pixel_clock1 ≠ 0 ∧
                  mode.clock > fkms.cfg.max_pixel_clock1)) := by
              intro hc
              rcases hc with hc | hc
              · exact h2 hc
              · exact h7 hc
            split
            · exact ⟨fun h' => absurd h' (by decide), fun h' => absurd h'.2.2 hno⟩
            · exact ⟨fun h' => absurd h' (by decide), fun h' => absurd h'.2.2 hno⟩
  · unfold vc4_get_display_type
    by_cases hhi : display_number > 8
    · rw [if_pos (by simpa [display_types] using hhi)]
      constructor
      · intro h
        exact absurd h (by decide)
      · intro h
        omega
    · rw [if_neg (by simpa [display_types] using hhi)]
      by_cases hlo : display_number < 0
      · have : display_number.toNat = 0 := by omega
        rw [this]
        constructor
        · intro h
          exact absurd h (by decide)
        · intro h
          omega
      · have h1 : 0 ≤ display_number := by omega
        have h2 : display_number ≤ 8 := by omega
        interval_cases display_number <;> decide

/-- C13, witness: on display 2 with the ceiling 100000 kHz the 111375 kHz mode is
rejected with MODE_CLOCK_HIGH at the refresh ceiling 100. -/
theorem mode_valid_clock_ceiling_witness :
    vc4_crtc_mode_valid drm_mode_vrefresh 100 (fkms_ceiling 100000 0 false) 2
      (mode_720p 111375) = MODE_CLOCK_HIGH :=
  (mode_valid_clock_ceiling drm_mode_vrefresh 100 (fkms_ceiling 100000 0 false) 2
    (mode_720p 111375) (by decide)).1.2 (by decide)

/-- C14: on a bcm2711 device, for display number 2 or 7 and every mode that is not
doublescan, not double-clocked and passes the refresh-rate and pixel-clock checks,
vc4_crtc_mode_valid returns MODE_H_ILLEGAL if and only if one of hdisplay, the front
porch hsync_start - hdisplay, the sync width hsync_end - hsync_start and the back porch
htotal - hsync_end is odd, and MODE_OK otherwise; the mode is accepted if and only if
hdisplay, hsync_start, hsync_end and htotal are all even. A double-clocked mode, and
any mode on a device that is not a bcm2711, is never rejected with MODE_H_ILLEGAL. -/
theorem mode_valid_odd_timing (drm_mode_vrefresh : drm_display_mode → Int)
    (fkms_max_refresh_rate : Int) (fkms : vc4_fkms) (display_number : Int)
    (mode : drm_display_mode) :
    (fkms.bcm2711 = true → (display_number = 2 ∨ display_number = 7) →
      mode.flags &&& DRM_MODE_FLAG_DBLSCAN = 0 → mode.flags &&& DRM_MODE_FLAG_DBLCLK = 0 →
      drm_mode_vrefresh mode ≤ fkms_max_refresh_rate →
      ¬ (display_number = 2 ∧ fkms.cfg.max_pixel_clock0 ≠ 0 ∧
          u32 mode.clock > fkms.cfg.max_pixel_clock0) →
      ¬ (display_number = 7 ∧ fkms.cfg.max_pixel_clock1 ≠ 0 ∧
          u32 mode.clock > fkms.cfg.max_pixel_clock1) →
      (vc4_crtc_mode_valid drm_mode_vrefresh fkms_max_refresh_rate fkms display_number mode =
          MODE_H_ILLEGAL ↔
        (mode.hdisplay % 2 = 1 ∨ (mode.hsync_start - mode.hdisplay) % 2 = 1 ∨
          (mode.hsync_end - mode.hsync_start) % 2 = 1 ∨
          (mode.htotal - mode.hsync_end) % 2 = 1)) ∧
      (vc4_crtc_mode_valid drm_mode_vrefresh fkms_max_refresh_rate fkms display_number mode =
          MODE_OK ↔
        ¬ (mode.hdisplay % 2 = 1 ∨ (mode.hsync_start - mode.hdisplay) % 2 = 1 ∨
          (mode.hsync_end - mode.hsync_start) % 2 = 1 ∨
          (mode.htotal - mode.hsync_end) % 2 = 1)) ∧
      (vc4_crtc_mode_valid drm_mode_vrefresh fkms_max_refresh_rate fkms display_number mode =
          MODE_OK ↔
        (mode.hdisplay % 2 = 0 ∧ mode.hsync_start % 2 = 0 ∧ mode.hsync_end % 2 = 0 ∧
          mode.htotal % 2 = 0))) ∧
    ((fkms.bcm2711 = false ∨ mode.flags &&& DRM_MODE_FLAG_DBLCLK ≠ 0) →
      vc4_crtc_mode_valid drm_mode_vrefresh fkms_max_refresh_rate fkms display_number mode ≠
        MODE_H_ILLEGAL) := by
  constructor
  · intro hbcm hdn hscan hclk hv h2 h7
    have hs : ¬ (mode.flags &&& DRM_MODE_FLAG_DBLSCAN ≠ 0) := fun h => h hscan
    have hc : ¬ (mode.flags &&& DRM_MODE_FLAG_DBLCLK ≠ 0) := fun h => h hclk
    have hodd := odd_horizontal_timing_iff mode
    have key : vc4_crtc_mode_valid drm_mode_vrefresh fkms_max_refresh_rate fkms
        display_number mode =
        (if odd_horizontal_timing mode = true then MODE_H_ILLEGAL else MODE_OK) := by
      unfold vc4_crtc_mode_valid
      rw [if_neg hs, if_neg (by omega), if_neg h2, if_neg h7]
      by_cases ho : odd_horizontal_timing mode = true
      · rw [if_pos ⟨hbcm, hdn, hc, ho⟩, if_pos ho]
      · rw [if_neg (fun h => ho h.2.2.2), if_neg ho]
    rw [key]
    by_cases ho : odd_horizontal_timing mode = true
    · rw [if_pos ho]
      have hodd' := hodd.1 ho
      refine ⟨⟨fun _ => hodd', fun _ => rfl⟩,
        ⟨fun h => absurd h (by decide), fun h => absurd hodd' h⟩,
        ⟨fun h => absurd h (by decide), fun h => ?_⟩⟩
      omega
    · rw [if_neg ho]
      have hodd' : ¬ (mode.hdisplay % 2 = 1 ∨ (mode.hsync_start - mode.hdisplay) % 2 = 1 ∨
          (mode.hsync_end - mode.hsync_start) % 2 = 1 ∨
          (mode.htotal - mode.hsync_end) % 2 = 1) := fun h => ho (hodd.2 h)
      refine ⟨⟨fun h => absurd h (by decide), fun h => absurd h hodd'⟩,
        ⟨fun _ => hodd', fun _ => rfl⟩, ⟨fun _ => ?_, fun _ => rfl⟩⟩
      omega
  · intro h
    unfold vc4_crtc_mode_valid
    split
    · decide
    · split
      · decide
      · split
        · decide
        · split
          · decide
          · split
            · rename_i hh
              rcases h with h | h
              · rw [h] at hh
                exact absurd hh.1 (by decide)
              · exact absurd h hh.2.2.1
            · decide

/-- C14, witness: on a bcm2711 device and display 7 the 720p mode with hsync_start moved
to the odd value 1391 is rejected with MODE_H_ILLEGAL. -/
theorem mode_valid_odd_timing_witness :
    vc4_crtc_mode_valid drm_mode_vrefresh fkms_max_refresh_rate_default
      (fkms_no_ceiling true) 7 { mode_720p 74250 with hsync_start := 1391 } =
      MODE_H_ILLEGAL :=
  ((mode_valid_odd_timing drm_mode_vrefresh fkms_max_refresh_rate_default
    (fkms_no_ceiling true) 7 { mode_720p 74250 with hsync_start := 1391 }).1
    rfl (Or.inr rfl) (by decide) (by decide) (by decide) (by decide) (by decide)).1.2
    (by decide)

/-- C15: whenever the AVI infoframe can be filled, vc4_crtc_mode_set_nofb sends a timing
record. For an HDMI monitor RGB_LIMITED is set exactly when the effective range is
limited (override auto: the default quantization range of the mode is limited;
explicit override: the override is limited), the DVI flag is clear, and video_id_code
is 0 when an explicit override disagrees with the default range of the mode and the
video code of the infoframe otherwise; so a non-zero video_id_code never goes with an
RGB range opposite to the default. For a monitor that does not declare HDMI support
the DVI flag is set, RGB_LIMITED is not, and the video code is that of the
infoframe. -/
theorem mode_set_rgb_range
    (drm_hdmi_avi_infoframe_from_display_mode : drm_display_mode → Int × hdmi_avi_infoframe)
    (drm_default_rgb_quant_range : drm_display_mode → hdmi_quantization_range)
    (drm_mode_vrefresh : drm_display_mode → Int)
    (display_number : Int) (mode : drm_display_mode) (hdmi_monitor : Bool)
    (broadcast_rgb : Int)
    (havi : 0 ≤ (drm_hdmi_avi_infoframe_from_display_mode mode).1) :
    ∃ t, vc4_crtc_mode_set_nofb drm_hdmi_avi_infoframe_from_display_mode
        drm_default_rgb_quant_range drm_mode_vrefresh display_number mode hdmi_monitor
        broadcast_rgb = some t ∧
      (hdmi_monitor = true →
        (t.flags &&& TIMINGS_FLAGS_RGB_LIMITED ≠ 0 ↔
          (if broadcast_rgb = VC4_BROADCAST_RGB_AUTO then
            drm_default_rgb_quant_range mode = HDMI_QUANTIZATION_RANGE_LIMITED
           else broadcast_rgb = VC4_BROADCAST_RGB_LIMITED)) ∧
        t.flags &&& TIMINGS_FLAGS_DVI = 0 ∧
        t.video_id_code =
          (if broadcast_rgb ≠ VC4_BROADCAST_RGB_AUTO ∧
              ¬ (broadcast_rgb = VC4_BROADCAST_RGB_LIMITED ↔
                drm_default_rgb_quant_range mode = HDMI_QUANTIZATION_RANGE_LIMITED)
           then 0
           else u16 (drm_hdmi_avi_infoframe_from_display_mode mode).2.video_code) ∧
        (t.video_id_code ≠ 0 →
          (t.flags &&& TIMINGS_FLAGS_RGB_LIMITED ≠ 0 ↔
            drm_default_rgb_quant_range mode = HDMI_QUANTIZATION_RANGE_LIMITED))) ∧
      (hdmi_monitor = false →
        t.flags &&& TIMINGS_FLAGS_DVI ≠ 0 ∧ t.flags &&& TIMINGS_FLAGS_RGB_LIMITED = 0 ∧
        t.video_id_code =
          u16 (drm_hdmi_avi_infoframe_from_display_mode mode).2.video_code) := by
  obtain ⟨c1, c2⟩ := timing_mode_flags_clear mode
    (drm_hdmi_avi_infoframe_from_display_mode mode).2.picture_aspect
  obtain ⟨b1, b2, b3, b4⟩ := flag_bits_after_set _ c1 c2
  unfold vc4_crtc_mode_set_nofb
  simp only []
  rw [if_neg (by omega)]
  refine ⟨_, rfl, ?_, ?_⟩
  · intro hm
    subst hm
    simp only [Bool.true_eq_false, if_false, true_and]
    by_cases hauto : broadcast_rgb = VC4_BROADCAST_RGB_AUTO
    · simp only [hauto, if_true, ne_eq, not_true_eq_false, false_and, if_false]
      by_cases hdef : drm_default_rgb_quant_range mode = HDMI_QUANTIZATION_RANGE_LIMITED
      · simp only [hdef, decide_True, if_true]
        exact ⟨⟨fun _ => trivial, fun _ => b1⟩, b2, trivial, fun _ => ⟨fun _ => trivial, fun _ => b1⟩⟩
      · simp only [hdef, decide_False, Bool.false_eq_true, if_false]
        exact ⟨⟨fun h => absurd c1 h, fun h => absurd h (by simp)⟩, c2, trivial,
          fun _ => ⟨fun h => absurd c1 h, fun h => absurd h (by simp)⟩⟩
    · simp only [hauto, if_false, ne_eq, not_false_eq_true, true_and]
      by_cases hlim : broadcast_rgb = VC4_BROADCAST_RGB_LIMITED
      · simp only [hlim, if_true, true_iff]
        by_cases hdef : drm_default_rgb_quant_range mode = HDMI_QUANTIZATION_RANGE_LIMITED
        · simp only [hdef, decide_True, b1, not_false_eq_true, bne_self_eq_false,
            Bool.false_eq_true, if_false, not_true_eq_false, true_and, ne_eq, implies_true,
            and_true]
          exact b2
        · simp only [hdef, decide_False, b1, not_false_eq_true, decide_True,
            Bool.bne_false, if_true, true_and, ne_eq, not_true_eq_false, false_implies,
            and_true]
          exact b2
      · simp only [hlim, if_false, false_iff]
        by_cases hdef : drm_default_rgb_quant_range mode = HDMI_QUANTIZATION_RANGE_LIMITED
        · simp only [hdef, decide_True, c1, ne_eq, not_true_eq_false, decide_False,
            Bool.bne_true, Bool.not_false, if_true, not_false_eq_true, true_and,
            false_implies, and_true]
          exact c2
        · simp only [hdef, decide_False, c1, ne_eq, not_true_eq_false, bne_self_eq_false,
            Bool.false_eq_true, if_false, not_false_eq_true, true_and, implies_true,
            and_true, iff_self]
          exact c2
  · intro hm
    subst hm
    simp only [if_true, Bool.false_eq_true, false_and, if_false]
    exact ⟨b3, b4, trivial⟩

/-- C15, witness: a 720p mode whose default range is limited, sent to an HDMI monitor
with the override set to full, carries video_id_code 0 and no RGB_LIMITED flag. -/
theorem mode_set_rgb_range_witness :
    ∃ t, vc4_crtc_mode_set_nofb avi_720p default_range_limited drm_mode_vrefresh 2
        (mode_720p 74250) true VC4_BROADCAST_RGB_FULL = some t ∧
      t.video_id_code = 0 ∧ t.flags &&& TIMINGS_FLAGS_RGB_LIMITED = 0 :=
  match mode_set_rgb_range avi_720p default_range_limited drm_mode_vrefresh 2
      (mode_720p 74250) true VC4_BROADCAST_RGB_FULL (by decide) with
  | ⟨t, ht, h1, _⟩ =>
    ⟨t, ht,
      by
        have h := (h1 rfl).2.2.1
        rw [if_pos (by decide)] at h
        exact h,
      by
        have h := (h1 rfl).1
        rw [if_neg (by decide)] at h
        by_contra hc
        exact absurd (h.1 hc) (by decide)⟩

/-- C16: vc4_crtc_atomic_check, called for a CRTC with the new state of that CRTC,
always returns 0 and changes nothing but the margins. When the commit has a new
connector state bound to the CRTC, the margins become the TV margins of the first such
connector state; when it has none, the margins are left as they were. In both cases
the margins stored afterwards are the margins vc4_fkms_crtc_get_margins reports. -/
theorem crtc_atomic_check_margins (state : fkms_crtc_state) :
    (vc4_crtc_atomic_check state.crtc state).1 = 0 ∧
    (vc4_crtc_atomic_check state.crtc state).2.crtc = state.crtc ∧
    (vc4_crtc_atomic_check state.crtc state).2.mode = state.mode ∧
    (vc4_crtc_atomic_check state.crtc state).2.connectors = state.connectors ∧
    (match state.connectors.find? (fun c => c.crtc == some state.crtc) with
      | some conn_state =>
        (vc4_crtc_atomic_check state.crtc state).2.margins = conn_state.tv_margins
      | none => (vc4_crtc_atomic_check state.crtc state).2.margins = state.margins) ∧
    (vc4_crtc_atomic_check state.crtc state).2.margins =
      vc4_fkms_crtc_get_margins state ∧
    vc4_fkms_crtc_get_margins (vc4_crtc_atomic_check state.crtc state).2 =
      (vc4_crtc_atomic_check state.crtc state).2.margins := by
  cases hfind : state.connectors.find? (fun c => c.crtc == some state.crtc) with
  | some conn_state =>
    have hr : vc4_crtc_atomic_check state.crtc state =
        (0, { state with margins := conn_state.tv_margins }) := by
      unfold vc4_crtc_atomic_check
      rw [hfind]
    have hg : vc4_fkms_crtc_get_margins state = conn_state.tv_margins := by
      unfold vc4_fkms_crtc_get_margins
      rw [hfind]
    have hg2 : vc4_fkms_crtc_get_margins { state with margins := conn_state.tv_margins } =
        conn_state.tv_margins := by
      unfold vc4_fkms_crtc_get_margins
      show (match state.connectors.find? (fun c => c.crtc == some state.crtc) with
        | some c => c.tv_margins
        | none => conn_state.tv_margins) = _
      rw [hfind]
    rw [hr, hg]
    exact ⟨rfl, rfl, rfl, rfl, rfl, rfl, hg2⟩
  | none =>
    have hr : vc4_crtc_atomic_check state.crtc state = (0, state) := by
      unfold vc4_crtc_atomic_check
      rw [hfind]
    have hg : vc4_fkms_crtc_get_margins state = state.margins := by
      unfold vc4_fkms_crtc_get_margins
      rw [hfind]
    rw [hr, hg]
    exact ⟨rfl, rfl, rfl, rfl, rfl, rfl, rfl⟩

/-- C16, an instance: in a commit with a connector state bound to CRTC 1 and one bound
to CRTC 0, the check of CRTC 0 stores the margins of the latter. -/
theorem crtc_atomic_check_margins_instance :
    ((vc4_crtc_atomic_check 0 two_connector_state).2.margins.left,
      (vc4_crtc_atomic_check 0 two_connector_state).2.margins.right,
      (vc4_crtc_atomic_check 0 two_connector_state).2.margins.top,
      (vc4_crtc_atomic_check 0 two_connector_state).2.margins.bottom) = (10, 20, 30, 40) := by
  decide

/-- C17, as first stated, fails: with a completion event pending in the commit state of
a CRTC that has no planes, vc4_crtc_enable sends nothing; when it returns the event is
held in the awaiting-flip slot of the CRTC. -/
theorem crtc_enable_event_not_sent :
    sent_events (vc4_crtc_enable (sample_crtc (some ⟨1, 7⟩) none [])).2 = [] ∧
    effect_kinds (vc4_crtc_enable (sample_crtc (some ⟨1, 7⟩) none [])).2 = [0, 2] ∧
    (vc4_crtc_enable (sample_crtc (some ⟨1, 7⟩) none [])).1.event = some ⟨1, 0⟩ := by
  decide

/-- C17, amended: for every CRTC whose commit state carries a pending completion event,
vc4_crtc_enable sends no event. It turns vblank signaling on, then takes one vblank
reservation, and when it returns the event, with its pipe set to the index of the
CRTC, is in the awaiting-flip slot and the commit state holds no event. The next
vc4_crtc_handle_page_flip sends that event exactly once and empties the slot. -/
theorem crtc_enable_arms_event (crtc : vc4_crtc) (e : drm_pending_vblank_event)
    (h : crtc.state_event = some e) :
    sent_events (vc4_crtc_enable crtc).2 = [] ∧
    (vc4_crtc_enable crtc).2.take 2 = [fkms_effect.vblank_on, fkms_effect.vblank_get] ∧
    (vc4_crtc_enable crtc).1.state_event = none ∧
    (vc4_crtc_enable crtc).1.event = some { e with pipe := crtc.index } ∧
    sent_events (vc4_crtc_handle_page_flip (vc4_crtc_enable crtc).1).2 =
      [{ e with pipe := crtc.index }] ∧
    (vc4_crtc_handle_page_flip (vc4_crtc_enable crtc).1).1.event = none ∧
    (vc4_crtc_handle_page_flip (vc4_crtc_enable crtc).1).1.state_event = none := by
  have hc := consume_event_some crtc e h
  have hlog := crtc_enable_log crtc
  have h1 : (vc4_crtc_enable crtc).1 =
      { crtc with event := some { e with pipe := crtc.index }, state_event := none } := by
    show (vc4_crtc_consume_event crtc).1 = _
    rw [hc]
  rw [hc] at hlog
  refine ⟨?_, ?_, ?_, ?_, ?_, ?_, ?_⟩
  · rw [hlog, sent_events_append, sent_events_map]
    rfl
  · rw [hlog]
    rfl
  · rw [h1]
  · rw [h1]
  · rw [h1]
    rfl
  · rw [h1]
    rfl
  · rw [h1]
    rfl

theorem crtc_enable_arms_event_witness :
    (sample_crtc (some ⟨1, 7⟩) none [sample_plane 0 true]).state_event = some ⟨1, 7⟩ ∧
    sent_events (vc4_crtc_enable (sample_crtc (some ⟨1, 7⟩) none [sample_plane 0 true])).2
      = [] ∧
    (vc4_crtc_enable (sample_crtc (some ⟨1, 7⟩) none [sample_plane 0 true])).1.event
      = some ⟨1, 0⟩ ∧
    sent_events (vc4_crtc_handle_page_flip
      (vc4_crtc_enable (sample_crtc (some ⟨1, 7⟩) none [sample_plane 0 true])).1).2
      = [⟨1, 0⟩] :=
  ⟨rfl,
   (crtc_enable_arms_event (sample_crtc (some ⟨1, 7⟩) none [sample_plane 0 true])
      ⟨1, 7⟩ rfl).1,
   (crtc_enable_arms_event (sample_crtc (some ⟨1, 7⟩) none [sample_plane 0 true])
      ⟨1, 7⟩ rfl).2.2.2.1,
   (crtc_enable_arms_event (sample_crtc (some ⟨1, 7⟩) none [sample_plane 0 true])
      ⟨1, 7⟩ rfl).2.2.2.2.1⟩

/-- C18: the code diverges from the claim. On a CRTC with a visible plane 0 and a
non-visible plane 1, both with a framebuffer, and a plane 2 without one,
vc4_crtc_enable turns vblank signaling on and then issues two requests: a blank
request for the visible plane 0 and the full stored record, an unblank request, for
the non-visible plane 1. -/
theorem crtc_enable_blanks_visible_plane :
    effect_kinds (vc4_crtc_enable (sample_crtc none none
      [sample_plane 0 true, sample_plane 1 false, sample_plane_no_fb 2])).2 = [0, 6, 6] ∧
    (set_plane_requests (vc4_crtc_enable (sample_crtc none none
      [sample_plane 0 true, sample_plane 1 false, sample_plane_no_fb 2])).2).map
      (fun mb => (mb.plane.plane_id, decide (is_blank_request mb),
        mb.plane.width, mb.plane.height, mb.plane.alpha)) =
      [(0, true, 0, 0, 0), (1, false, 100, 100, 255)] := by
  decide

/-- C18, for every CRTC: the requests of vc4_crtc_enable are, in order, one per plane
that has a framebuffer, all after vblank on; the request of a visible plane is the
blank request and the request of a plane that is not visible is its stored record. -/
theorem crtc_enable_requests (crtc : vc4_crtc) :
    (vc4_crtc_enable crtc).2.head? = some fkms_effect.vblank_on ∧
    set_plane_requests (vc4_crtc_enable crtc).2 =
      (crtc.planes.filter (fun plane => plane.state.fb.isSome)).map
        (fun plane => if plane.state.visible then vc4_plane_set_blank plane.vc4_plane true
          else plane.vc4_plane.mb) := by
  have hlog := crtc_enable_log crtc
  have hreq : set_plane_requests (vc4_crtc_consume_event crtc).2 = [] := by
    unfold vc4_crtc_consume_event
    split <;> rfl
  constructor
  · rw [hlog]
    rfl
  · rw [hlog, set_plane_requests_append, set_plane_requests_append, hreq,
      set_plane_requests_map]
    show List.map _ _ = _
    apply List.map_congr_left
    intro p _
    cases hv : p.state.visible
    · simp [set_blank_false_stored]
    · simp

/-- C19: for every CRTC, vc4_crtc_disable turns vblank signaling off first, then issues
exactly one request per plane attached to the CRTC, in order, each with the
SET_PLANE tag and a payload that is zero except for the display and plane_id of the
stored record of the plane, whatever the state of the plane; then, if the commit
state holds an event, that event is sent once, after the plane requests. When it
returns the commit state holds no event and the awaiting-flip slot is as it was. -/
theorem crtc_disable_contract (crtc : vc4_crtc) :
    (vc4_crtc_disable crtc).2 =
      [fkms_effect.vblank_off] ++
        (set_plane_requests (vc4_crtc_disable crtc).2).map fkms_effect.firmware_set_plane ++
        (sent_events (vc4_crtc_disable crtc).2).map fkms_effect.send_vblank_event ∧
    (set_plane_requests (vc4_crtc_disable crtc).2).length = crtc.planes.length ∧
    (set_plane_requests (vc4_crtc_disable crtc).2).map
        (fun mb => (mb.plane.display, mb.plane.plane_id)) =
      crtc.planes.map
        (fun p => (p.vc4_plane.mb.plane.display, p.vc4_plane.mb.plane.plane_id)) ∧
    (set_plane_requests (vc4_crtc_disable crtc).2).all
        (fun mb => decide (is_blank_request mb ∧ mb.tag.tag = RPI_FIRMWARE_SET_PLANE ∧
          mb.tag.buf_size = sizeof_set_plane ∧ mb.tag.req_resp_size = 0)) = true ∧
    sent_events (vc4_crtc_disable crtc).2 = crtc.state_event.toList ∧
    (vc4_crtc_disable crtc).1.state_event = none ∧
    (vc4_crtc_disable crtc).1.event = crtc.event ∧
    (vc4_crtc_disable crtc).1.planes = crtc.planes := by
  have hreq : ∀ l : List fkms_effect,
      set_plane_requests ([fkms_effect.vblank_off] ++
        crtc.planes.map (fun p => fkms_effect.firmware_set_plane
          (vc4_plane_set_blank p.vc4_plane true)) ++ l) =
      crtc.planes.map (fun p => vc4_plane_set_blank p.vc4_plane true) ++
        set_plane_requests l := by
    intro l
    rw [set_plane_requests_append, set_plane_requests_append, set_plane_requests_map]
    rfl
  have hev : ∀ l : List fkms_effect,
      sent_events ([fkms_effect.vblank_off] ++
        crtc.planes.map (fun p => fkms_effect.firmware_set_plane
          (vc4_plane_set_blank p.vc4_plane true)) ++ l) = sent_events l := by
    intro l
    rw [sent_events_append, sent_events_append, sent_events_map]
    rfl
  have hall : (crtc.planes.map (fun p => vc4_plane_set_blank p.vc4_plane true)).all
      (fun mb => decide (is_blank_request mb ∧ mb.tag.tag = RPI_FIRMWARE_SET_PLANE ∧
        mb.tag.buf_size = sizeof_set_plane ∧ mb.tag.req_resp_size = 0)) = true := by
    rw [List.all_eq_true]
    intro mb hmb
    rw [List.mem_map] at hmb
    obtain ⟨p, _, rfl⟩ := hmb
    have hid := set_blank_true_ids p.vc4_plane
    exact decide_eq_true ⟨set_blank_true_is_blank p.vc4_plane, hid.2.2.1, hid.2.2.2.1,
      hid.2.2.2.2⟩
  have hids : (crtc.planes.map (fun p => vc4_plane_set_blank p.vc4_plane true)).map
        (fun mb => (mb.plane.display, mb.plane.plane_id)) =
      crtc.planes.map
        (fun p => (p.vc4_plane.mb.plane.display, p.vc4_plane.mb.plane.plane_id)) := by
    rw [List.map_map]
    apply List.map_congr_left
    intro p _
    have hid := set_blank_true_ids p.vc4_plane
    show ((vc4_plane_set_blank p.vc4_plane true).plane.display,
      (vc4_plane_set_blank p.vc4_plane true).plane.plane_id) = _
    rw [hid.1, hid.2.1]
  cases hse : crtc.state_event with
  | none =>
    have hr : vc4_crtc_disable crtc =
        (crtc, [fkms_effect.vblank_off] ++
          crtc.planes.map (fun p => fkms_effect.firmware_set_plane
            (vc4_plane_set_blank p.vc4_plane true)) ++ []) := by
      simp only [vc4_crtc_disable, hse, planes_off_eq, List.append_nil]
    rw [hr]
    simp only [hreq, hev]
    refine ⟨?_, ?_, ?_, ?_, ?_, ?_, ?_, ?_⟩
    · simp [set_plane_requests, sent_events]
    · simp [set_plane_requests]
    · simpa [set_plane_requests] using hids
    · simpa [set_plane_requests] using hall
    · rfl
    all_goals trivial
  | some e =>
    have hr : vc4_crtc_disable crtc =
        ({ crtc with state_event := none }, [fkms_effect.vblank_off] ++
          crtc.planes.map (fun p => fkms_effect.firmware_set_plane
            (vc4_plane_set_blank p.vc4_plane true)) ++
          [fkms_effect.send_vblank_event e]) := by
      simp only [vc4_crtc_disable, hse, planes_off_eq]
    rw [hr]
    simp only [hreq, hev]
    refine ⟨?_, ?_, ?_, ?_, ?_, ?_, ?_, ?_⟩
    · simp [set_plane_requests, sent_events]
    · simp [set_plane_requests]
    · simpa [set_plane_requests] using hids
    · simpa [set_plane_requests] using hall
    · rfl
    all_goals trivial

/-- C19, an instance: disabling a CRTC with a pending commit event and three planes, one
visible, one not visible and one without a framebuffer, gives vblank off, three
blank requests for planes 0, 1 and 2 of display 2, then the event. -/
theorem crtc_disable_instance :
    effect_kinds (vc4_crtc_disable (sample_crtc (some ⟨1, 7⟩) none
      [sample_plane 0 true, sample_plane 1 false, sample_plane_no_fb 2])).2
      = [1, 6, 6, 6, 5] ∧
    (set_plane_requests (vc4_crtc_disable (sample_crtc (some ⟨1, 7⟩) none
      [sample_plane 0 true, sample_plane 1 false, sample_plane_no_fb 2])).2).map
      (fun mb => (mb.plane.display, mb.plane.plane_id, decide (is_blank_request mb))) =
      [(2, 0, true), (2, 1, true), (2, 2, true)] ∧
    sent_events (vc4_crtc_disable (sample_crtc (some ⟨1, 7⟩) none
      [sample_plane 0 true, sample_plane 1 false, sample_plane_no_fb 2])).2
      = [⟨1, 7⟩] := by
  decide

/-- C20: for every CRTC, vc4_crtc_handle_page_flip with an event in the awaiting-flip
slot sends that event once, then releases one vblank reservation, and empties the
slot; with an empty slot it returns the CRTC unchanged and does nothing. In both
cases a second call right after the first does nothing, so the two calls together
send at most one event. -/
theorem page_flip_contract (crtc : vc4_crtc) :
    (match crtc.event with
      | some e =>
        (vc4_crtc_handle_page_flip crtc).2 =
          [fkms_effect.send_vblank_event e, fkms_effect.vblank_put] ∧
        sent_events (vc4_crtc_handle_page_flip crtc).2 = [e] ∧
        vblank_puts (vc4_crtc_handle_page_flip crtc).2 = 1
      | none => vc4_crtc_handle_page_flip crtc = (crtc, [])) ∧
    (vc4_crtc_handle_page_flip crtc).1.event = none ∧
    (vc4_crtc_handle_page_flip crtc).1.state_event = crtc.state_event ∧
    (vc4_crtc_handle_page_flip crtc).1.planes = crtc.planes ∧
    vc4_crtc_handle_page_flip (vc4_crtc_handle_page_flip crtc).1 =
      ((vc4_crtc_handle_page_flip crtc).1, []) ∧
    (sent_events ((vc4_crtc_handle_page_flip crtc).2 ++
      (vc4_crtc_handle_page_flip (vc4_crtc_handle_page_flip crtc).1).2)).length ≤ 1 := by
  cases he : crtc.event with
  | none =>
    have hr : vc4_crtc_handle_page_flip crtc = (crtc, []) := by
      simp only [vc4_crtc_handle_page_flip, he]
    refine ⟨hr, ?_, ?_, ?_, ?_, ?_⟩
    · rw [hr]; exact he
    · rw [hr]
    · rw [hr]
    · rw [hr]; exact hr
    · rw [hr]
      show (sent_events ([] ++ (vc4_crtc_handle_page_flip crtc).2)).length ≤ 1
      rw [hr]
      exact Nat.zero_le 1
  | some e =>
    have hr : vc4_crtc_handle_page_flip crtc =
        ({ crtc with event := none },
          [fkms_effect.send_vblank_event e, fkms_effect.vblank_put]) := by
      simp only [vc4_crtc_handle_page_flip, he]
    have hr2 : vc4_crtc_handle_page_flip { crtc with event := none } =
        ({ crtc with event := none }, []) := by
      simp only [vc4_crtc_handle_page_flip]
    refine ⟨?_, ?_, ?_, ?_, ?_, ?_⟩
    · rw [hr]
      exact ⟨rfl, rfl, rfl⟩
    · rw [hr]
    · rw [hr]
    · rw [hr]
    · rw [hr]; exact hr2
    · rw [hr]
      show (sent_events ([fkms_effect.send_vblank_event e, fkms_effect.vblank_put] ++
        (vc4_crtc_handle_page_flip { crtc with event := none }).2)).length ≤ 1
      rw [hr2]
      exact Nat.le_refl 1

/-- C20, an instance: two calls in a row on a CRTC awaiting the flip of one event send
that event once and release one reservation. -/
theorem page_flip_instance :
    sent_events ((vc4_crtc_handle_page_flip (sample_crtc none (some ⟨1, 0⟩) [])).2 ++
      (vc4_crtc_handle_page_flip
        (vc4_crtc_handle_page_flip (sample_crtc none (some ⟨1, 0⟩) [])).1).2) = [⟨1, 0⟩] ∧
    effect_kinds ((vc4_crtc_handle_page_flip (sample_crtc none (some ⟨1, 0⟩) [])).2 ++
      (vc4_crtc_handle_page_flip
        (vc4_crtc_handle_page_flip (sample_crtc none (some ⟨1, 0⟩) [])).1).2) = [5, 3] ∧
    effect_kinds (vc4_crtc_handle_page_flip (sample_crtc none none [])).2 = [] := by
  decide

/-- C21, an instance: the deliveries of the paced sequence, in order. -/
theorem event_ownership_instance :
    delivered_ids (crtc_run (sample_crtc none none []) paced_flips).2 = [1, 2, 3] ∧
    held_ids (crtc_run (sample_crtc none none []) paced_flips).1 = [] := by
  decide

/-- C22: on a status word with an interrupt bit set and a first doorbell whose upper 16
bits are not the sentinel, vc4_crtc_irq_handler returns IRQ_HANDLED, its only register
write is that of 0 to the status register, and it signals vblank once, in list order,
to each display whose vblank signaling is enabled and to no other. -/
theorem irq_legacy_broadcast (crtc0 : vc4_crtc) (rest : List vc4_crtc) (stat chan0 chan1 : Nat)
    (hstat : stat &&& SMICS_INTERRUPTS ≠ 0) (hchan : chan0 &&& 0xFFFF0000 ≠ SMI_NEW) :
    ∃ crtc_list log,
      vc4_crtc_irq_handler (crtc0 :: rest) stat chan0 chan1 =
        some (irqreturn_t.IRQ_HANDLED, crtc_list, log) ∧
      register_writes log = [(0, SMICS)] ∧
      vblank_signals log = vblank_enabled_from 0 (crtc0 :: rest) ∧
      crtc_list.length = (crtc0 :: rest).length := by
  have h := irq_serve_all_log (crtc0 :: rest) 0
  refine ⟨_, _, irq_legacy_eq crtc0 rest stat chan0 chan1 hstat hchan, ?_, ?_, h.2.2.2⟩
  · rw [register_writes_append, h.1]
    rfl
  · rw [vblank_signals_append, h.2.1]
    rfl

/-- C22, witness: status 0x200, first doorbell 0x00000001 and two displays with vblank
signaling enabled: both displays get one vblank signal. -/
theorem irq_legacy_broadcast_witness :
    ∃ crtc_list log,
      vc4_crtc_irq_handler [irq_crtc 0 true none, irq_crtc 1 true none] 0x200 0x00000001 0 =
        some (irqreturn_t.IRQ_HANDLED, crtc_list, log) ∧
      register_writes log = [(0, SMICS)] ∧
      vblank_signals log = [0, 1] ∧
      crtc_list.length = 2 :=
  irq_legacy_broadcast (irq_crtc 0 true none) [irq_crtc 1 true none] 0x200 0x00000001 0
    (by decide) (by decide)

/-- C23, the claim as stated fails: on the older-firmware path a display with vblank
signaling disabled and an event in its awaiting-flip slot gets no vblank signal, but
its event is delivered. -/
theorem irq_legacy_flip_without_vblank :
    (vc4_crtc_irq_handler [irq_crtc 0 false (some ⟨4, 0⟩)] 0x200 0x00000001 0).map
      (fun r => (r.1, vblank_signals r.2.2)) = some (irqreturn_t.IRQ_HANDLED, []) ∧
    (vc4_crtc_irq_handler [irq_crtc 0 false (some ⟨4, 0⟩)] 0x200 0x00000001 0).map
      (fun r => flip_deliveries r.2.2) = some [(0, ⟨4, 0⟩)] ∧
    (vc4_crtc_irq_handler [irq_crtc 0 false (some ⟨4, 0⟩)] 0x200 0x00000001 0).map
      (fun r => r.2.1.map (fun crtc => crtc.event)) = some [none] := by
  decide

/-- C23, amended: on the older-firmware path the vblank signal is made only for the
displays whose vblank signaling is enabled, while the awaiting page-flip event of
every display of the list is delivered, whatever its vblank_enabled flag. -/
theorem irq_legacy_flips (crtc0 : vc4_crtc) (rest : List vc4_crtc) (stat chan0 chan1 : Nat)
    (hstat : stat &&& SMICS_INTERRUPTS ≠ 0) (hchan : chan0 &&& 0xFFFF0000 ≠ SMI_NEW) :
    ∃ crtc_list log,
      vc4_crtc_irq_handler (crtc0 :: rest) stat chan0 chan1 =
        some (irqreturn_t.IRQ_HANDLED, crtc_list, log) ∧
      vblank_signals log = vblank_enabled_from 0 (crtc0 :: rest) ∧
      flip_deliveries log = awaiting_from 0 (crtc0 :: rest) := by
  have h := irq_serve_all_log (crtc0 :: rest) 0
  refine ⟨_, _, irq_legacy_eq crtc0 rest stat chan0 chan1 hstat hchan, ?_, ?_⟩
  · rw [vblank_signals_append, h.2.1]
    rfl
  · rw [flip_deliveries_append, h.2.2.1]
    rfl

/-- C23, witness: of two displays with awaiting events, the first with vblank signaling
disabled, only the second gets a vblank signal and both events are delivered. -/
theorem irq_legacy_flips_witness :
    ∃ crtc_list log,
      vc4_crtc_irq_handler [irq_crtc 0 false (some ⟨4, 0⟩), irq_crtc 1 true (some ⟨5, 1⟩)]
        0x200 0x00000001 0 = some (irqreturn_t.IRQ_HANDLED, crtc_list, log) ∧
      vblank_signals log = [1] ∧
      flip_deliveries log = [(0, ⟨4, 0⟩), (1, ⟨5, 1⟩)] :=
  irq_legacy_flips (irq_crtc 0 false (some ⟨4, 0⟩)) [irq_crtc 1 true (some ⟨5, 1⟩)]
    0x200 0x00000001 0 (by decide) (by decide)

/-- C24: on a status word with an interrupt bit set and a first doorbell whose upper 16
bits are the sentinel, vc4_crtc_irq_handler returns IRQ_HANDLED and clears the status
register. The first doorbell is written, with the sentinel, exactly when its low bit
is 1, and exactly then display 0 is served: a vblank signal if its vblank signaling
is enabled, and the delivery of its awaiting event. With a second display in the
list the same holds for the second doorbell and display 1. Nothing else is written
and no other display is served. -/
theorem irq_new_protocol (crtc0 : vc4_crtc) (rest : List vc4_crtc) (stat chan0 chan1 : Nat)
    (hstat : stat &&& SMICS_INTERRUPTS ≠ 0) (hchan : chan0 &&& 0xFFFF0000 = SMI_NEW) :
    ∃ crtc_list log,
      vc4_crtc_irq_handler (crtc0 :: rest) stat chan0 chan1 =
        some (irqreturn_t.IRQ_HANDLED, crtc_list, log) ∧
      register_writes log =
        [(0, SMICS)] ++ (if chan0 &&& 1 ≠ 0 then [(SMI_NEW, SMIDSW0)] else []) ++
          (if chan1 &&& 1 ≠ 0 then (rest.take 1).map (fun _ => (SMI_NEW, SMIDSW1)) else []) ∧
      vblank_signals log =
        (if chan0 &&& 1 ≠ 0 then vblank_enabled_from 0 [crtc0] else []) ++
          (if chan1 &&& 1 ≠ 0 then vblank_enabled_from 1 (rest.take 1) else []) ∧
      flip_deliveries log =
        (if chan0 &&& 1 ≠ 0 then awaiting_from 0 [crtc0] else []) ++
          (if chan1 &&& 1 ≠ 0 then awaiting_from 1 (rest.take 1) else []) ∧
      crtc_list.drop 2 = rest.drop 1 := by
  have h0 := irq_serve_log 0 crtc0
  refine ⟨_, _, irq_new_eq crtc0 rest stat chan0 chan1 hstat hchan, ?_, ?_, ?_, ?_⟩
  · cases rest with
    | nil =>
      by_cases hb0 : chan0 &&& 1 ≠ 0 <;> by_cases hb1 : chan1 &&& 1 ≠ 0 <;>
        simp only [hb0, hb1, ne_eq, not_false_eq_true, not_true_eq_false, if_true, if_false,
          register_writes_append, h0.1] <;> rfl
    | cons crtc1 others =>
      have h1 := irq_serve_log 1 crtc1
      by_cases hb0 : chan0 &&& 1 ≠ 0 <;> by_cases hb1 : chan1 &&& 1 ≠ 0 <;>
        simp only [hb0, hb1, ne_eq, not_false_eq_true, not_true_eq_false, if_true, if_false,
          register_writes_append, h0.1, h1.1] <;> rfl
  · cases rest with
    | nil =>
      by_cases hb0 : chan0 &&& 1 ≠ 0 <;> by_cases hb1 : chan1 &&& 1 ≠ 0 <;>
        simp only [hb0, hb1, ne_eq, not_false_eq_true, not_true_eq_false, if_true, if_false,
          vblank_signals_append, h0.2.1] <;> rfl
    | cons crtc1 others =>
      have h1 := irq_serve_log 1 crtc1
      by_cases hb0 : chan0 &&& 1 ≠ 0 <;> by_cases hb1 : chan1 &&& 1 ≠ 0 <;>
        simp only [hb0, hb1, ne_eq, not_false_eq_true, not_true_eq_false, if_true, if_false,
          vblank_signals_append, h0.2.1, h1.2.1] <;> rfl
  · cases rest with
    | nil =>
      by_cases hb0 : chan0 &&& 1 ≠ 0 <;> by_cases hb1 : chan1 &&& 1 ≠ 0 <;>
        simp only [hb0, hb1, ne_eq, not_false_eq_true, not_true_eq_false, if_true, if_false,
          flip_deliveries_append, h0.2.2.1] <;> rfl
    | cons crtc1 others =>
      have h1 := irq_serve_log 1 crtc1
      by_cases hb0 : chan0 &&& 1 ≠ 0 <;> by_cases hb1 : chan1 &&& 1 ≠ 0 <;>
        simp only [hb0, hb1, ne_eq, not_false_eq_true, not_true_eq_false, if_true, if_false,
          flip_deliveries_append, h0.2.2.1, h1.2.2.1] <;> rfl
  · cases rest <;> rfl

/-- C24, witness: with the first doorbell 0xABCD0001 and a second doorbell whose low bit
is 0, of two displays with vblank signaling enabled and an awaiting event each, only
display 0 is served and only the first doorbell is written, with 0xABCD0000. -/
theorem irq_new_protocol_witness :
    ∃ crtc_list log,
      vc4_crtc_irq_handler [irq_crtc 0 true (some ⟨4, 0⟩), irq_crtc 1 true (some ⟨5, 1⟩)]
        0x200 0xABCD0001 0xABCD0000 = some (irqreturn_t.IRQ_HANDLED, crtc_list, log) ∧
      register_writes log = [(0, 0), (0xABCD0000, 0x14)] ∧
      vblank_signals log = [0] ∧
      flip_deliveries log = [(0, ⟨4, 0⟩)] ∧
      crtc_list.drop 2 = [] :=
  irq_new_protocol (irq_crtc 0 true (some ⟨4, 0⟩)) [irq_crtc 1 true (some ⟨5, 1⟩)]
    0x200 0xABCD0001 0xABCD0000 (by decide) (by decide)

/-- C24, an instance: with the low bit of both doorbells set both displays are served
and both doorbells are written; display 1 is served on the low bit of the second
doorbell alone, whatever its upper bits. -/
theorem irq_new_protocol_instance :
    (vc4_crtc_irq_handler [irq_crtc 0 true (some ⟨4, 0⟩), irq_crtc 1 true (some ⟨5, 1⟩)]
      0x200 0xABCD0001 0x00000001).map (fun r => (register_writes r.2.2, vblank_signals r.2.2))
      = some ([(0, 0), (0xABCD0000, 0x14), (0xABCD0000, 0x1C)], [0, 1]) ∧
    (vc4_crtc_irq_handler [irq_crtc 0 true (some ⟨4, 0⟩), irq_crtc 1 true (some ⟨5, 1⟩)]
      0x200 0xABCD0000 0x00000001).map (fun r => (register_writes r.2.2, vblank_signals r.2.2))
      = some ([(0, 0), (0xABCD0000, 0x1C)], [1]) := by
  decide

set_option maxRecDepth 16384 in
/-- C25, the claim as stated fails: when the firmware reports 86 displays and every
display is constructed, the overlay plane of display index 85 (85 * 3 + 1 = 256) has
the id 0 of the primary plane of display index 0, the plane_id field being 8 bits
wide. -/
theorem plane_ids_collide :
    (vc4_fkms_bind (sample_env (0, 86) (0, (0, 0)) hdmi_display_ids)).map
      (fun r => (r.1, r.2.map (fun dev => dev.crtc_list.length))) = some (0, some 86) ∧
    (vc4_fkms_bind (sample_env (0, 86) (0, (0, 0)) hdmi_display_ids)).map
      (fun r => r.2.map (fun dev => dev.crtc_list[0]?.map (fun entry => entry.map
        (fun screen => screen.primary_plane.mb.plane.plane_id)))) =
      some (some (some (some 0))) ∧
    (vc4_fkms_bind (sample_env (0, 86) (0, (0, 0)) hdmi_display_ids)).map
      (fun r => r.2.map (fun dev => dev.crtc_list[85]?.map (fun entry => entry.map
        (fun screen => screen.overlay_plane.mb.plane.plane_id)))) =
      some (some (some (some 0))) := by
  decide

/-- C25, amended: whenever vc4_fkms_bind succeeds with at most 85 displays, the plane_id
fields of the request records of the planes of all constructed displays, three per
display, are pairwise different. -/
theorem bind_plane_ids_unique (env : bind_env) (ret : Int) (dev : fkms_device)
    (h : vc4_fkms_bind env = some (ret, some dev)) (hn : dev.num_displays ≤ 85) :
    (device_plane_ids dev.crtc_list).Nodup := by
  have hb := bind_ok_crtc_list env ret dev h
  rw [hb.2.2.1]
  have hu : 0 ≤ dev.num_displays := by
    rw [hb.2.1]
    unfold u32
    split <;> omega
  exact (bind_screens_plane_ids env dev.num_displays.toNat 0 (Int.le_refl 0)
    (by rw [Int.toNat_of_nonneg hu]; omega)).2

/-- C25, witness: with two displays the six planes have the ids 0 to 5. -/
theorem bind_plane_ids_unique_witness :
    ∃ dev, vc4_fkms_bind (sample_env (0, 2) (0, (600000000, 0)) hdmi_display_ids) =
        some (0, some dev) ∧
      dev.num_displays = 2 ∧
      device_plane_ids dev.crtc_list = [0, 1, 2, 3, 4, 5] ∧
      (device_plane_ids dev.crtc_list).Nodup :=
  ⟨_, rfl, rfl, rfl,
    bind_plane_ids_unique (sample_env (0, 2) (0, (600000000, 0)) hdmi_display_ids) 0 _ rfl
      (by decide)⟩

/-- C27, the claim as stated fails: vc4_fkms_format_mod_supported accepts XBGR8888, which
is not in the table, with the linear modifier; vc4_get_vc_image_fmt finds no entry
for it and the plane check of a state with such a framebuffer dereferences NULL. -/
theorem format_outside_table_accepted :
    vc4_fkms_format_mod_supported DRM_FORMAT_XBGR8888 DRM_FORMAT_MOD_LINEAR = true ∧
    DRM_FORMAT_XBGR8888 ∉ plane_formats ∧
    (vc4_get_vc_image_fmt DRM_FORMAT_XBGR8888).isNone = true ∧
    (vc4_plane_atomic_check rotation_keep ⟨sample_record⟩ xbgr_state).isNone = true := by
  decide

/-- C27, amended: every (format, modifier) pair that vc4_fkms_format_mod_supported
accepts with a modifier other than linear has a format of the table, for which
vc4_get_vc_image_fmt returns an entry. With the linear modifier every format outside
the table is accepted. The format list that vc4_fkms_plane_init hands to the DRM core
is the table, and vc4_get_vc_image_fmt returns an entry for each of its formats. -/
theorem format_mod_supported_table (format modifier : Nat)
    (h : vc4_fkms_format_mod_supported format modifier = true)
    (hmod : modifier ≠ DRM_FORMAT_MOD_LINEAR) :
    format ∈ plane_formats ∧ (vc4_get_vc_image_fmt format).isSome = true ∧
    (∀ other, other ∉ plane_formats →
      vc4_fkms_format_mod_supported other DRM_FORMAT_MOD_LINEAR = true) ∧
    plane_formats = vc_image_formats.map (fun e => e.drm) ∧
    plane_formats.all (fun f => (vc4_get_vc_image_fmt f).isSome) = true := by
  obtain ⟨t1, t2, t3, t4, t5⟩ := named_formats_in_table
  have hin : format ∈ plane_formats := by
    unfold vc4_fkms_format_mod_supported at h
    split at h
    · rename_i hf
      rcases hf with hf | hf | hf
      · rw [hf]; exact t1
      · rw [hf]; exact t2
      · rw [hf]; exact t3
    · split at h
      · rename_i hf
        rw [hf]; exact t4
      · split at h
        · rename_i hf
          rw [hf]; exact t5
        · exact absurd (of_decide_eq_true h) hmod
  refine ⟨hin, plane_formats_found format hin, ?_, rfl, by decide⟩
  intro other hother
  unfold vc4_fkms_format_mod_supported
  split
  · rename_i hf
    rcases hf with hf | hf | hf
    · rw [hf] at hother; exact absurd t1 hother
    · rw [hf] at hother; exact absurd t2 hother
    · rw [hf] at hother; exact absurd t3 hother
  · split
    · rename_i hf
      rw [hf] at hother; exact absurd t4 hother
    · split
      · rename_i hf
        rw [hf] at hother; exact absurd t5 hother
      · exact decide_eq_true rfl

/-- C27, witness: XRGB8888 with the T-tiled modifier is accepted and is in the table. -/
theorem format_mod_supported_table_witness :
    vc4_fkms_format_mod_supported DRM_FORMAT_XRGB8888 DRM_FORMAT_MOD_BROADCOM_VC4_T_TILED
      = true ∧
    DRM_FORMAT_XRGB8888 ∈ plane_formats ∧
    (vc4_get_vc_image_fmt DRM_FORMAT_XRGB8888).isSome = true :=
  ⟨by decide,
    (format_mod_supported_table DRM_FORMAT_XRGB8888 DRM_FORMAT_MOD_BROADCOM_VC4_T_TILED
      (by decide) (by decide)).1,
    (format_mod_supported_table DRM_FORMAT_XRGB8888 DRM_FORMAT_MOD_BROADCOM_VC4_T_TILED
      (by decide) (by decide)).2.1⟩

/-- C28, the claim as stated fails: the timing fields of the mode are ints and those of
struct set_timings are u16. For the mode with clock 74250, hdisplay 70000 and vscan
-3, vc4_crtc_mode_set_nofb stores hdisplay 4464 and vscan 65533 in the record, and
vc4_fkms_get_fw_mode decodes a mode with hdisplay 4464 and vscan 65533. -/
theorem timings_truncated :
    mode_beyond_u16.clock = 74250 ∧ mode_beyond_u16.hdisplay = 70000 ∧
    mode_beyond_u16.vscan = -3 ∧
    (vc4_crtc_mode_set_nofb avi_720p default_range_limited drm_mode_vrefresh 2
      mode_beyond_u16 true VC4_BROADCAST_RGB_AUTO).map
      (fun t => (t.hdisplay, t.vscan)) = some (4464, 65533) ∧
    (vc4_crtc_mode_set_nofb avi_720p default_range_limited drm_mode_vrefresh 2
      mode_beyond_u16 true VC4_BROADCAST_RGB_AUTO).map
      (fun t => (vc4_fkms_get_fw_mode 0 t).2.map (fun m => (m.hdisplay, m.vscan))) =
      some (some (4464, 65533)) := by
  decide

/-- C28, amended: for every mode with a non-zero clock whose hdisplay, hsync_start,
hsync_end, htotal, vdisplay, vsync_start, vsync_end, vtotal and vscan lie in 0..65535
and for which the AVI infoframe can be filled, vc4_crtc_mode_set_nofb builds a timing
record, and vc4_fkms_get_fw_mode, given that record by a successful query, returns 0
and fills a mode with the same clock, hdisplay, hsync_start, hsync_end, htotal,
vdisplay, vsync_start, vsync_end, vtotal and vscan, the same PHSYNC, PVSYNC and
INTERLACE bits, hskew 0 and the DBLCLK bit clear. -/
theorem timings_round_trip
    (drm_hdmi_avi_infoframe_from_display_mode : drm_display_mode → Int × hdmi_avi_infoframe)
    (drm_default_rgb_quant_range : drm_display_mode → hdmi_quantization_range)
    (drm_mode_vrefresh : drm_display_mode → Int)
    (display_number : Int) (mode : drm_display_mode) (hdmi_monitor : Bool)
    (broadcast_rgb : Int)
    (havi : 0 ≤ (drm_hdmi_avi_infoframe_from_display_mode mode).1)
    (hint : is_s32 mode.clock) (hclock : mode.clock ≠ 0)
    (hrange : mode.timings_typed) :
    ∃ t m, vc4_crtc_mode_set_nofb drm_hdmi_avi_infoframe_from_display_mode
        drm_default_rgb_quant_range drm_mode_vrefresh display_number mode hdmi_monitor
        broadcast_rgb = some t ∧
      vc4_fkms_get_fw_mode 0 t = (0, some m) ∧
      m.clock = mode.clock ∧ m.hdisplay = mode.hdisplay ∧
      m.hsync_start = mode.hsync_start ∧ m.hsync_end = mode.hsync_end ∧
      m.htotal = mode.htotal ∧ m.vdisplay = mode.vdisplay ∧
      m.vsync_start = mode.vsync_start ∧ m.vsync_end = mode.vsync_end ∧
      m.vtotal = mode.vtotal ∧ m.vscan = mode.vscan ∧
      (m.flags &&& DRM_MODE_FLAG_PHSYNC ≠ 0 ↔ mode.flags &&& DRM_MODE_FLAG_PHSYNC ≠ 0) ∧
      (m.flags &&& DRM_MODE_FLAG_PVSYNC ≠ 0 ↔ mode.flags &&& DRM_MODE_FLAG_PVSYNC ≠ 0) ∧
      (m.flags &&& DRM_MODE_FLAG_INTERLACE ≠ 0 ↔
        mode.flags &&& DRM_MODE_FLAG_INTERLACE ≠ 0) ∧
      m.hskew = 0 ∧ m.flags &&& DRM_MODE_FLAG_DBLCLK = 0 := by
  obtain ⟨t, ht, tc, t1, t2, t3, t4, _, t6, t7, t8, t9, t10, tf1, tf2, tf3⟩ :=
    mode_set_nofb_record drm_hdmi_avi_infoframe_from_display_mode
      drm_default_rgb_quant_range drm_mode_vrefresh display_number mode hdmi_monitor
      broadcast_rgb havi
  obtain ⟨r1, r2, r3, r4, r6, r7, r8, r9, r10⟩ := hrange
  have hu : u32 mode.clock ≠ 0 := by
    unfold is_s32 at hint
    unfold u32
    omega
  have hs : s32 (u32 mode.clock) = mode.clock := by
    unfold is_s32 at hint
    unfold s32 u32
    split <;> omega
  obtain ⟨m, hm, mc, m1, m2, m3, m4, m5, m6, m7, m8, m9, m10, mf⟩ :=
    get_fw_mode_record t (by rw [tc]; exact hu)
  obtain ⟨b1, _, b3, _, b5, b6, _⟩ := fw_mode_flags_bits t.flags
  refine ⟨t, m, ht, hm, ?_, ?_, ?_, ?_, ?_, ?_, ?_, ?_, ?_, ?_, ?_, ?_, ?_, m5, ?_⟩
  · rw [mc, tc, hs]
  · rw [m1, t1, u16_id r1.1 r1.2]
  · rw [m2, t2, u16_id r2.1 r2.2]
  · rw [m3, t3, u16_id r3.1 r3.2]
  · rw [m4, t4, u16_id r4.1 r4.2]
  · rw [m6, t6, u16_id r6.1 r6.2]
  · rw [m7, t7, u16_id r7.1 r7.2]
  · rw [m8, t8, u16_id r8.1 r8.2]
  · rw [m9, t9, u16_id r9.1 r9.2]
  · rw [m10, t10, u16_id r10.1 r10.2]
  · rw [mf]; exact b1.trans tf1
  · rw [mf]; exact b3.trans tf2
  · rw [mf]; exact b5.trans tf3
  · rw [mf]; exact b6

/-- C28, witness: the interlaced 1080 mode with positive hsync, negative vsync, a skew of
3 and the double-clock flag comes back with its timings and polarities, hskew 0 and
no double-clock flag. -/
theorem timings_round_trip_witness :
    ∃ t m, vc4_crtc_mode_set_nofb avi_720p default_range_limited drm_mode_vrefresh 2
        mode_1080i true VC4_BROADCAST_RGB_AUTO = some t ∧
      vc4_fkms_get_fw_mode 0 t = (0, some m) ∧
      m.clock = 74250 ∧ m.hdisplay = 1920 ∧ m.htotal = 2200 ∧ m.vdisplay = 1080 ∧
      m.vtotal = 1125 ∧ m.hskew = 0 ∧ m.flags &&& DRM_MODE_FLAG_DBLCLK = 0 ∧
      (m.flags &&& DRM_MODE_FLAG_PHSYNC ≠ 0 ↔ mode_1080i.flags &&& DRM_MODE_FLAG_PHSYNC ≠ 0) := by
  obtain ⟨t, m, h1, h2, h3, h4, _, _, h7, h8, _, _, h11, _, h13, _, _, h16, h17⟩ :=
    timings_round_trip avi_720p default_range_limited drm_mode_vrefresh 2 mode_1080i true
      VC4_BROADCAST_RGB_AUTO (by decide) (by decide) (by decide) (by decide)
  exact ⟨t, m, h1, h2, h3, h4, h7, h8, h11, h16, h17, h13⟩

/-- C28, an instance: the mode decoded from the record of the interlaced 1080 mode has
the flags PHSYNC, NVSYNC and INTERLACE. -/
theorem timings_round_trip_instance :
    (vc4_crtc_mode_set_nofb avi_720p default_range_limited drm_mode_vrefresh 2 mode_1080i
      true VC4_BROADCAST_RGB_AUTO).map
      (fun t => ((vc4_fkms_get_fw_mode 0 t).1,
        (vc4_fkms_get_fw_mode 0 t).2.map (fun m => (m.clock, m.hskew, m.flags)))) =
      some (0, some (74250, 0, 25)) := by
  decide

end Fkms
